import Mathlib

/-!
# Raktkosh: the blood stock ledger

A shallow embedding of `backend/models/BloodInventory.js`, of the `getInventory`,
`updateInventory` and `getLowStockAlerts` handlers of
`backend/controllers/BloodInventoryController.js`, of the donation lifecycle
(`backend/models/Donation.js`, `backend/controllers/donationController.js`), of the fulfil
route (`backend/models/BloodRequest.js`, `backend/routes/requests.js`) and of the donor
eligibility checks (`backend/models/user.js`, `backend/models/donor.js`), followed by the
properties of the ledger proved about them.

Conventions of the embedding:

* a stored JavaScript `Number` is a rational (`ℚ`); sums and differences of stock
  counts are exact (as they are on integers below `2 ^ 53`), while a quotient and a
  product are rounded to the nearest double (`roundDouble`), so that `7 / 100 * 100` is
  `7.000000000000001`; the sign of zero and the exponent range are not modelled;
* the result of the division `currentStock / capacity` in JavaScript is a `JSNum`,
  which adds the non-finite values a division by zero produces; the same division in
  an aggregation pipeline (`$divide`) fails the pipeline on a zero divisor;
* a mutating method takes the document (`self`) and returns the document after
  the call, next to what the call returned or threw;
* `new Date()` is the parameter `now` (milliseconds since the epoch, UTC); the local time
  that `getDate` and `setDate` work in is given by a `TimeZone`;
* an `ObjectId` is a `Nat`; a `find` casts the values of its query to the schema, an
  `aggregate` pipeline does not, so that an id sent as a string matches in the first and
  not in the second (`QueryValue`);
* `units` of a request body is a JSON number; the `createdAt` and `updatedAt` stamps
  of `timestamps: true` and the `_id` of a subdocument are left out.
-/

namespace Raktkosh

/-! ## JavaScript numbers -/

/-- The integer nearest to `q`, a tie going to the even one. -/
def roundHalfEven (q : ℚ) : ℤ :=
  if q - ⌊q⌋ < 1 / 2 then ⌊q⌋
  else if 1 / 2 < q - ⌊q⌋ then ⌊q⌋ + 1
  else if ⌊q⌋ % 2 = 0 then ⌊q⌋ else ⌊q⌋ + 1

/-- The double nearest to `q`, as every arithmetic operation on doubles returns it: 53
significant bits, round to nearest, ties to even. The exponent range of doubles is not
bounded here (a quotient of stock by capacity beyond `2 ^ 1024` or below `2 ^ -1022` is
outside the embedding). -/
def roundDouble (q : ℚ) : ℚ :=
  if q = 0 then 0
  else (roundHalfEven (q / 2 ^ (Int.log 2 |q| - 52)) : ℚ) * 2 ^ (Int.log 2 |q| - 52)

/-- The double that `(a / b) * 100` evaluates to for a divisor that is not zero: the
quotient is rounded, and so is the product. -/
def percentOf (a b : ℚ) : ℚ :=
  roundDouble (roundDouble (a / b) * 100)

/-- A value that `currentStock / capacity * 100` can take: a finite number, or
one of the non-finite results of dividing by zero. -/
inductive JSNum where
  | finite (q : ℚ)
  | posInf
  | negInf
  | nan
  deriving DecidableEq

namespace JSNum

/-- JavaScript `a / b` on finite operands: the quotient rounded to a double; a division
by zero gives `Infinity`, `-Infinity` or `NaN` according to the sign of the dividend. -/
def div (a b : ℚ) : JSNum :=
  if b ≠ 0 then finite (roundDouble (a / b))
  else if 0 < a then posInf
  else if a < 0 then negInf
  else nan

/-- JavaScript `x * k` for a finite `k`: the product rounded to a double. -/
def mul (x : JSNum) (k : ℚ) : JSNum :=
  match x with
  | finite q => finite (roundDouble (q * k))
  | posInf => if 0 < k then posInf else if k < 0 then negInf else nan
  | negInf => if 0 < k then negInf else if k < 0 then posInf else nan
  | nan => nan

/-- JavaScript `x <= l` for a finite `l`: false for `NaN` and `Infinity`. -/
def le (x : JSNum) (l : ℚ) : Bool :=
  match x with
  | finite q => decide (q ≤ l)
  | posInf => false
  | negInf => true
  | nan => false

end JSNum

/-! ## The schema of `BloodInventory` -/

/-- The `enum` of `alerts.type`. -/
inductive AlertType where
  | low_stock
  | expiring_soon
  | critical_stock
  deriving DecidableEq

/-- The `enum` of `alerts.severity`. -/
inductive Severity where
  | low
  | medium
  | high
  deriving DecidableEq

/-- The text of an alert, `${bloodGroup} stock is low: ${currentStock} units remaining`,
kept as the two values the template interpolates. -/
structure AlertMessage where
  bloodGroup : String
  remaining : ℚ
  deriving DecidableEq

/-- One element of `alerts`. -/
structure Alert where
  type : AlertType
  message : AlertMessage
  severity : Severity
  createdAt : Int
  resolved : Bool
  deriving DecidableEq

/-- One element of `expiryDates` (the expiry batches). -/
structure ExpiryEntry where
  units : ℚ
  expiryDate : Int
  donation : Option Nat
  deriving DecidableEq

/-- A `BloodInventory` document. -/
structure BloodInventory where
  id : Nat
  bloodBank : Nat
  bloodGroup : String
  currentStock : ℚ
  reservedStock : ℚ
  capacity : ℚ
  criticalLevel : ℚ
  lowLevel : ℚ
  expiryDates : List ExpiryEntry
  lastUpdated : Int
  alerts : List Alert
  deriving DecidableEq

/-- The values of the `status` virtual. -/
inductive StockStatus where
  | critical
  | low
  | adequate
  deriving DecidableEq

/-- What `removeStock` throws: `Insufficient stock available. Available: ${availableStock},
Requested: ${units}`, kept as the two interpolated values. -/
inductive LedgerError where
  | insufficientStock (available requested : ℚ)
  deriving DecidableEq

namespace BloodInventory

/-- The virtual `availableStock`: `Math.max(0, this.currentStock - this.reservedStock)`. -/
def availableStock (self : BloodInventory) : ℚ :=
  max 0 (self.currentStock - self.reservedStock)

/-- The virtual `utilization`: `(this.currentStock / this.capacity) * 100`. -/
def utilization (self : BloodInventory) : JSNum :=
  (JSNum.div self.currentStock self.capacity).mul 100

/-- The virtual `status`. -/
def status (self : BloodInventory) : StockStatus :=
  let utilization := self.utilization
  if utilization.le self.criticalLevel then StockStatus.critical
  else if utilization.le self.lowLevel then StockStatus.low
  else StockStatus.adequate

/-- The method `addStockFromDonation(donationId, units, expiryDate)`; the result is
the document after the call (the method has no `throw`). -/
def addStockFromDonation (self : BloodInventory) (donationId : Nat) (units : ℚ)
    (expiryDate : Int) (now : Int) : BloodInventory :=
  let s1 := { self with currentStock := self.currentStock + units }
  let s2 := { s1 with lastUpdated := now }
  { s2 with expiryDates := s2.expiryDates ++
      [{ units := units, expiryDate := expiryDate, donation := some donationId }] }

/-- The method `removeStock(units, requestId)`: what the call returns or throws,
and the document after the call. An alert pushed without `createdAt` and
`resolved` takes the schema defaults `Date.now` and `false`. -/
def removeStock (self : BloodInventory) (units : ℚ) (_requestId : Nat) (now : Int) :
    Except LedgerError Unit × BloodInventory :=
  if self.availableStock < units then
    (Except.error (LedgerError.insufficientStock self.availableStock units), self)
  else
    let s1 := { self with currentStock := self.currentStock - units }
    let s2 := { s1 with lastUpdated := now }
    if s2.utilization.le s2.lowLevel then
      (Except.ok (), { s2 with alerts := s2.alerts ++
        [{ type := AlertType.low_stock
           message := { bloodGroup := s2.bloodGroup, remaining := s2.currentStock }
           severity := if s2.utilization.le s2.criticalLevel then Severity.high
                       else Severity.medium
           createdAt := now
           resolved := false }] })
    else
      (Except.ok (), s2)

end BloodInventory

/-! ## The store and the `updateInventory` handler -/

/-- The `bloodinventories` collection, in insertion order. -/
abbrev Store := List BloodInventory

/-- The `enum` of `bloodGroup`. -/
def bloodGroups : List String :=
  ["A+", "A-", "B+", "B-", "AB+", "AB-", "O+", "O-"]

/-- `BloodInventory.findOne({ bloodBank, bloodGroup })`: the first matching document. -/
def findOne (store : Store) (bloodBank : Nat) (bloodGroup : String) : Option BloodInventory :=
  store.find? (fun d => d.bloodBank == bloodBank && d.bloodGroup == bloodGroup)

/-- `new BloodInventory({ bloodBank, bloodGroup, currentStock: 0, capacity: 100 })`:
the other paths take the defaults of the schema. -/
def newBloodInventory (newId : Nat) (bloodBank : Nat) (bloodGroup : String) (now : Int) :
    BloodInventory :=
  { id := newId
    bloodBank := bloodBank
    bloodGroup := bloodGroup
    currentStock := 0
    reservedStock := 0
    capacity := 100
    criticalLevel := 10
    lowLevel := 20
    expiryDates := []
    lastUpdated := now
    alerts := [] }

/-- The validators of the schema that `save()` runs on the document: `enum` on
`bloodGroup` and `min: 0` on `currentStock`, `reservedStock` and `capacity`. -/
def validate (doc : BloodInventory) : Bool :=
  decide (doc.bloodGroup ∈ bloodGroups) && decide (0 ≤ doc.currentStock) &&
    decide (0 ≤ doc.reservedStock) && decide (0 ≤ doc.capacity)

/-- The call `inventory.save()`: a validation failure throws and writes nothing; a new
document is inserted, a stored one is replaced under its `_id`. -/
def save (store : Store) (doc : BloodInventory) (isNew : Bool) : Except Unit Store :=
  if validate doc then
    if isNew then Except.ok (store ++ [doc])
    else Except.ok (store.map (fun d => if d.id = doc.id then doc else d))
  else Except.error ()

/-- The authenticated principal `req.user`. -/
structure AuthUser where
  userId : Nat
  role : String
  deriving DecidableEq

/-- The body of `PUT /update`; a falsy `bloodBankId` is `none`. -/
structure UpdateBody where
  bloodGroup : String
  units : ℚ
  operation : String
  bloodBankId : Option Nat
  deriving DecidableEq

/-- The `message` of a response of `updateInventory`; the insufficient-stock text
`Insufficient stock. Available: ${availableStock}, Requested: ${units}` is kept as its
two interpolated values. -/
inductive ResponseMessage where
  | bloodBankIdRequired
  | insufficientStock (available requested : ℚ)
  | invalidOperation
  | inventoryUpdated
  | failedToUpdate
  deriving DecidableEq

/-- What `res.status(code).json(body)` sends. -/
structure Response where
  status : Nat
  success : Bool
  message : ResponseMessage
  data : Option BloodInventory
  deriving DecidableEq

/-- The tail of `updateInventory`: set `lastUpdated`, save, answer 200; a throw of
`save()` is caught and answered with 500. -/
def saveAndRespond (store : Store) (inventory : BloodInventory) (isNew : Bool) (now : Int) :
    Response × Store :=
  let inventory := { inventory with lastUpdated := now }
  match save store inventory isNew with
  | Except.ok store1 =>
    ({ status := 200, success := true, message := ResponseMessage.inventoryUpdated,
       data := some inventory }, store1)
  | Except.error _ =>
    ({ status := 500, success := false, message := ResponseMessage.failedToUpdate,
       data := none }, store)

/-- The document `updateInventory` works on: the stored one, or a new one. -/
def findOrNew (store : Store) (bloodBank : Nat) (bloodGroup : String) (newId : Nat)
    (now : Int) : BloodInventory :=
  match findOne store bloodBank bloodGroup with
  | some d => d
  | none => newBloodInventory newId bloodBank bloodGroup now

/-- The blood bank `updateInventory` acts for:
`req.user.role === 'admin' ? req.body.bloodBankId : req.user.userId`. -/
def targetBloodBank (user : AuthUser) (body : UpdateBody) : Option Nat :=
  if user.role = "admin" then body.bloodBankId else some user.userId

/-- The handler `updateInventory(req, res)`: the response and the store after the call.
`newId` is the `_id` a new document would receive. -/
def updateInventory (store : Store) (user : AuthUser) (body : UpdateBody) (newId : Nat)
    (now : Int) : Response × Store :=
  match targetBloodBank user body with
  | none =>
    ({ status := 400, success := false, message := ResponseMessage.bloodBankIdRequired,
       data := none }, store)
  | some bloodBankId =>
    let isNew := (findOne store bloodBankId body.bloodGroup).isNone
    let inventory := findOrNew store bloodBankId body.bloodGroup newId now
    if body.operation = "add" then
      saveAndRespond store { inventory with currentStock := inventory.currentStock + body.units }
        isNew now
    else if body.operation = "remove" then
      if inventory.availableStock < body.units then
        ({ status := 400, success := false
           message := ResponseMessage.insufficientStock inventory.availableStock body.units
           data := none }, store)
      else
        saveAndRespond store
          { inventory with currentStock := inventory.currentStock - body.units } isNew now
    else
      ({ status := 400, success := false, message := ResponseMessage.invalidOperation,
         data := none }, store)

/-! ## Sample documents -/

/-- The record of the scenarios: 20 units of 100, thresholds 10 and 20, nothing reserved. -/
def sampleRecord : BloodInventory :=
  { id := 1
    bloodBank := 42
    bloodGroup := "A+"
    currentStock := 20
    reservedStock := 0
    capacity := 100
    criticalLevel := 10
    lowLevel := 20
    expiryDates := []
    lastUpdated := 0
    alerts := [] }

/-- A record the schema accepts (`capacity` has `min: 0`) whose capacity is zero. -/
def zeroCapacityRecord : BloodInventory :=
  { sampleRecord with id := 2, currentStock := 5, capacity := 0 }

/-- A record of the same bank at 5 units of 100. -/
def lowRecord : BloodInventory :=
  { sampleRecord with id := 3, bloodGroup := "B+", currentStock := 5 }

/-- A record of another bank at 50 units of 100. -/
def fullRecord : BloodInventory :=
  { sampleRecord with id := 4, bloodBank := 43, bloodGroup := "O+", currentStock := 50 }

/-- A store of three records, at 20, 5 and 50 units of 100. -/
def sampleStore : Store := [sampleRecord, lowRecord, fullRecord]

/-! ## getExpiringSoon -/

/-- The milliseconds of a day (`msPerDay` of the language specification). -/
def msPerDay : Int := 86400000

/-- The time zone of the server: the offset of local time from UTC, in milliseconds, read
at a UTC instant (`offsetAtUtc`, which `getDate` uses) and read at a local time
(`offsetAtLocal`, which `setDate` uses to go back to a UTC instant). -/
structure TimeZone where
  offsetAtUtc : Int → Int
  offsetAtLocal : Int → Int

namespace TimeZone

/-- The local time of the UTC instant `t`. -/
def localTime (tz : TimeZone) (t : Int) : Int :=
  t + tz.offsetAtUtc t

/-- The UTC instant of the local time `t`. -/
def utc (tz : TimeZone) (t : Int) : Int :=
  t - tz.offsetAtLocal t

/-- A zone whose offset never changes. -/
def fixedOffset (offset : Int) : TimeZone :=
  { offsetAtUtc := fun _ => offset, offsetAtLocal := fun _ => offset }

/-- A zone that is on UTC until the UTC instant `change` and one hour ahead from then on
(clocks go forward); a local time inside the skipped hour is read with the offset before
the change. -/
def springForward (change : Int) : TimeZone :=
  { offsetAtUtc := fun t => if t < change then 0 else 3600000
    offsetAtLocal := fun t => if t < change + 3600000 then 0 else 3600000 }

end TimeZone

/-- The date `threshold` after `threshold.setDate(threshold.getDate() + days)` for a whole
number `days`, from `threshold = now`: the day of the local time is moved `days` days on,
the time within the day is kept, and the local time so made is taken back to UTC. -/
def setDateDaysLater (tz : TimeZone) (now : Int) (days : Int) : Int :=
  tz.utc (tz.localTime now + days * msPerDay)

namespace BloodInventory

/-- The method `getExpiringSoon(days = 7)`; an omitted argument is `none`, and `days` is a
whole number of days. Every `new Date()` of one call reads the same `now`. -/
def getExpiringSoon (self : BloodInventory) (tz : TimeZone) (now : Int) (days : Option Int) :
    List ExpiryEntry :=
  let threshold := setDateDaysLater tz now (days.getD 7)
  self.expiryDates.filter (fun expiry =>
    decide (expiry.expiryDate ≤ threshold) && decide (expiry.expiryDate > now))

end BloodInventory

/-! ## The aggregations -/

/-- The failure of an aggregation pipeline (`$divide` by zero). -/
inductive AggError where
  | divideByZero
  deriving DecidableEq

/-- The operator `$divide` of the aggregation language: the quotient as a double; a zero
divisor fails the pipeline. -/
def mongoDivide (a b : ℚ) : Except AggError ℚ :=
  if b = 0 then Except.error AggError.divideByZero else Except.ok (roundDouble (a / b))

/-- The expression `{ $multiply: [{ $divide: ['$currentStock', '$capacity'] }, 100] }`. -/
def utilizationExpr (d : BloodInventory) : Except AggError ℚ :=
  match mongoDivide d.currentStock d.capacity with
  | Except.ok q => Except.ok (roundDouble (q * 100))
  | Except.error e => Except.error e

/-- A stage that evaluates an expression on every document, in order, and fails with the
first failure. -/
def mapExcept {α β : Type} (f : α → Except AggError β) : List α → Except AggError (List β)
  | [] => Except.ok []
  | a :: rest =>
    match f a with
    | Except.error e => Except.error e
    | Except.ok b =>
      match mapExcept f rest with
      | Except.error e => Except.error e
      | Except.ok bs => Except.ok (b :: bs)

/-- The `$match` stage `{ $expr: { $lte: [utilization, '$lowLevel'] } }`: the documents
that pass, in order. -/
def matchLowStock (docs : List BloodInventory) : Except AggError (List BloodInventory) :=
  match mapExcept (fun d =>
      match utilizationExpr d with
      | Except.ok u => Except.ok (d, decide (u ≤ d.lowLevel))
      | Except.error e => Except.error e) docs with
  | Except.ok flagged => Except.ok ((flagged.filter (fun p => p.2)).map (fun p => p.1))
  | Except.error e => Except.error e

/-- The paths of a `users` document that the `$lookup` of `getSystemWideAlerts` reads. -/
structure UserInfo where
  id : Nat
  name : Option String
  city : Option String
  deriving DecidableEq

/-- One document of the result of `getSystemWideAlerts`. -/
structure SystemAlert where
  id : Nat
  bloodGroup : String
  currentStock : ℚ
  capacity : ℚ
  utilization : ℚ
  bloodBankName : Option String
  bloodBankCity : Option String
  status : StockStatus
  deriving DecidableEq

/-- The `$lookup` and `$project` stages on one document: `bloodBankInfo` is the list of
users whose `_id` is the `bloodBank` of the document. -/
def projectAlert (users : List UserInfo) (d : BloodInventory) : Except AggError SystemAlert :=
  let bloodBankInfo := users.filter (fun u => u.id == d.bloodBank)
  match utilizationExpr d with
  | Except.error e => Except.error e
  | Except.ok u =>
    Except.ok
      { id := d.id
        bloodGroup := d.bloodGroup
        currentStock := d.currentStock
        capacity := d.capacity
        utilization := u
        bloodBankName := (bloodBankInfo.filterMap (fun i => i.name)).head?
        bloodBankCity := (bloodBankInfo.filterMap (fun i => i.city)).head?
        status := if u ≤ d.criticalLevel then StockStatus.critical else StockStatus.low }

/-- The document `projectAlert` makes of a record whose capacity is not zero, the
utilization written as the double `percentOf`. -/
def alertEntry (users : List UserInfo) (d : BloodInventory) : SystemAlert :=
  { id := d.id
    bloodGroup := d.bloodGroup
    currentStock := d.currentStock
    capacity := d.capacity
    utilization := percentOf d.currentStock d.capacity
    bloodBankName :=
      ((users.filter (fun u => u.id == d.bloodBank)).filterMap (fun i => i.name)).head?
    bloodBankCity :=
      ((users.filter (fun u => u.id == d.bloodBank)).filterMap (fun i => i.city)).head?
    status :=
      if percentOf d.currentStock d.capacity ≤ d.criticalLevel then StockStatus.critical
      else StockStatus.low }

/-- The static `getSystemWideAlerts()`: `$match`, `$lookup`, `$project`, then `$sort` by
ascending `utilization`. -/
def getSystemWideAlerts (store : Store) (users : List UserInfo) :
    Except AggError (List SystemAlert) :=
  match matchLowStock store with
  | Except.error e => Except.error e
  | Except.ok matched =>
    match mapExcept (projectAlert users) matched with
    | Except.error e => Except.error e
    | Except.ok projected =>
      Except.ok (projected.insertionSort (fun a b => a.utilization ≤ b.utilization))

/-- The group document of the `summary` aggregation of `getInventory`. -/
structure InventorySummary where
  totalStock : ℚ
  totalCapacity : ℚ
  lowStockCount : Nat
  deriving DecidableEq

/-- The accumulators of the `$group` stage after one more document. -/
def accumulate (acc : InventorySummary) (d : BloodInventory) :
    Except AggError InventorySummary :=
  match utilizationExpr d with
  | Except.error e => Except.error e
  | Except.ok u =>
    Except.ok
      { totalStock := acc.totalStock + d.currentStock
        totalCapacity := acc.totalCapacity + d.capacity
        lowStockCount := acc.lowStockCount + (if u ≤ d.lowLevel then 1 else 0) }

/-- The `$group` stage with `_id: null` run over the matched documents, from the
accumulators `acc`. -/
def groupFrom (acc : InventorySummary) : List BloodInventory → Except AggError InventorySummary
  | [] => Except.ok acc
  | d :: rest =>
    match accumulate acc d with
    | Except.error e => Except.error e
    | Except.ok acc1 => groupFrom acc1 rest

/-- The `summary` aggregation followed by `summary[0]`: no group document (`none`, sent
as `{}`) when nothing matches. -/
def summarize (docs : List BloodInventory) : Except AggError (Option InventorySummary) :=
  match docs with
  | [] => Except.ok none
  | _ :: _ =>
    match groupFrom { totalStock := 0, totalCapacity := 0, lowStockCount := 0 } docs with
    | Except.error e => Except.error e
    | Except.ok g => Except.ok (some g)

/-! ## The `getInventory` handler -/

/-- A value of the path `bloodBank` in the `query` object of `getInventory`: the `ObjectId`
of the authenticated user (`req.user.userId`, which the `auth` middleware sets from
`user._id`), or the string `req.query.bloodBankId`, kept as the id `b` it is the text of. -/
inductive QueryValue where
  | objectId (b : Nat)
  | text (b : Nat)
  deriving DecidableEq

/-- The `ObjectId` a value of the path `bloodBank` is cast to by the schema. -/
def QueryValue.toObjectId : QueryValue → Nat
  | QueryValue.objectId b => b
  | QueryValue.text b => b

/-- The `query` object of `getInventory`: `none` is `{}`, `some v` is `{ bloodBank: v }`;
an error is the 403 answer. -/
def inventoryQuery (user : AuthUser) (bloodBankId : Option Nat) :
    Except Unit (Option QueryValue) :=
  let restricted : Except Unit (Option QueryValue) :=
    if user.role ≠ "admin" ∧ bloodBankId.isNone then
      if user.role = "bloodbank" then Except.ok (some (QueryValue.objectId user.userId))
      else Except.error ()
    else Except.ok none
  match restricted with
  | Except.error e => Except.error e
  | Except.ok query =>
    match bloodBankId with
    | some b => Except.ok (some (QueryValue.text b))
    | none => Except.ok query

/-- `BloodInventory.find(query)`, the value of `bloodBank` already cast to an `ObjectId`
(`Model.find` casts a query to the schema). -/
def find (store : Store) (query : Option Nat) : List BloodInventory :=
  match query with
  | none => store
  | some b => store.filter (fun d => d.bloodBank == b)

/-- The stage `{ $match: query }` of `BloodInventory.aggregate`: a pipeline is sent as it
is written, without a cast to the schema, and a string equals no stored `ObjectId`. -/
def aggregateMatch (store : Store) (query : Option QueryValue) : List BloodInventory :=
  match query with
  | none => store
  | some (QueryValue.objectId b) => store.filter (fun d => d.bloodBank == b)
  | some (QueryValue.text _) => []

/-- What `getInventory` sends: the status, `data.inventory` and `data.summary`. -/
structure InventoryResponse where
  status : Nat
  success : Bool
  inventory : List BloodInventory
  summary : Option InventorySummary
  deriving DecidableEq

/-- The handler `getInventory(req, res)`; `bloodBankId` is `req.query.bloodBankId`, `none`
when falsy, and the text of an `ObjectId` otherwise. The `populate` of the blood bank is
left out; a `summary` of `none` is sent as `{}`. -/
def getInventory (store : Store) (user : AuthUser) (bloodBankId : Option Nat) :
    InventoryResponse :=
  match inventoryQuery user bloodBankId with
  | Except.error _ => { status := 403, success := false, inventory := [], summary := none }
  | Except.ok query =>
    let inventory := (find store (query.map QueryValue.toObjectId)).insertionSort
      (fun a b => a.bloodGroup ≤ b.bloodGroup)
    match summarize (aggregateMatch store query) with
    | Except.error _ => { status := 500, success := false, inventory := [], summary := none }
    | Except.ok summary =>
      { status := 200, success := true, inventory := inventory, summary := summary }

/-! ## The donation lifecycle (`models/Donation.js`, `controllers/donationController.js`) -/

/-- The nested path `testResults` of a donation. -/
structure TestResults where
  hiv : Bool
  hepatitisB : Bool
  hepatitisC : Bool
  syphilis : Bool
  malaria : Bool
  testedAt : Option Int
  labTechnician : Option String
  isSafe : Bool
  deriving DecidableEq

/-- A `Donation` document: the paths the ledger reads, and its status and test results.
The generated `donationId`, the health screening, the notes and the location are left
out. -/
structure Donation where
  id : Nat
  donor : Nat
  bloodBank : Nat
  bloodGroup : String
  unitsDonated : ℚ
  donationDate : Int
  expiryDate : Int
  status : String
  testResults : TestResults
  deriving DecidableEq

/-- The `enum` of the `status` of a donation. -/
def donationStatuses : List String :=
  ["scheduled", "in-progress", "completed", "cancelled", "rejected", "processed"]

/-- The five flags of `req.body.testResults`; a key that is absent is `none`. -/
structure TestResultsBody where
  hiv : Option Bool
  hepatitisB : Option Bool
  hepatitisC : Option Bool
  syphilis : Option Bool
  malaria : Option Bool
  deriving DecidableEq

/-- JavaScript `!flag` on a key of the body: an absent key is falsy. -/
def isNegative (flag : Option Bool) : Bool :=
  match flag with
  | some true => false
  | _ => true

/-- The update `{ $inc: { currentStock }, $push: { expiryDates }, $set: { lastUpdated } }`
applied to the first document that matches `{ bloodBank, bloodGroup }`. -/
def updateFirst (bloodBank : Nat) (bloodGroup : String) (units : ℚ) (expiryDate : Int)
    (now : Int) : Store → Store
  | [] => []
  | d :: rest =>
    if d.bloodBank == bloodBank && d.bloodGroup == bloodGroup then
      { d with
        currentStock := d.currentStock + units
        expiryDates := d.expiryDates ++
          [{ units := units, expiryDate := expiryDate, donation := none }]
        lastUpdated := now } :: rest
    else d :: updateFirst bloodBank bloodGroup units expiryDate now rest

/-- `BloodInventory.findOneAndUpdate(filter, update, { upsert: true, new: true })` of the
post-save hook. Without a match a document is inserted from the filter, the update and
the defaults of the schema; no validator runs on this path. -/
def findOneAndUpdate (store : Store) (bloodBank : Nat) (bloodGroup : String) (units : ℚ)
    (expiryDate : Int) (newId : Nat) (now : Int) : Store :=
  match findOne store bloodBank bloodGroup with
  | some _ => updateFirst bloodBank bloodGroup units expiryDate now store
  | none =>
    store ++
      [{ id := newId
         bloodBank := bloodBank
         bloodGroup := bloodGroup
         currentStock := units
         reservedStock := 0
         capacity := 100
         criticalLevel := 10
         lowLevel := 20
         expiryDates := [{ units := units, expiryDate := expiryDate, donation := none }]
         lastUpdated := now
         alerts := [] }]

namespace Donation

/-- The validators of the donation schema on the modelled paths. -/
def validate (doc : Donation) : Bool :=
  decide (doc.bloodGroup ∈ bloodGroups) && decide (1 ≤ doc.unitsDonated) &&
    decide (doc.unitsDonated ≤ 2) && decide (doc.status ∈ donationStatuses)

/-- The hook `donationSchema.post('save')` on the inventory. The update of the donor
statistics, which precedes the inventory update in the same `try` block and does not touch
the inventory, is left out. -/
def postSave (doc : Donation) (store : Store) (newId : Nat) (now : Int) : Store :=
  if doc.status = "completed" ∧ doc.testResults.isSafe = true then
    findOneAndUpdate store doc.bloodBank doc.bloodGroup doc.unitsDonated doc.expiryDate
      newId now
  else store

/-- The call `donation.save()` on a stored donation: validation, the write under the
`_id`, then the post-save hook. A validation failure throws before anything is written. -/
def save (donations : List Donation) (store : Store) (doc : Donation) (newId : Nat)
    (now : Int) : Except Unit (List Donation × Store) :=
  if doc.validate then
    Except.ok (donations.map (fun d => if d.id = doc.id then doc else d),
      doc.postSave store newId now)
  else Except.error ()

end Donation

/-- The `message` of a response of `processTestResults` or `completeDonation`. -/
inductive DonationMessage where
  | donationNotFound
  | mustBeCompleted
  | testsPassed
  | testsFailed
  | failedToProcess
  | alreadyCompleted
  | donationCompleted
  | failedToComplete
  deriving DecidableEq

/-- What `processTestResults` and `completeDonation` send. -/
structure DonationResponse where
  status : Nat
  success : Bool
  message : DonationMessage
  donation : Option Donation
  deriving DecidableEq

/-- The handler `processTestResults(req, res)`: the response, the donations and the
inventory after the call. `testResults` is `req.body.testResults` (`none` when absent:
reading a flag of it then throws, which the `catch` answers with 500). -/
def processTestResults (donations : List Donation) (store : Store) (donationId : Nat)
    (testResults : Option TestResultsBody) (labTechnician : Option String) (newId : Nat)
    (now : Int) : DonationResponse × List Donation × Store :=
  match donations.find? (fun d => d.id == donationId) with
  | none =>
    ({ status := 404, success := false, message := DonationMessage.donationNotFound,
       donation := none }, donations, store)
  | some donation =>
    if donation.status ≠ "completed" then
      ({ status := 400, success := false, message := DonationMessage.mustBeCompleted,
         donation := none }, donations, store)
    else
      match testResults with
      | none =>
        ({ status := 500, success := false, message := DonationMessage.failedToProcess,
           donation := none }, donations, store)
      | some body =>
        let merged : TestResults :=
          { hiv := body.hiv.getD donation.testResults.hiv
            hepatitisB := body.hepatitisB.getD donation.testResults.hepatitisB
            hepatitisC := body.hepatitisC.getD donation.testResults.hepatitisC
            syphilis := body.syphilis.getD donation.testResults.syphilis
            malaria := body.malaria.getD donation.testResults.malaria
            testedAt := some now
            labTechnician := labTechnician
            isSafe := donation.testResults.isSafe }
        let isSafe := isNegative body.hiv && isNegative body.hepatitisB &&
          isNegative body.hepatitisC && isNegative body.syphilis && isNegative body.malaria
        let donation1 := { donation with testResults := { merged with isSafe := isSafe } }
        let donation2 :=
          { donation1 with status := if isSafe then "processed" else "rejected" }
        match Donation.save donations store donation2 newId now with
        | Except.error _ =>
          ({ status := 500, success := false, message := DonationMessage.failedToProcess,
             donation := none }, donations, store)
        | Except.ok (donations1, store1) =>
          ({ status := 200, success := true
             message := if isSafe then DonationMessage.testsPassed
                        else DonationMessage.testsFailed
             donation := some donation2 }, donations1, store1)

/-- The handler `completeDonation(req, res)`: the response, the donations and the
inventory after the call. The health screening and the notes it stores are left out, and
with them their validators. -/
def completeDonation (donations : List Donation) (store : Store) (donationId : Nat)
    (newId : Nat) (now : Int) : DonationResponse × List Donation × Store :=
  match donations.find? (fun d => d.id == donationId) with
  | none =>
    ({ status := 404, success := false, message := DonationMessage.donationNotFound,
       donation := none }, donations, store)
  | some donation =>
    if donation.status = "completed" then
      ({ status := 400, success := false, message := DonationMessage.alreadyCompleted,
         donation := none }, donations, store)
    else
      let donation1 := { donation with status := "completed" }
      match Donation.save donations store donation1 newId now with
      | Except.error _ =>
        ({ status := 500, success := false, message := DonationMessage.failedToComplete,
           donation := none }, donations, store)
      | Except.ok (donations1, store1) =>
        ({ status := 200, success := true, message := DonationMessage.donationCompleted,
           donation := some donation1 }, donations1, store1)

/-! ## Request fulfilment (`models/BloodRequest.js`, `routes/requests.js`) -/

/-- The nested path `fulfillmentDetails`. -/
structure FulfillmentDetails where
  fulfilledBy : Nat
  fulfilledAt : Int
  unitsProvided : ℚ
  notes : String
  deriving DecidableEq

/-- A `BloodRequest` document: the paths the fulfilment reads or writes. The patient,
hospital, location and contact paths are left out. -/
structure BloodRequest where
  id : Nat
  bloodGroup : String
  unitsRequired : ℚ
  status : String
  assignedBloodBank : Option Nat
  fulfillmentDetails : Option FulfillmentDetails
  deriving DecidableEq

/-- The `enum` of the `status` of a request. -/
def requestStatuses : List String :=
  ["pending", "approved", "rejected", "fulfilled", "cancelled"]

namespace BloodRequest

/-- The method `fulfill(fulfilledBy, unitsProvided, notes = '')`. -/
def fulfill (self : BloodRequest) (fulfilledBy : Nat) (unitsProvided : ℚ)
    (notes : Option String) (now : Int) : BloodRequest :=
  let s1 := { self with status := "fulfilled" }
  let details : FulfillmentDetails :=
    { fulfilledBy := fulfilledBy
      fulfilledAt := now
      unitsProvided := unitsProvided
      notes := notes.getD "" }
  { s1 with fulfillmentDetails := some details }

/-- The validators of the request schema on the modelled paths. -/
def validate (doc : BloodRequest) : Bool :=
  decide (doc.bloodGroup ∈ bloodGroups) && decide (1 ≤ doc.unitsRequired) &&
    decide (doc.unitsRequired ≤ 10) && decide (doc.status ∈ requestStatuses)

end BloodRequest

/-- The `message` of a response of the fulfil route. -/
inductive RequestMessage where
  | requestNotFound
  | requestFulfilled
  | failedToFulfill
  deriving DecidableEq

/-- What the fulfil route sends. -/
structure RequestResponse where
  status : Nat
  success : Bool
  message : RequestMessage
  request : Option BloodRequest
  deriving DecidableEq

/-- The route `POST /:requestId/fulfill`: the response, the requests and the inventory
after the call. The handler has no statement on `BloodInventory` (the schema of a request
has no hook either), so the inventory it returns is the one it was given. -/
def fulfillRoute (requests : List BloodRequest) (store : Store) (user : AuthUser)
    (requestId : Nat) (unitsProvided : ℚ) (notes : Option String) (now : Int) :
    RequestResponse × List BloodRequest × Store :=
  match requests.find? (fun r => r.id == requestId) with
  | none =>
    ({ status := 404, success := false, message := RequestMessage.requestNotFound,
       request := none }, requests, store)
  | some request =>
    let request1 := request.fulfill user.userId unitsProvided notes now
    if request1.validate then
      ({ status := 200, success := true, message := RequestMessage.requestFulfilled,
         request := some request1 },
       requests.map (fun r => if r.id = request1.id then request1 else r), store)
    else
      ({ status := 500, success := false, message := RequestMessage.failedToFulfill,
         request := none }, requests, store)

/-! ## The `getLowStockAlerts` handler -/

/-- What `getLowStockAlerts` sends: the status, `data.lowStock` and `data.systemAlerts`. -/
structure AlertsResponse where
  status : Nat
  success : Bool
  lowStock : List BloodInventory
  systemAlerts : List SystemAlert
  deriving DecidableEq

/-- The `query` object of `getLowStockAlerts`: `none` is `{}`, `some b` is
`{ bloodBank: b }`; an error is the 403 answer. -/
def alertsQuery (user : AuthUser) : Except Unit (Option Nat) :=
  if user.role ≠ "admin" then
    if user.role = "bloodbank" then Except.ok (some user.userId)
    else Except.error ()
  else Except.ok none

/-- The handler `getLowStockAlerts(req, res)`: `find({ ...query, $expr })` sorted by
`bloodGroup`, then the system-wide alerts for an admin. A failing `$divide` of either
query is caught and answered with 500. The `populate` of the blood bank is left out. -/
def getLowStockAlerts (store : Store) (users : List UserInfo) (user : AuthUser) :
    AlertsResponse :=
  match alertsQuery user with
  | Except.error _ => { status := 403, success := false, lowStock := [], systemAlerts := [] }
  | Except.ok query =>
    match matchLowStock (find store query) with
    | Except.error _ =>
      { status := 500, success := false, lowStock := [], systemAlerts := [] }
    | Except.ok matched =>
      let lowStock := matched.insertionSort (fun a b => a.bloodGroup ≤ b.bloodGroup)
      let systemAlerts : Except AggError (List SystemAlert) :=
        if user.role = "admin" then getSystemWideAlerts store users else Except.ok []
      match systemAlerts with
      | Except.error _ =>
        { status := 500, success := false, lowStock := [], systemAlerts := [] }
      | Except.ok alerts =>
        { status := 200, success := true, lowStock := lowStock, systemAlerts := alerts }

/-! ## `updateInventory` across its two `await`s -/

/-- The part of `updateInventory` that runs after `await BloodInventory.findOne(...)` has
resolved with `found`: it works on that document (or a new one) and saves it into the
store as it is when `save()` runs. Another handler may run between the two. -/
def updateInventoryFrom (found : Option BloodInventory) (store : Store) (bloodBankId : Nat)
    (body : UpdateBody) (newId : Nat) (now : Int) : Response × Store :=
  let isNew := found.isNone
  let inventory :=
    match found with
    | some d => d
    | none => newBloodInventory newId bloodBankId body.bloodGroup now
  if body.operation = "add" then
    saveAndRespond store { inventory with currentStock := inventory.currentStock + body.units }
      isNew now
  else if body.operation = "remove" then
    if inventory.availableStock < body.units then
      ({ status := 400, success := false
         message := ResponseMessage.insufficientStock inventory.availableStock body.units
         data := none }, store)
    else
      saveAndRespond store
        { inventory with currentStock := inventory.currentStock - body.units } isNew now
  else
    ({ status := 400, success := false, message := ResponseMessage.invalidOperation,
       data := none }, store)

/-- Two `updateInventory` calls of identified blood banks that overlap: both `findOne`
resolve on the store `store` before either `save()` runs; the first call then saves, and
the second saves into the store the first left. -/
def updateInventoryOverlapped (store : Store) (bank1 : Nat) (body1 : UpdateBody) (newId1 : Nat)
    (bank2 : Nat) (body2 : UpdateBody) (newId2 : Nat) (now : Int) :
    Response × Response × Store :=
  let found1 := findOne store bank1 body1.bloodGroup
  let found2 := findOne store bank2 body2.bloodGroup
  let first := updateInventoryFrom found1 store bank1 body1 newId1 now
  let second := updateInventoryFrom found2 first.2 bank2 body2 newId2 now
  (first.1, second.1, second.2)

/-- The records of a key in the store. -/
def recordsOf (store : Store) (bloodBank : Nat) (bloodGroup : String) : List BloodInventory :=
  store.filter (fun d => d.bloodBank == bloodBank && d.bloodGroup == bloodGroup)

/-! ## Donor eligibility (`models/user.js`, `models/donor.js`) -/

/-- A JavaScript `Date` as the eligibility check reads it: its time value (milliseconds)
and its calendar year, month (1 to 12) and day of the month in the local time zone. -/
structure JSDate where
  time : Int
  fullYear : Int
  month : Nat
  date : Nat
  deriving DecidableEq

/-- The nested path `donorStatus` of a user: the two paths the eligibility check reads. -/
structure DonorStatus where
  isEligible : Bool
  nextEligibleDate : Option JSDate
  deriving DecidableEq

/-- A `User` document: the paths `isEligibleToDonate` reads. -/
structure User where
  role : String
  donorStatus : DonorStatus
  dateOfBirth : JSDate
  deriving DecidableEq

namespace User

/-- The method `isEligibleToDonate()`; `today` is `new Date()`. -/
def isEligibleToDonate (self : User) (today : JSDate) : Bool :=
  if self.role ≠ "donor" then false
  else if self.donorStatus.isEligible = false then false
  else
    let age := today.fullYear - self.dateOfBirth.fullYear
    if age < 18 ∨ age > 65 then false
    else
      match self.donorStatus.nextEligibleDate with
      | some nextEligibleDate => if today.time < nextEligibleDate.time then false else true
      | none => true

end User

/-- The age in completed years on the date `today`, as `validateForm` of
`frontend/src/components/auth/Register.jsx` computes it for the same bounds of 18 and 65
(and as the claim on eligibility words it): the difference of the calendar years, less one
when the birthday of the year is still to come. -/
def completedYears (today dateOfBirth : JSDate) : Int :=
  today.fullYear - dateOfBirth.fullYear -
    (if today.month < dateOfBirth.month ∨
        (today.month = dateOfBirth.month ∧ today.date < dateOfBirth.date) then 1 else 0)

/-- A `Donor` document: the paths `canDonate` reads. -/
structure Donor where
  lastDonation : Option Int
  eligibilityStatus : String
  availableForDonation : Bool
  deriving DecidableEq

namespace Donor

/-- The virtual `daysSinceLastDonation`; `now` is `Date.now()`, and `Math.floor` of the
quotient by a positive number is the integer division. -/
def daysSinceLastDonation (self : Donor) (now : Int) : Option Int :=
  match self.lastDonation with
  | none => none
  | some lastDonation => some ((now - lastDonation) / msPerDay)

/-- The virtual `canDonate`. -/
def canDonate (self : Donor) (now : Int) : Bool :=
  if self.lastDonation.isNone then decide (self.eligibilityStatus = "eligible")
  else
    match self.daysSinceLastDonation now with
    | some daysSince =>
      decide (daysSince ≥ 56) && decide (self.eligibilityStatus = "eligible") &&
        self.availableForDonation
    | none => false

/-- The static `getCompatibleDonors(requiredBloodGroup)`: the table, and `[]` for a key
that is not in it. -/
def getCompatibleDonors (requiredBloodGroup : String) : List String :=
  match requiredBloodGroup with
  | "A+" => ["A+", "A-", "O+", "O-"]
  | "A-" => ["A-", "O-"]
  | "B+" => ["B+", "B-", "O+", "O-"]
  | "B-" => ["B-", "O-"]
  | "AB+" => ["A+", "A-", "B+", "B-", "AB+", "AB-", "O+", "O-"]
  | "AB-" => ["A-", "B-", "AB-", "O-"]
  | "O+" => ["O+", "O-"]
  | "O-" => ["O-"]
  | _ => []

end Donor

/-- The blood groups that carry the A antigen. -/
def antigenA (g : String) : Bool :=
  g == "A+" || g == "A-" || g == "AB+" || g == "AB-"

/-- The blood groups that carry the B antigen. -/
def antigenB (g : String) : Bool :=
  g == "B+" || g == "B-" || g == "AB+" || g == "AB-"

/-- The Rh-positive blood groups. -/
def rhPositive (g : String) : Bool :=
  g == "A+" || g == "B+" || g == "AB+" || g == "O+"

/-- The compatibility rule as the claim words it: the ABO antigens of the donor group `d`
are among those of the recipient group `r`, and `d` is Rh-negative or `r` is Rh-positive
too. -/
def compatibleByAntigens (r d : String) : Bool :=
  (!antigenA d || antigenA r) && (!antigenB d || antigenB r) &&
    (!rhPositive d || rhPositive r)

/-! ## A sample donation and a sample request -/

/-- A donation of one unit to bank 42, completed and not yet tested. -/
def sampleDonation : Donation :=
  { id := 11
    donor := 5
    bloodBank := 42
    bloodGroup := "A+"
    unitsDonated := 1
    donationDate := 500
    expiryDate := 4000
    status := "completed"
    testResults :=
      { hiv := false, hepatitisB := false, hepatitisC := false, syphilis := false,
        malaria := false, testedAt := none, labTechnician := none, isSafe := false } }

/-- The same donation in the state the hook looks for: completed and marked safe. -/
def safeDonation : Donation :=
  { sampleDonation with
    testResults := { sampleDonation.testResults with isSafe := true } }

/-- The sample donation after a test report with the five flags negative at time 1000:
marked safe, status `processed`. -/
def testedDonation : Donation :=
  { sampleDonation with
    status := "processed"
    testResults :=
      { sampleDonation.testResults with
        testedAt := some 1000, labTechnician := some "lab", isSafe := true } }

/-- The body of a test report with the five flags negative. -/
def allNegative : TestResultsBody :=
  { hiv := some false, hepatitisB := some false, hepatitisC := some false,
    syphilis := some false, malaria := some false }

/-- A pending request for 10 units of A+, assigned to bank 42. -/
def sampleRequest : BloodRequest :=
  { id := 21
    bloodGroup := "A+"
    unitsRequired := 10
    status := "pending"
    assignedBloodBank := some 42
    fulfillmentDetails := none }

/-- A test report that omits every flag. -/
def noFlags : TestResultsBody :=
  { hiv := none, hepatitisB := none, hepatitisC := none, syphilis := none, malaria := none }

/-- A test report with a positive HIV flag. -/
def hivPositive : TestResultsBody :=
  { allNegative with hiv := some true }

/-- The sample donation after the report `hivPositive` at time 1000: status `rejected`,
the HIV flag stored. -/
def rejectedDonation : Donation :=
  { sampleDonation with
    status := "rejected"
    testResults :=
      { sampleDonation.testResults with
        hiv := true, testedAt := some 1000, labTechnician := some "lab" } }

/-- A donor born on 31 December 2008 (a time value of 1230681600000 in UTC). -/
def youngDonor : User :=
  { role := "donor"
    donorStatus := { isEligible := true, nextEligibleDate := none }
    dateOfBirth := { time := 1230681600000, fullYear := 2008, month := 12, date := 31 } }

/-- The first of January 2026 (a time value of 1767225600000 in UTC). -/
def newYear2026 : JSDate :=
  { time := 1767225600000, fullYear := 2026, month := 1, date := 1 }

/-- A donor who never donated, is eligible and is not available for donation. -/
def unavailableDonor : Donor :=
  { lastDonation := none, eligibilityStatus := "eligible", availableForDonation := false }

/-- A record of 7 units of 100 whose `criticalLevel` is 7. -/
def sevenRecord : BloodInventory :=
  { sampleRecord with id := 5, currentStock := 7, criticalLevel := 7 }

/-- A record of 10 units of 100 with `criticalLevel` 5 and `lowLevel` 7. -/
def tenRecord : BloodInventory :=
  { sampleRecord with id := 6, currentStock := 10, criticalLevel := 5, lowLevel := 7 }

/-- Noon (UTC) of a day before whose next midnight, at 86400000, the clocks go forward. -/
def noonBeforeChange : Int := 43200000

/-- The sample record with three batches: one expiring 22 hours after `noonBeforeChange`,
one 23 hours and a half after it, and one expired an hour before it. -/
def batchRecord : BloodInventory :=
  { sampleRecord with
    expiryDates :=
      [{ units := 1, expiryDate := 122400000, donation := none },
       { units := 2, expiryDate := 127800000, donation := none },
       { units := 3, expiryDate := 39600000, donation := none }] }

/-! ## Rounding to a double -/

theorem roundHalfEven_eq (x : ℚ) (m : ℤ) (h1 : (m : ℚ) - 1 / 2 < x) (h2 : x < m + 1 / 2) :
    roundHalfEven x = m := by
  unfold roundHalfEven
  by_cases hx : (m : ℚ) ≤ x
  · have hf : ⌊x⌋ = m := by
      rw [Int.floor_eq_iff]
      exact ⟨hx, by linarith⟩
    rw [hf, if_pos (by linarith)]
  · have hx1 : x < m := not_le.mp hx
    have hf : ⌊x⌋ = m - 1 := by
      rw [Int.floor_eq_iff]
      push_cast
      exact ⟨by linarith, by linarith⟩
    rw [hf]
    push_cast
    rw [if_neg (by linarith), if_pos (by linarith)]
    ring

theorem log_two_eq (q : ℚ) (n : ℤ) (hq : 0 < q) (hlo : (2 : ℚ) ^ n ≤ q)
    (hhi : q < (2 : ℚ) ^ (n + 1)) : Int.log 2 |q| = n := by
  rw [abs_of_pos hq]
  have h1 : n ≤ Int.log 2 q :=
    (Int.zpow_le_iff_le_log (by norm_num) hq).mp (by exact_mod_cast hlo)
  have h2 : Int.log 2 q < n + 1 :=
    (Int.lt_zpow_iff_log_lt (by norm_num) hq).mp (by exact_mod_cast hhi)
  omega

/-- The double nearest to a positive `q` between `2 ^ n` and `2 ^ (n + 1)` is
`m * 2 ^ (n - 52)` when `q / 2 ^ (n - 52)` is less than a half away from `m`. -/
theorem roundDouble_eq (q : ℚ) (n m : ℤ) (hq : 0 < q) (hlo : (2 : ℚ) ^ n ≤ q)
    (hhi : q < (2 : ℚ) ^ (n + 1)) (h1 : (m : ℚ) - 1 / 2 < q / 2 ^ (n - 52))
    (h2 : q / 2 ^ (n - 52) < m + 1 / 2) : roundDouble q = m * 2 ^ (n - 52) := by
  unfold roundDouble
  rw [if_neg (ne_of_gt hq), log_two_eq q n hq hlo hhi, roundHalfEven_eq _ m h1 h2]

theorem percentOf_zero (b : ℚ) : percentOf 0 b = 0 := by
  simp [percentOf, roundDouble]

/-- The nearest integer is at most a half away. -/
theorem roundHalfEven_near (x : ℚ) : |(roundHalfEven x : ℚ) - x| ≤ 1 / 2 := by
  have h1 : (⌊x⌋ : ℚ) ≤ x := Int.floor_le x
  have h2 : x < ⌊x⌋ + 1 := Int.lt_floor_add_one x
  unfold roundHalfEven
  rw [abs_le]
  split_ifs with ha hb hc
  · constructor <;> linarith
  · push_cast
    constructor <;> linarith
  · constructor <;> linarith
  · push_cast
    constructor <;> linarith

/-- The nearest double is at most the part `2 ^ -53` of the number away from it. -/
theorem roundDouble_near (q : ℚ) : |roundDouble q - q| ≤ |q| / 2 ^ 53 := by
  unfold roundDouble
  by_cases hq : q = 0
  · simp [hq]
  · rw [if_neg hq]
    have habs : 0 < |q| := abs_pos.mpr hq
    have hpow : (0 : ℚ) < 2 ^ (Int.log 2 |q| - 52) := zpow_pos (by norm_num) _
    have hlog : (2 : ℚ) ^ Int.log 2 |q| ≤ |q| := by
      have := Int.zpow_log_le_self (b := 2) (r := |q|) (by norm_num) habs
      exact_mod_cast this
    have hnear := roundHalfEven_near (q / 2 ^ (Int.log 2 |q| - 52))
    have hsplit : (2 : ℚ) ^ (Int.log 2 |q| - 52) = 2 ^ Int.log 2 |q| / 2 ^ 52 := by
      rw [zpow_sub₀ (by norm_num)]
      norm_num
    have heq :
        (roundHalfEven (q / 2 ^ (Int.log 2 |q| - 52)) : ℚ) * 2 ^ (Int.log 2 |q| - 52) - q =
        ((roundHalfEven (q / 2 ^ (Int.log 2 |q| - 52)) : ℚ) - q / 2 ^ (Int.log 2 |q| - 52)) *
          2 ^ (Int.log 2 |q| - 52) := by
      field_simp
    rw [heq, abs_mul, abs_of_pos hpow]
    calc |(roundHalfEven (q / 2 ^ (Int.log 2 |q| - 52)) : ℚ) - q / 2 ^ (Int.log 2 |q| - 52)| *
          2 ^ (Int.log 2 |q| - 52)
        ≤ 1 / 2 * 2 ^ (Int.log 2 |q| - 52) := by
          exact mul_le_mul_of_nonneg_right hnear (le_of_lt hpow)
      _ = 2 ^ Int.log 2 |q| / 2 ^ 53 := by rw [hsplit]; ring
      _ ≤ |q| / 2 ^ 53 := by
          exact div_le_div_of_nonneg_right hlog (by positivity)

/-- The double that `(a / b) * 100` evaluates to is at most the part `2 ^ -51` of the exact
percentage away from it. -/
theorem percentOf_near (a b : ℚ) :
    |percentOf a b - a / b * 100| ≤ |a / b * 100| / 2 ^ 51 := by
  unfold percentOf
  have h1 := roundDouble_near (a / b)
  have h2 := roundDouble_near (roundDouble (a / b) * 100)
  have hx : |roundDouble (a / b)| ≤ |a / b| + |a / b| / 2 ^ 53 := by
    have := abs_sub_abs_le_abs_sub (roundDouble (a / b)) (a / b)
    linarith
  have h3 : |roundDouble (a / b) * 100| = |roundDouble (a / b)| * 100 := by
    rw [abs_mul]; norm_num
  have h4 : |a / b * 100| = |a / b| * 100 := by
    rw [abs_mul]; norm_num
  have h5 : roundDouble (roundDouble (a / b) * 100) - a / b * 100 =
      (roundDouble (roundDouble (a / b) * 100) - roundDouble (a / b) * 100) +
        (roundDouble (a / b) - a / b) * 100 := by ring
  have h6 : |(roundDouble (a / b) - a / b) * 100| = |roundDouble (a / b) - a / b| * 100 := by
    rw [abs_mul]; norm_num
  have hnn : 0 ≤ |a / b| := abs_nonneg _
  rw [h5, h4]
  calc |roundDouble (roundDouble (a / b) * 100) - roundDouble (a / b) * 100 +
          (roundDouble (a / b) - a / b) * 100|
      ≤ |roundDouble (roundDouble (a / b) * 100) - roundDouble (a / b) * 100| +
          |(roundDouble (a / b) - a / b) * 100| := abs_add _ _
    _ ≤ |roundDouble (a / b)| * 100 / 2 ^ 53 + |a / b| / 2 ^ 53 * 100 := by
        rw [h6, ← h3]
        have := mul_le_mul_of_nonneg_right h1 (by norm_num : (0 : ℚ) ≤ 100)
        linarith
    _ ≤ |a / b| * 100 / 2 ^ 51 := by
        have : |roundDouble (a / b)| * 100 / 2 ^ 53 ≤
            (|a / b| + |a / b| / 2 ^ 53) * 100 / 2 ^ 53 := by
          apply div_le_div_of_nonneg_right _ (by positivity)
          exact mul_le_mul_of_nonneg_right hx (by norm_num)
        have hcalc : (|a / b| + |a / b| / 2 ^ 53) * 100 / 2 ^ 53 + |a / b| / 2 ^ 53 * 100 ≤
            |a / b| * 100 / 2 ^ 51 := by
          have e : |a / b| * 100 / 2 ^ 51 -
              ((|a / b| + |a / b| / 2 ^ 53) * 100 / 2 ^ 53 + |a / b| / 2 ^ 53 * 100) =
              |a / b| * (100 / 2 ^ 51 - (1 + 1 / 2 ^ 53) * 100 / 2 ^ 53 - 100 / 2 ^ 53) := by ring
          have e2 : (0 : ℚ) ≤ 100 / 2 ^ 51 - (1 + 1 / 2 ^ 53) * 100 / 2 ^ 53 - 100 / 2 ^ 53 := by
            norm_num
          nlinarith [mul_nonneg hnn e2]
        linarith

theorem percentOf_7_100 : percentOf 7 100 = 7881299347898369 / 2 ^ 50 := by
  unfold percentOf
  rw [roundDouble_eq (7 / 100) (-4) 5044031582654956 (by norm_num) (by norm_num) (by norm_num)
    (by norm_num) (by norm_num)]
  rw [roundDouble_eq _ 2 7881299347898369 (by norm_num) (by norm_num) (by norm_num)
    (by norm_num) (by norm_num)]
  norm_num

theorem percentOf_5_100 : percentOf 5 100 = 5 := by
  unfold percentOf
  rw [roundDouble_eq (5 / 100) (-5) 7205759403792794 (by norm_num) (by norm_num) (by norm_num)
    (by norm_num) (by norm_num)]
  rw [roundDouble_eq _ 2 5629499534213120 (by norm_num) (by norm_num) (by norm_num)
    (by norm_num) (by norm_num)]
  norm_num

theorem percentOf_20_100 : percentOf 20 100 = 20 := by
  unfold percentOf
  rw [roundDouble_eq (20 / 100) (-3) 7205759403792794 (by norm_num) (by norm_num) (by norm_num)
    (by norm_num) (by norm_num)]
  rw [roundDouble_eq _ 4 5629499534213120 (by norm_num) (by norm_num) (by norm_num)
    (by norm_num) (by norm_num)]
  norm_num

theorem percentOf_50_100 : percentOf 50 100 = 50 := by
  unfold percentOf
  rw [roundDouble_eq (50 / 100) (-1) 4503599627370496 (by norm_num) (by norm_num) (by norm_num)
    (by norm_num) (by norm_num)]
  rw [roundDouble_eq _ 5 7036874417766400 (by norm_num) (by norm_num) (by norm_num)
    (by norm_num) (by norm_num)]
  norm_num

theorem percentOf_25_100 : percentOf 25 100 = 25 := by
  unfold percentOf
  rw [roundDouble_eq (25 / 100) (-2) 4503599627370496 (by norm_num) (by norm_num) (by norm_num)
    (by norm_num) (by norm_num)]
  rw [roundDouble_eq _ 4 7036874417766400 (by norm_num) (by norm_num) (by norm_num)
    (by norm_num) (by norm_num)]
  norm_num

theorem percentOf_10_100 : percentOf 10 100 = 10 := by
  unfold percentOf
  rw [roundDouble_eq (10 / 100) (-4) 7205759403792794 (by norm_num) (by norm_num) (by norm_num)
    (by norm_num) (by norm_num)]
  rw [roundDouble_eq _ 3 5629499534213120 (by norm_num) (by norm_num) (by norm_num)
    (by norm_num) (by norm_num)]
  norm_num

/-! ## Lemmas on the derived values -/

theorem utilization_of_ne_zero (self : BloodInventory) (h : self.capacity ≠ 0) :
    self.utilization = JSNum.finite (percentOf self.currentStock self.capacity) := by
  simp [BloodInventory.utilization, JSNum.div, JSNum.mul, percentOf, h]

theorem availableStock_nonneg (self : BloodInventory) : 0 ≤ self.availableStock :=
  le_max_left _ _

/-! ## removeStock -/

/-- The successful branch of `removeStock`: no throw, and `currentStock` reduced by
`units`, whatever the capacity. -/
theorem removeStock_of_le (self : BloodInventory) (units : ℚ) (requestId : Nat)
    (now : Int) (h : units ≤ self.availableStock) :
    (self.removeStock units requestId now).1 = Except.ok () ∧
    (self.removeStock units requestId now).2.currentStock = self.currentStock - units := by
  have h1 : ¬ self.availableStock < units := not_lt.mpr h
  unfold BloodInventory.removeStock
  rw [if_neg h1]
  dsimp only
  split <;> exact ⟨rfl, rfl⟩

/-- C1: when `units` exceeds `availableStock = max(0, currentStock - reservedStock)`,
`removeStock` throws the insufficient-stock error, which carries the available and the
requested amount, and the document after the call is the document before it. -/
theorem removeStock_insufficient (self : BloodInventory) (units : ℚ) (requestId : Nat)
    (now : Int) (h : max 0 (self.currentStock - self.reservedStock) < units) :
    self.removeStock units requestId now =
      (Except.error
        (LedgerError.insufficientStock (max 0 (self.currentStock - self.reservedStock)) units),
       self) := by
  simp [BloodInventory.removeStock, BloodInventory.availableStock, h]

theorem removeStock_insufficient_witness :
    max 0 (sampleRecord.currentStock - sampleRecord.reservedStock) < (25 : ℚ) ∧
    sampleRecord.removeStock 25 7 1000 =
      (Except.error (LedgerError.insufficientStock
        (max 0 (sampleRecord.currentStock - sampleRecord.reservedStock)) 25), sampleRecord) :=
  ⟨by norm_num [sampleRecord],
   removeStock_insufficient sampleRecord 25 7 1000 (by norm_num [sampleRecord])⟩

/-- C2: when `units` is at most `availableStock` (in particular for a positive integer),
`removeStock` returns without throwing and the new `currentStock` is the previous one
minus exactly `units`. -/
theorem removeStock_decrements (self : BloodInventory) (units : ℚ) (requestId : Nat)
    (now : Int) (h : units ≤ self.availableStock) :
    (self.removeStock units requestId now).1 = Except.ok () ∧
    (self.removeStock units requestId now).2.currentStock = self.currentStock - units :=
  removeStock_of_le self units requestId now h

theorem removeStock_decrements_witness :
    (15 : ℚ) ≤ sampleRecord.availableStock ∧
    (sampleRecord.removeStock 15 7 1000).1 = Except.ok () ∧
    (sampleRecord.removeStock 15 7 1000).2.currentStock = sampleRecord.currentStock - 15 :=
  ⟨by norm_num [sampleRecord, BloodInventory.availableStock],
   removeStock_decrements sampleRecord 15 7 1000
     (by norm_num [sampleRecord, BloodInventory.availableStock])⟩

/-- The successful branch of `removeStock` on a record whose capacity is not zero, with
the utilization written as the double `percentOf`. -/
theorem removeStock_of_available (self : BloodInventory) (units : ℚ) (requestId : Nat)
    (now : Int) (h : ¬ self.availableStock < units) (hne : self.capacity ≠ 0) :
    self.removeStock units requestId now =
      if percentOf (self.currentStock - units) self.capacity ≤ self.lowLevel then
        (Except.ok (),
          { self with
            currentStock := self.currentStock - units
            lastUpdated := now
            alerts := self.alerts ++
              [{ type := AlertType.low_stock
                 message := { bloodGroup := self.bloodGroup,
                              remaining := self.currentStock - units }
                 severity :=
                   if percentOf (self.currentStock - units) self.capacity ≤ self.criticalLevel
                   then Severity.high else Severity.medium
                 createdAt := now
                 resolved := false }] })
      else
        (Except.ok (),
          { self with currentStock := self.currentStock - units, lastUpdated := now }) := by
  unfold BloodInventory.removeStock
  rw [if_neg h]
  simp only [BloodInventory.utilization, JSNum.div, JSNum.mul, JSNum.le, percentOf, hne, ne_eq,
    not_false_eq_true, if_true, decide_eq_true_eq]

/-- C3: after a successful `removeStock` on a record with `capacity > 0` the utilization is
the double that `((currentStock - units) / capacity) * 100` evaluates to (`percentOf`); when
it is at most `lowLevel`, exactly one alert is appended behind the earlier ones, of type
`low_stock`, with severity `high` exactly when the utilization is at most `criticalLevel`
and `medium` otherwise; when it is above `lowLevel`, `alerts` is unchanged. -/
theorem removeStock_alert (self : BloodInventory) (units : ℚ) (requestId : Nat) (now : Int)
    (hcap : 0 < self.capacity)
    (hok : (self.removeStock units requestId now).1 = Except.ok ()) :
    (self.removeStock units requestId now).2.utilization =
      JSNum.finite (percentOf (self.currentStock - units) self.capacity) ∧
    (percentOf (self.currentStock - units) self.capacity ≤ self.lowLevel →
      ∃ a : Alert,
        (self.removeStock units requestId now).2.alerts = self.alerts ++ [a] ∧
        a.type = AlertType.low_stock ∧
        (a.severity = Severity.high ↔
          percentOf (self.currentStock - units) self.capacity ≤ self.criticalLevel) ∧
        (a.severity = Severity.medium ↔
          ¬ percentOf (self.currentStock - units) self.capacity ≤ self.criticalLevel)) ∧
    (self.lowLevel < percentOf (self.currentStock - units) self.capacity →
      (self.removeStock units requestId now).2.alerts = self.alerts) := by
  have hne : self.capacity ≠ 0 := ne_of_gt hcap
  have h1 : ¬ self.availableStock < units := by
    intro hlt
    simp [BloodInventory.removeStock, hlt] at hok
  rw [removeStock_of_available self units requestId now h1 hne]
  by_cases hlow : percentOf (self.currentStock - units) self.capacity ≤ self.lowLevel
  · rw [if_pos hlow]
    refine ⟨utilization_of_ne_zero _ hne, fun _ => ⟨_, rfl, rfl, ?_, ?_⟩,
      fun hgt => absurd hlow (not_le.mpr hgt)⟩
    · by_cases hc : percentOf (self.currentStock - units) self.capacity ≤ self.criticalLevel
      · simp [hc]
      · simp [hc]
    · by_cases hc : percentOf (self.currentStock - units) self.capacity ≤ self.criticalLevel
      · simp [hc]
      · simp [hc]
  · rw [if_neg hlow]
    exact ⟨utilization_of_ne_zero _ hne, fun h => absurd h hlow, fun _ => rfl⟩

theorem removeStock_alert_witness :
    0 < sampleRecord.capacity ∧
    (sampleRecord.removeStock 15 7 1000).1 = Except.ok () ∧
    ((sampleRecord.removeStock 15 7 1000).2.utilization =
      JSNum.finite (percentOf (sampleRecord.currentStock - 15) sampleRecord.capacity) ∧
    (percentOf (sampleRecord.currentStock - 15) sampleRecord.capacity ≤ sampleRecord.lowLevel →
      ∃ a : Alert,
        (sampleRecord.removeStock 15 7 1000).2.alerts = sampleRecord.alerts ++ [a] ∧
        a.type = AlertType.low_stock ∧
        (a.severity = Severity.high ↔
          percentOf (sampleRecord.currentStock - 15) sampleRecord.capacity ≤
            sampleRecord.criticalLevel) ∧
        (a.severity = Severity.medium ↔
          ¬ percentOf (sampleRecord.currentStock - 15) sampleRecord.capacity ≤
            sampleRecord.criticalLevel)) ∧
    (sampleRecord.lowLevel < percentOf (sampleRecord.currentStock - 15) sampleRecord.capacity →
      (sampleRecord.removeStock 15 7 1000).2.alerts = sampleRecord.alerts)) ∧
    0 < tenRecord.capacity ∧
    (tenRecord.removeStock 3 7 1000).1 = Except.ok () ∧
    tenRecord.lowLevel < percentOf (tenRecord.currentStock - 3) tenRecord.capacity ∧
    (tenRecord.removeStock 3 7 1000).2.alerts = tenRecord.alerts :=
  ⟨by norm_num [sampleRecord],
   (removeStock_of_le sampleRecord 15 7 1000
     (by norm_num [sampleRecord, BloodInventory.availableStock])).1,
   removeStock_alert sampleRecord 15 7 1000 (by norm_num [sampleRecord])
     (removeStock_of_le sampleRecord 15 7 1000
       (by norm_num [sampleRecord, BloodInventory.availableStock])).1,
   by norm_num [tenRecord, sampleRecord],
   (removeStock_of_le tenRecord 3 7 1000
     (by norm_num [tenRecord, sampleRecord, BloodInventory.availableStock])).1,
   by norm_num [tenRecord, sampleRecord, percentOf_7_100],
   (removeStock_alert tenRecord 3 7 1000 (by norm_num [tenRecord, sampleRecord])
     (removeStock_of_le tenRecord 3 7 1000
       (by norm_num [tenRecord, sampleRecord, BloodInventory.availableStock])).1).2.2
     (by norm_num [tenRecord, sampleRecord, percentOf_7_100])⟩

/-- The scenario of the specification: from 20 units of 100 with thresholds 10 and 20,
`removeStock(15)` leaves 5 units, status `critical`, and one alert of severity `high`. -/
theorem removeStock_scenario :
    sampleRecord.removeStock 15 7 1000 =
      (Except.ok (),
        { sampleRecord with
          currentStock := 5
          lastUpdated := 1000
          alerts := [{ type := AlertType.low_stock
                       message := { bloodGroup := "A+", remaining := 5 }
                       severity := Severity.high
                       createdAt := 1000
                       resolved := false }] }) ∧
    (sampleRecord.removeStock 15 7 1000).2.status = StockStatus.critical := by
  have h : sampleRecord.removeStock 15 7 1000 =
      (Except.ok (),
        { sampleRecord with
          currentStock := 5
          lastUpdated := 1000
          alerts := [{ type := AlertType.low_stock
                       message := { bloodGroup := "A+", remaining := 5 }
                       severity := Severity.high
                       createdAt := 1000
                       resolved := false }] }) := by
    rw [removeStock_of_available sampleRecord 15 7 1000
      (by norm_num [sampleRecord, BloodInventory.availableStock])
      (by norm_num [sampleRecord])]
    norm_num [sampleRecord, percentOf_5_100]
  refine ⟨h, ?_⟩
  rw [h]
  simp only [BloodInventory.status]
  rw [utilization_of_ne_zero _ (by norm_num [sampleRecord])]
  norm_num [JSNum.le, sampleRecord, percentOf_5_100]

/-- The utilization that `removeStock` compares is the double: from 10 units of 100 with
thresholds 5 and 7, `removeStock(3)` leaves 7 units, whose utilization
`7.000000000000001` is above `lowLevel = 7`, and no alert is appended. -/
theorem removeStock_rounding_scenario :
    tenRecord.removeStock 3 7 1000 =
      (Except.ok (), { tenRecord with currentStock := 7, lastUpdated := 1000 }) ∧
    (tenRecord.removeStock 3 7 1000).2.alerts = tenRecord.alerts ∧
    (tenRecord.removeStock 3 7 1000).2.utilization = JSNum.finite (7 + 1 / 2 ^ 50) := by
  have h : tenRecord.removeStock 3 7 1000 =
      (Except.ok (), { tenRecord with currentStock := 7, lastUpdated := 1000 }) := by
    rw [removeStock_of_available tenRecord 3 7 1000
      (by norm_num [tenRecord, sampleRecord, BloodInventory.availableStock])
      (by norm_num [tenRecord, sampleRecord])]
    norm_num [tenRecord, sampleRecord, percentOf_7_100]
  refine ⟨h, ?_, ?_⟩
  · rw [h]
  · rw [h, utilization_of_ne_zero _ (by norm_num [tenRecord, sampleRecord])]
    norm_num [tenRecord, sampleRecord, percentOf_7_100]

/-! ## addStockFromDonation -/

/-- C4: `addStockFromDonation(donationId, units, expiryDate)` increases `currentStock` by
exactly `units` (for every `units`, in particular every `units > 0`) and appends exactly
one entry to the expiry batches, at the end and equal to
`{units, expiryDate, donation: donationId}`, the earlier entries being unchanged. -/
theorem addStockFromDonation_effect (self : BloodInventory) (donationId : Nat) (units : ℚ)
    (expiryDate now : Int) :
    (self.addStockFromDonation donationId units expiryDate now).currentStock =
      self.currentStock + units ∧
    (self.addStockFromDonation donationId units expiryDate now).expiryDates =
      self.expiryDates ++
        [{ units := units, expiryDate := expiryDate, donation := some donationId }] ∧
    (self.addStockFromDonation donationId units expiryDate now).expiryDates.length =
      self.expiryDates.length + 1 := by
  simp [BloodInventory.addStockFromDonation]

/-- C5: `addStockFromDonation` leaves `alerts` (with every `resolved` flag),
`reservedStock`, `capacity`, `criticalLevel` and `lowLevel` as they were, for every input;
it has no failure: also when the new `currentStock` exceeds `capacity` the result is the
document with the units added. -/
theorem addStockFromDonation_frame (self : BloodInventory) (donationId : Nat) (units : ℚ)
    (expiryDate now : Int) :
    (self.addStockFromDonation donationId units expiryDate now).alerts = self.alerts ∧
    (self.addStockFromDonation donationId units expiryDate now).reservedStock =
      self.reservedStock ∧
    (self.addStockFromDonation donationId units expiryDate now).capacity = self.capacity ∧
    (self.addStockFromDonation donationId units expiryDate now).criticalLevel =
      self.criticalLevel ∧
    (self.addStockFromDonation donationId units expiryDate now).lowLevel = self.lowLevel ∧
    (self.capacity < self.currentStock + units →
      (self.addStockFromDonation donationId units expiryDate now).currentStock =
        self.currentStock + units) :=
  ⟨rfl, rfl, rfl, rfl, rfl, fun _ => rfl⟩

/-- The scenario of the specification: from 20 units of 100, adding 30 units gives 50
units, one batch, and the alerts untouched. -/
theorem addStockFromDonation_scenario :
    (sampleRecord.addStockFromDonation 9 30 4000 1000).currentStock = 50 ∧
    (sampleRecord.addStockFromDonation 9 30 4000 1000).expiryDates =
      [{ units := 30, expiryDate := 4000, donation := some 9 }] ∧
    (sampleRecord.addStockFromDonation 9 30 4000 1000).alerts = sampleRecord.alerts := by
  refine ⟨?_, ?_, rfl⟩
  · norm_num [BloodInventory.addStockFromDonation, sampleRecord]
  · simp [BloodInventory.addStockFromDonation, sampleRecord]

theorem addStockFromDonation_frame_witness :
    sampleRecord.capacity < sampleRecord.currentStock + 90 ∧
    (sampleRecord.addStockFromDonation 9 90 4000 1000).currentStock =
      sampleRecord.currentStock + 90 ∧
    (sampleRecord.addStockFromDonation 9 90 4000 1000).alerts = sampleRecord.alerts :=
  ⟨by norm_num [sampleRecord],
   (addStockFromDonation_frame sampleRecord 9 90 4000 1000).2.2.2.2.2
     (by norm_num [sampleRecord]),
   (addStockFromDonation_frame sampleRecord 9 90 4000 1000).1⟩

/-! ## The derived values -/

/-- C6: the derived `availableStock` equals `max(0, currentStock - reservedStock)`; it is
never negative, and it is 0 when `reservedStock` exceeds `currentStock`. -/
theorem availableStock_spec (self : BloodInventory) :
    self.availableStock = max 0 (self.currentStock - self.reservedStock) ∧
    0 ≤ self.availableStock ∧
    (self.currentStock < self.reservedStock → self.availableStock = 0) := by
  refine ⟨rfl, le_max_left _ _, fun h => ?_⟩
  unfold BloodInventory.availableStock
  exact max_eq_left (by linarith)

theorem availableStock_spec_witness :
    ({ sampleRecord with reservedStock := 30 } : BloodInventory).currentStock <
      ({ sampleRecord with reservedStock := 30 } : BloodInventory).reservedStock ∧
    ({ sampleRecord with reservedStock := 30 } : BloodInventory).availableStock = 0 :=
  ⟨by norm_num [sampleRecord],
   (availableStock_spec { sampleRecord with reservedStock := 30 }).2.2
     (by norm_num [sampleRecord])⟩

/-- C7, as the code has it: for `capacity > 0` the derived `utilization` is the finite
double that `(currentStock / capacity) * 100` evaluates to, the quotient rounded to the
nearest double and the product rounded again, which is at most the part `2 ^ -51` of the
exact percentage away from it; for `capacity = 0` the division is carried
out all the same and the value is `Infinity` for `currentStock > 0`, `NaN` for
`currentStock = 0` and `-Infinity` for `currentStock < 0`, never 0. -/
theorem utilization_spec (self : BloodInventory) :
    (0 < self.capacity →
      self.utilization =
        JSNum.finite (roundDouble (roundDouble (self.currentStock / self.capacity) * 100))) ∧
    (0 < self.capacity →
      ∃ u : ℚ, self.utilization = JSNum.finite u ∧
        |u - self.currentStock / self.capacity * 100| ≤
          |self.currentStock / self.capacity * 100| / 2 ^ 51) ∧
    (self.capacity = 0 → 0 < self.currentStock → self.utilization = JSNum.posInf) ∧
    (self.capacity = 0 → self.currentStock = 0 → self.utilization = JSNum.nan) ∧
    (self.capacity = 0 → self.currentStock < 0 → self.utilization = JSNum.negInf) ∧
    (self.capacity = 0 → self.utilization ≠ JSNum.finite 0) := by
  refine ⟨fun h => utilization_of_ne_zero self (ne_of_gt h),
    fun h => ⟨_, utilization_of_ne_zero self (ne_of_gt h),
      percentOf_near self.currentStock self.capacity⟩, ?_, ?_, ?_, ?_⟩
  · intro hc hs
    simp [BloodInventory.utilization, JSNum.div, JSNum.mul, hc, hs]
  · intro hc hs
    simp [BloodInventory.utilization, JSNum.div, JSNum.mul, hc, hs]
  · intro hc hs
    simp [BloodInventory.utilization, JSNum.div, JSNum.mul, hc, hs, not_lt_of_gt hs]
  · intro hc
    rcases lt_trichotomy self.currentStock 0 with hs | hs | hs
    · simp [BloodInventory.utilization, JSNum.div, JSNum.mul, hc, hs, not_lt_of_gt hs]
    · simp [BloodInventory.utilization, JSNum.div, JSNum.mul, hc, hs]
    · simp [BloodInventory.utilization, JSNum.div, JSNum.mul, hc, hs]

theorem utilization_spec_witness :
    0 < sampleRecord.capacity ∧
    sampleRecord.utilization =
      JSNum.finite
        (roundDouble (roundDouble (sampleRecord.currentStock / sampleRecord.capacity) * 100)) ∧
    zeroCapacityRecord.capacity = 0 ∧ 0 < zeroCapacityRecord.currentStock ∧
    zeroCapacityRecord.utilization = JSNum.posInf :=
  ⟨by norm_num [sampleRecord],
   (utilization_spec sampleRecord).1 (by norm_num [sampleRecord]),
   rfl, by norm_num [zeroCapacityRecord, sampleRecord],
   (utilization_spec zeroCapacityRecord).2.2.1 rfl
     (by norm_num [zeroCapacityRecord, sampleRecord])⟩

/-- The utilization of the sample records: 20 units of 100 give 20, 5 give 5, 50 give 50,
and 7 give `7.000000000000001`, one unit in the last place above 7. -/
theorem utilization_scenario :
    sampleRecord.utilization = JSNum.finite 20 ∧
    lowRecord.utilization = JSNum.finite 5 ∧
    fullRecord.utilization = JSNum.finite 50 ∧
    sevenRecord.utilization = JSNum.finite (7 + 1 / 2 ^ 50) := by
  refine ⟨?_, ?_, ?_, ?_⟩
  · rw [utilization_of_ne_zero _ (by norm_num [sampleRecord])]
    norm_num [sampleRecord, percentOf_20_100]
  · rw [utilization_of_ne_zero _ (by norm_num [lowRecord, sampleRecord])]
    norm_num [lowRecord, sampleRecord, percentOf_5_100]
  · rw [utilization_of_ne_zero _ (by norm_num [fullRecord, sampleRecord])]
    norm_num [fullRecord, sampleRecord, percentOf_50_100]
  · rw [utilization_of_ne_zero _ (by norm_num [sevenRecord, sampleRecord])]
    norm_num [sevenRecord, sampleRecord, percentOf_7_100]

/-- C7 as stated fails: a record with `capacity = 0` and 5 units has utilization
`Infinity`, not 0, and an empty record with `capacity = 0` has utilization `NaN`; and a
record of 7 units of 100 has utilization `7.000000000000001`, not the exact quotient 7. -/
theorem utilization_zero_capacity_counterexample :
    zeroCapacityRecord.capacity = 0 ∧
    zeroCapacityRecord.utilization = JSNum.posInf ∧
    zeroCapacityRecord.utilization ≠ JSNum.finite 0 ∧
    ({ zeroCapacityRecord with currentStock := 0 } : BloodInventory).utilization =
      JSNum.nan ∧
    0 < sevenRecord.capacity ∧
    sevenRecord.utilization = JSNum.finite (7 + 1 / 2 ^ 50) ∧
    sevenRecord.utilization ≠
      JSNum.finite (sevenRecord.currentStock / sevenRecord.capacity * 100) := by
  have h : zeroCapacityRecord.utilization = JSNum.posInf := by
    norm_num [BloodInventory.utilization, JSNum.div, JSNum.mul, zeroCapacityRecord,
      sampleRecord]
  have h7 : sevenRecord.utilization = JSNum.finite (7 + 1 / 2 ^ 50) := by
    rw [utilization_of_ne_zero _ (by norm_num [sevenRecord, sampleRecord])]
    norm_num [sevenRecord, sampleRecord, percentOf_7_100]
  refine ⟨rfl, h, ?_, ?_, ?_, h7, ?_⟩
  · rw [h]
    exact fun hc => JSNum.noConfusion hc
  · norm_num [BloodInventory.utilization, JSNum.div, JSNum.mul, zeroCapacityRecord,
      sampleRecord]
  · norm_num [sevenRecord, sampleRecord]
  · rw [h7]
    intro hc
    injection hc with hq
    norm_num [sevenRecord, sampleRecord] at hq

/-- C8: the derived `status` is `critical` exactly when `utilization <= criticalLevel`,
`low` exactly when that fails and `utilization <= lowLevel`, and `adequate` exactly when
both comparisons fail: the critical test comes first and both comparisons are inclusive.
For `capacity > 0` the utilization compared is the double of `utilization_spec`; for
`capacity = 0` the comparisons are made with `Infinity`, `NaN` or `-Infinity`, which gives
`adequate` for `currentStock >= 0` and `critical` for `currentStock < 0`. -/
theorem status_spec (self : BloodInventory) :
    ((self.status = StockStatus.critical ↔ self.utilization.le self.criticalLevel = true) ∧
     (self.status = StockStatus.low ↔
       self.utilization.le self.criticalLevel = false ∧
       self.utilization.le self.lowLevel = true) ∧
     (self.status = StockStatus.adequate ↔
       self.utilization.le self.criticalLevel = false ∧
       self.utilization.le self.lowLevel = false)) ∧
    (0 < self.capacity →
      (self.status = StockStatus.critical ↔
        percentOf self.currentStock self.capacity ≤ self.criticalLevel) ∧
      (self.status = StockStatus.low ↔
        self.criticalLevel < percentOf self.currentStock self.capacity ∧
        percentOf self.currentStock self.capacity ≤ self.lowLevel) ∧
      (self.status = StockStatus.adequate ↔
        self.criticalLevel < percentOf self.currentStock self.capacity ∧
        self.lowLevel < percentOf self.currentStock self.capacity)) ∧
    (self.capacity = 0 → 0 ≤ self.currentStock → self.status = StockStatus.adequate) ∧
    (self.capacity = 0 → self.currentStock < 0 → self.status = StockStatus.critical) := by
  refine ⟨?_, ?_, ?_, ?_⟩
  · unfold BloodInventory.status
    cases hc : self.utilization.le self.criticalLevel <;>
      cases hl : self.utilization.le self.lowLevel <;> simp [hc, hl]
  · intro hcap
    unfold BloodInventory.status
    rw [utilization_of_ne_zero self (ne_of_gt hcap)]
    simp only [JSNum.le, decide_eq_true_eq]
    by_cases hc : percentOf self.currentStock self.capacity ≤ self.criticalLevel
    · have hc1 : ¬ self.criticalLevel < percentOf self.currentStock self.capacity :=
        not_lt.mpr hc
      simp [hc, hc1]
    · have hc1 : self.criticalLevel < percentOf self.currentStock self.capacity :=
        not_le.mp hc
      by_cases hl : percentOf self.currentStock self.capacity ≤ self.lowLevel
      · simp [hc, hc1, hl]
      · have hl1 : self.lowLevel < percentOf self.currentStock self.capacity :=
          not_le.mp hl
        simp [hc, hc1, hl, hl1]
  · intro hcap hs
    rcases lt_or_eq_of_le hs with hpos | hzero
    · simp [BloodInventory.status, BloodInventory.utilization, JSNum.div, JSNum.mul,
        JSNum.le, hcap, hpos]
    · simp [BloodInventory.status, BloodInventory.utilization, JSNum.div, JSNum.mul,
        JSNum.le, hcap, ← hzero]
  · intro hcap hs
    simp [BloodInventory.status, BloodInventory.utilization, JSNum.div, JSNum.mul,
      JSNum.le, hcap, hs, not_lt_of_gt hs]

theorem status_spec_witness :
    0 < sevenRecord.capacity ∧
    sevenRecord.criticalLevel < percentOf sevenRecord.currentStock sevenRecord.capacity ∧
    percentOf sevenRecord.currentStock sevenRecord.capacity ≤ sevenRecord.lowLevel ∧
    sevenRecord.status = StockStatus.low :=
  ⟨by norm_num [sevenRecord, sampleRecord],
   by norm_num [sevenRecord, sampleRecord, percentOf_7_100],
   by norm_num [sevenRecord, sampleRecord, percentOf_7_100],
   ((status_spec sevenRecord).2.1 (by norm_num [sevenRecord, sampleRecord])).2.1.mpr
     ⟨by norm_num [sevenRecord, sampleRecord, percentOf_7_100],
      by norm_num [sevenRecord, sampleRecord, percentOf_7_100]⟩⟩

/-- The status of the sample records: 20 units of 100 with thresholds 10 and 20 are `low`
(the comparison with `lowLevel` is inclusive), 5 units are `critical`, 50 units are
`adequate`, 10 units are `critical` (the comparison with `criticalLevel` is inclusive and
comes first), 7 units with `criticalLevel` 7 are `low` (the utilization is
`7.000000000000001`), and 5 units of capacity 0 are `adequate`. -/
theorem status_scenario :
    sampleRecord.status = StockStatus.low ∧
    lowRecord.status = StockStatus.critical ∧
    fullRecord.status = StockStatus.adequate ∧
    ({ sampleRecord with currentStock := 10 } : BloodInventory).status =
      StockStatus.critical ∧
    sevenRecord.status = StockStatus.low ∧
    zeroCapacityRecord.status = StockStatus.adequate := by
  refine ⟨?_, ?_, ?_, ?_, ?_, ?_⟩
  · simp only [BloodInventory.status]
    rw [utilization_of_ne_zero _ (by norm_num [sampleRecord])]
    norm_num [JSNum.le, sampleRecord, percentOf_20_100]
  · simp only [BloodInventory.status]
    rw [utilization_of_ne_zero _ (by norm_num [lowRecord, sampleRecord])]
    norm_num [JSNum.le, lowRecord, sampleRecord, percentOf_5_100]
  · simp only [BloodInventory.status]
    rw [utilization_of_ne_zero _ (by norm_num [fullRecord, sampleRecord])]
    norm_num [JSNum.le, fullRecord, sampleRecord, percentOf_50_100]
  · simp only [BloodInventory.status]
    rw [utilization_of_ne_zero _ (by norm_num [sampleRecord])]
    norm_num [JSNum.le, sampleRecord, percentOf_10_100]
  · simp only [BloodInventory.status]
    rw [utilization_of_ne_zero _ (by norm_num [sevenRecord, sampleRecord])]
    norm_num [JSNum.le, sevenRecord, sampleRecord, percentOf_7_100]
  · norm_num [BloodInventory.status, BloodInventory.utilization, JSNum.div, JSNum.mul,
      JSNum.le, zeroCapacityRecord, sampleRecord]

/-- On a finite utilization the comparison of `status` is the inclusive order of the
numbers. -/
theorem finite_le_iff (q l : ℚ) : (JSNum.finite q).le l = true ↔ q ≤ l := by
  simp [JSNum.le]

/-! ## updateInventory -/

/-- `saveAndRespond` on a document that passes the validators: 200, and the store holds
the saved document. -/
theorem saveAndRespond_valid (store : Store) (inventory : BloodInventory) (isNew : Bool)
    (now : Int) (h : validate { inventory with lastUpdated := now } = true) :
    saveAndRespond store inventory isNew now =
      ({ status := 200, success := true, message := ResponseMessage.inventoryUpdated,
         data := some { inventory with lastUpdated := now } },
       if isNew then store ++ [{ inventory with lastUpdated := now }]
       else store.map (fun d =>
         if d.id = inventory.id then { inventory with lastUpdated := now } else d)) := by
  unfold saveAndRespond save
  simp only [h, if_true]
  cases isNew <;> simp

/-- `saveAndRespond` on a document that fails a validator: 500, and the store is as it
was. -/
theorem saveAndRespond_invalid (store : Store) (inventory : BloodInventory) (isNew : Bool)
    (now : Int) (h : validate { inventory with lastUpdated := now } = false) :
    saveAndRespond store inventory isNew now =
      ({ status := 500, success := false, message := ResponseMessage.failedToUpdate,
         data := none }, store) := by
  unfold saveAndRespond save
  simp [h]

/-- The `add` branch of `updateInventory`. -/
theorem updateInventory_add (store : Store) (user : AuthUser) (body : UpdateBody)
    (newId : Nat) (now : Int) (bank : Nat) (hbank : targetBloodBank user body = some bank)
    (hop : body.operation = "add") :
    updateInventory store user body newId now =
      saveAndRespond store
        { findOrNew store bank body.bloodGroup newId now with
          currentStock :=
            (findOrNew store bank body.bloodGroup newId now).currentStock + body.units }
        (findOne store bank body.bloodGroup).isNone now := by
  unfold updateInventory
  simp [hbank, hop]

/-- The `remove` branch of `updateInventory` when the availability test passes. -/
theorem updateInventory_remove (store : Store) (user : AuthUser) (body : UpdateBody)
    (newId : Nat) (now : Int) (bank : Nat) (hbank : targetBloodBank user body = some bank)
    (hop : body.operation = "remove")
    (h : body.units ≤ (findOrNew store bank body.bloodGroup newId now).availableStock) :
    updateInventory store user body newId now =
      saveAndRespond store
        { findOrNew store bank body.bloodGroup newId now with
          currentStock :=
            (findOrNew store bank body.bloodGroup newId now).currentStock - body.units }
        (findOne store bank body.bloodGroup).isNone now := by
  unfold updateInventory
  simp [hbank, hop, not_lt.mpr h]

/-- C9 as stated fails: `units = -5` is not rejected. On the sample record (20 units)
`addStockFromDonation(-5)` leaves 15 units, `removeStock(-5)` succeeds and leaves 25,
`updateInventory` with `add` and `units = -5` answers 200 and stores 15 units, and the
non-integer `units = 1/2` is added as it is. -/
theorem invalidQuantity_counterexample :
    (sampleRecord.addStockFromDonation 9 (-5) 4000 1000).currentStock = 15 ∧
    sampleRecord.removeStock (-5) 7 1000 =
      (Except.ok (), { sampleRecord with currentStock := 25, lastUpdated := 1000 }) ∧
    updateInventory [sampleRecord] { userId := 42, role := "bloodbank" }
        { bloodGroup := "A+", units := -5, operation := "add", bloodBankId := none } 99 1000 =
      ({ status := 200, success := true, message := ResponseMessage.inventoryUpdated,
         data := some { sampleRecord with currentStock := 15, lastUpdated := 1000 } },
       [{ sampleRecord with currentStock := 15, lastUpdated := 1000 }]) ∧
    (sampleRecord.addStockFromDonation 9 (1 / 2) 4000 1000).currentStock = 41 / 2 := by
  refine ⟨?_, ?_, ?_, ?_⟩
  · norm_num [BloodInventory.addStockFromDonation, sampleRecord]
  · rw [removeStock_of_available sampleRecord (-5) 7 1000
      (by norm_num [sampleRecord, BloodInventory.availableStock])
      (by norm_num [sampleRecord])]
    norm_num [sampleRecord, percentOf_25_100]
  · rw [updateInventory_add [sampleRecord] _ _ 99 1000 42 (by simp [targetBloodBank]) rfl]
    rw [saveAndRespond_valid _ _ _ _
      (by norm_num [validate, findOrNew, findOne, sampleRecord, bloodGroups])]
    norm_num [findOrNew, findOne, sampleRecord]
  · norm_num [BloodInventory.addStockFromDonation, sampleRecord]

/-- C9, as the code has it: no operation checks `units` for sign or integrality.
`addStockFromDonation(units)` sets `currentStock + units` for every `units`;
`removeStock(units)` with `units <= 0` returns without throwing and sets
`currentStock - units`; `updateInventory` with `add`, or with `remove` and
`units <= availableStock` (always so for `units <= 0`), answers 200 and saves the document
with `currentStock + units` (resp. `- units`) when that document passes the validators of
the schema (`bloodGroup` in the enum, `currentStock`, `reservedStock` and `capacity` not
negative), and answers 500 with the store unchanged when it does not. -/
theorem units_not_validated (self : BloodInventory) (units : ℚ) (donationId requestId : Nat)
    (expiryDate now : Int) (store : Store) (user : AuthUser) (body : UpdateBody)
    (newId bank : Nat) (inv : BloodInventory) (isNew : Bool)
    (hbank : targetBloodBank user body = some bank)
    (hinv : findOrNew store bank body.bloodGroup newId now = inv)
    (hnew : (findOne store bank body.bloodGroup).isNone = isNew) :
    (self.addStockFromDonation donationId units expiryDate now).currentStock =
      self.currentStock + units ∧
    (units ≤ 0 →
      (self.removeStock units requestId now).1 = Except.ok () ∧
      (self.removeStock units requestId now).2.currentStock = self.currentStock - units) ∧
    (body.units ≤ 0 → body.units ≤ inv.availableStock) ∧
    (body.operation = "add" →
      validate { inv with currentStock := inv.currentStock + body.units, lastUpdated := now } =
        true →
      updateInventory store user body newId now =
        ({ status := 200, success := true, message := ResponseMessage.inventoryUpdated,
           data := some
             { inv with currentStock := inv.currentStock + body.units, lastUpdated := now } },
         if isNew then
           store ++
             [{ inv with currentStock := inv.currentStock + body.units, lastUpdated := now }]
         else store.map (fun d =>
           if d.id = inv.id then
             { inv with currentStock := inv.currentStock + body.units, lastUpdated := now }
           else d))) ∧
    (body.operation = "remove" → body.units ≤ inv.availableStock →
      validate { inv with currentStock := inv.currentStock - body.units, lastUpdated := now } =
        true →
      updateInventory store user body newId now =
        ({ status := 200, success := true, message := ResponseMessage.inventoryUpdated,
           data := some
             { inv with currentStock := inv.currentStock - body.units, lastUpdated := now } },
         if isNew then
           store ++
             [{ inv with currentStock := inv.currentStock - body.units, lastUpdated := now }]
         else store.map (fun d =>
           if d.id = inv.id then
             { inv with currentStock := inv.currentStock - body.units, lastUpdated := now }
           else d))) ∧
    (body.operation = "add" →
      validate { inv with currentStock := inv.currentStock + body.units, lastUpdated := now } =
        false →
      updateInventory store user body newId now =
        ({ status := 500, success := false, message := ResponseMessage.failedToUpdate,
           data := none }, store)) ∧
    (body.operation = "remove" → body.units ≤ inv.availableStock →
      validate { inv with currentStock := inv.currentStock - body.units, lastUpdated := now } =
        false →
      updateInventory store user body newId now =
        ({ status := 500, success := false, message := ResponseMessage.failedToUpdate,
           data := none }, store)) := by
  refine ⟨rfl, fun hu => ?_, fun hu => le_trans hu (availableStock_nonneg inv), ?_, ?_, ?_, ?_⟩
  · exact removeStock_of_le self units requestId now
      (le_trans hu (availableStock_nonneg self))
  · intro hop hv
    rw [updateInventory_add store user body newId now bank hbank hop, hinv, hnew]
    exact saveAndRespond_valid store _ isNew now hv
  · intro hop hle hv
    rw [updateInventory_remove store user body newId now bank hbank hop (hinv ▸ hle), hinv,
      hnew]
    exact saveAndRespond_valid store _ isNew now hv
  · intro hop hv
    rw [updateInventory_add store user body newId now bank hbank hop, hinv, hnew]
    exact saveAndRespond_invalid store _ isNew now hv
  · intro hop hle hv
    rw [updateInventory_remove store user body newId now bank hbank hop (hinv ▸ hle), hinv,
      hnew]
    exact saveAndRespond_invalid store _ isNew now hv

theorem units_not_validated_witness :
    targetBloodBank { userId := 42, role := "bloodbank" }
      { bloodGroup := "A+", units := -5, operation := "remove", bloodBankId := none } =
      some 42 ∧
    findOrNew [sampleRecord] 42 "A+" 99 1000 = sampleRecord ∧
    (findOne [sampleRecord] 42 "A+").isNone = false ∧
    (sampleRecord.removeStock (-5) 7 1000).1 = Except.ok () ∧
    (sampleRecord.removeStock (-5) 7 1000).2.currentStock = sampleRecord.currentStock - (-5) ∧
    updateInventory [sampleRecord] { userId := 42, role := "bloodbank" }
        { bloodGroup := "A+", units := -5, operation := "remove", bloodBankId := none }
        99 1000 =
      ({ status := 200, success := true, message := ResponseMessage.inventoryUpdated,
         data := some { sampleRecord with currentStock := 25, lastUpdated := 1000 } },
       [{ sampleRecord with currentStock := 25, lastUpdated := 1000 }]) := by
  have h1 : targetBloodBank { userId := 42, role := "bloodbank" }
      { bloodGroup := "A+", units := -5, operation := "remove", bloodBankId := none } =
      some 42 := by simp [targetBloodBank]
  have h2 : findOrNew [sampleRecord] 42 "A+" 99 1000 = sampleRecord := by
    simp [findOrNew, findOne, sampleRecord]
  have h3 : (findOne [sampleRecord] 42 "A+").isNone = false := by
    simp [findOne, sampleRecord]
  have key := units_not_validated sampleRecord (-5) 9 7 4000 1000 [sampleRecord]
    { userId := 42, role := "bloodbank" }
    { bloodGroup := "A+", units := -5, operation := "remove", bloodBankId := none }
    99 42 sampleRecord false h1 h2 h3
  refine ⟨h1, h2, h3, (key.2.1 (by norm_num)).1, (key.2.1 (by norm_num)).2, ?_⟩
  rw [key.2.2.2.2.1 rfl (key.2.2.1 (by norm_num))
    (by norm_num [validate, sampleRecord, bloodGroups])]
  norm_num [sampleRecord]

/-- C10: an `updateInventory` call with operation `remove` whose `units` exceed the
`availableStock` of the record for (bloodBank, bloodGroup), a missing record counting as
0 available, answers 400 with the insufficient-stock message carrying the available and
the requested amount, and the store after the call is the store before it. -/
theorem updateInventory_remove_insufficient (store : Store) (user : AuthUser)
    (body : UpdateBody) (newId : Nat) (now : Int) (bank : Nat)
    (hbank : targetBloodBank user body = some bank)
    (hop : body.operation = "remove") :
    (∀ d : BloodInventory, findOne store bank body.bloodGroup = some d →
      max 0 (d.currentStock - d.reservedStock) < body.units →
      updateInventory store user body newId now =
        ({ status := 400, success := false
           message := ResponseMessage.insufficientStock
             (max 0 (d.currentStock - d.reservedStock)) body.units
           data := none }, store)) ∧
    (findOne store bank body.bloodGroup = none → 0 < body.units →
      updateInventory store user body newId now =
        ({ status := 400, success := false
           message := ResponseMessage.insufficientStock 0 body.units
           data := none }, store)) := by
  constructor
  · intro d hd hlt
    unfold updateInventory
    simp [hbank, hop, findOrNew, hd, BloodInventory.availableStock, hlt]
  · intro hd hlt
    unfold updateInventory
    simp [hbank, hop, findOrNew, hd, BloodInventory.availableStock, newBloodInventory, hlt]

theorem updateInventory_remove_insufficient_witness :
    targetBloodBank { userId := 42, role := "bloodbank" }
      { bloodGroup := "A+", units := 25, operation := "remove", bloodBankId := none } =
      some 42 ∧
    findOne [sampleRecord] 42 "A+" = some sampleRecord ∧
    max 0 (sampleRecord.currentStock - sampleRecord.reservedStock) < (25 : ℚ) ∧
    updateInventory [sampleRecord] { userId := 42, role := "bloodbank" }
        { bloodGroup := "A+", units := 25, operation := "remove", bloodBankId := none }
        99 1000 =
      ({ status := 400, success := false
         message := ResponseMessage.insufficientStock
           (max 0 (sampleRecord.currentStock - sampleRecord.reservedStock)) 25
         data := none }, [sampleRecord]) ∧
    findOne [sampleRecord] 42 "O-" = none ∧
    updateInventory [sampleRecord] { userId := 42, role := "bloodbank" }
        { bloodGroup := "O-", units := 1, operation := "remove", bloodBankId := none }
        99 1000 =
      ({ status := 400, success := false
         message := ResponseMessage.insufficientStock 0 1
         data := none }, [sampleRecord]) := by
  have h1 : targetBloodBank { userId := 42, role := "bloodbank" }
      { bloodGroup := "A+", units := 25, operation := "remove", bloodBankId := none } =
      some 42 := by simp [targetBloodBank]
  have h2 : findOne [sampleRecord] 42 "A+" = some sampleRecord := by
    simp [findOne, sampleRecord]
  have h3 : max 0 (sampleRecord.currentStock - sampleRecord.reservedStock) < (25 : ℚ) := by
    norm_num [sampleRecord]
  have h4 : findOne [sampleRecord] 42 "O-" = none := by
    simp [findOne, sampleRecord]
  exact ⟨h1, h2, h3,
    (updateInventory_remove_insufficient [sampleRecord] { userId := 42, role := "bloodbank" }
      { bloodGroup := "A+", units := 25, operation := "remove", bloodBankId := none }
      99 1000 42 h1 rfl).1 sampleRecord h2 h3,
    h4,
    (updateInventory_remove_insufficient [sampleRecord] { userId := 42, role := "bloodbank" }
      { bloodGroup := "O-", units := 1, operation := "remove", bloodBankId := none }
      99 1000 42 (by simp [targetBloodBank]) rfl).2 h4 (by norm_num)⟩

/-! ## updateInventory: the record after a successful call -/

/-- A document that `findOne` returns matches the key. -/
theorem findOne_some_key (store : Store) (bank : Nat) (g : String) (d : BloodInventory)
    (h : findOne store bank g = some d) : d.bloodBank = bank ∧ d.bloodGroup = g := by
  have hp := List.find?_some h
  simpa using hp

/-- After the write of `save()` on a stored document, `findOne` on its key returns the
saved document. -/
theorem findOne_map_replace (store : Store) (bank : Nat) (g : String)
    (d doc : BloodInventory) (h : findOne store bank g = some d)
    (hb : doc.bloodBank = bank) (hg : doc.bloodGroup = g) :
    findOne (store.map (fun x => if x.id = d.id then doc else x)) bank g = some doc := by
  induction store with
  | nil => simp [findOne] at h
  | cons x rest ih =>
    unfold findOne at h ih ⊢
    rw [List.map_cons, List.find?_cons]
    by_cases hx : x.id = d.id
    · simp [hx, hb, hg]
    · have hxd : x ≠ d := fun e => hx (by rw [e])
      rw [List.find?_cons] at h
      cases hm : (x.bloodBank == bank && x.bloodGroup == g) with
      | true =>
        rw [hm] at h
        exact absurd (Option.some.inj h) hxd
      | false =>
        rw [hm] at h
        simp only [hx, if_false, hm]
        exact ih h

/-- After the insertion of `save()` on a new document whose key had no record, `findOne`
on the key returns the inserted document. -/
theorem findOne_append_new (store : Store) (bank : Nat) (g : String) (doc : BloodInventory)
    (h : findOne store bank g = none) (hb : doc.bloodBank = bank) (hg : doc.bloodGroup = g) :
    findOne (store ++ [doc]) bank g = some doc := by
  unfold findOne at h ⊢
  rw [List.find?_append, h]
  simp [hb, hg]

/-- The document `updateInventory` works on carries the key it was looked up with. -/
theorem findOrNew_key (store : Store) (bank : Nat) (g : String) (newId : Nat) (now : Int) :
    (findOrNew store bank g newId now).bloodBank = bank ∧
    (findOrNew store bank g newId now).bloodGroup = g := by
  unfold findOrNew
  cases h : findOne store bank g with
  | none => exact ⟨rfl, rfl⟩
  | some d => exact findOne_some_key store bank g d h

/-- After a successful `saveAndRespond` of a document made from `findOrNew`, `findOne` on
the key returns the saved document. -/
theorem findOne_after_save (store : Store) (bank : Nat) (g : String) (newId : Nat)
    (now : Int) (doc : BloodInventory)
    (hid : doc.id = (findOrNew store bank g newId now).id)
    (hb : doc.bloodBank = bank) (hg : doc.bloodGroup = g) :
    findOne
      (if (findOne store bank g).isNone then store ++ [doc]
       else store.map (fun x => if x.id = doc.id then doc else x)) bank g = some doc := by
  cases h : findOne store bank g with
  | none =>
    simp only [Option.isNone_none, if_true]
    exact findOne_append_new store bank g doc h hb hg
  | some d =>
    have hd : doc.id = d.id := by simpa [findOrNew, h] using hid
    simp only [Option.isNone_some, Bool.false_eq_true, if_false, hd]
    exact findOne_map_replace store bank g d doc h hb hg

/-- The record of the key after an `add` whose document passes the validators: the
answer is 200 and `findOne` returns the document with the units added. -/
theorem updateInventory_add_saved (store : Store) (user : AuthUser) (body : UpdateBody)
    (newId : Nat) (now : Int) (bank : Nat) (hbank : targetBloodBank user body = some bank)
    (hop : body.operation = "add")
    (hv : validate
      { findOrNew store bank body.bloodGroup newId now with
        currentStock :=
          (findOrNew store bank body.bloodGroup newId now).currentStock + body.units
        lastUpdated := now } = true) :
    (updateInventory store user body newId now).1.status = 200 ∧
    findOne (updateInventory store user body newId now).2 bank body.bloodGroup =
      some
        { findOrNew store bank body.bloodGroup newId now with
          currentStock :=
            (findOrNew store bank body.bloodGroup newId now).currentStock + body.units
          lastUpdated := now } := by
  rw [updateInventory_add store user body newId now bank hbank hop,
    saveAndRespond_valid store _ _ now hv]
  refine ⟨rfl, ?_⟩
  exact findOne_after_save store bank body.bloodGroup newId now
    { findOrNew store bank body.bloodGroup newId now with
      currentStock :=
        (findOrNew store bank body.bloodGroup newId now).currentStock + body.units
      lastUpdated := now } rfl
    (findOrNew_key store bank body.bloodGroup newId now).1
    (findOrNew_key store bank body.bloodGroup newId now).2

/-- The record of the key after a `remove` that passes the availability test and whose
document passes the validators. -/
theorem updateInventory_remove_saved (store : Store) (user : AuthUser) (body : UpdateBody)
    (newId : Nat) (now : Int) (bank : Nat) (hbank : targetBloodBank user body = some bank)
    (hop : body.operation = "remove")
    (hle : body.units ≤ (findOrNew store bank body.bloodGroup newId now).availableStock)
    (hv : validate
      { findOrNew store bank body.bloodGroup newId now with
        currentStock :=
          (findOrNew store bank body.bloodGroup newId now).currentStock - body.units
        lastUpdated := now } = true) :
    (updateInventory store user body newId now).1.status = 200 ∧
    findOne (updateInventory store user body newId now).2 bank body.bloodGroup =
      some
        { findOrNew store bank body.bloodGroup newId now with
          currentStock :=
            (findOrNew store bank body.bloodGroup newId now).currentStock - body.units
          lastUpdated := now } := by
  rw [updateInventory_remove store user body newId now bank hbank hop hle,
    saveAndRespond_valid store _ _ now hv]
  refine ⟨rfl, ?_⟩
  exact findOne_after_save store bank body.bloodGroup newId now
    { findOrNew store bank body.bloodGroup newId now with
      currentStock :=
        (findOrNew store bank body.bloodGroup newId now).currentStock - body.units
      lastUpdated := now } rfl
    (findOrNew_key store bank body.bloodGroup newId now).1
    (findOrNew_key store bank body.bloodGroup newId now).2

/-- A document that passes the validators still passes them with units added that are
not negative. -/
theorem validate_add (d : BloodInventory) (units : ℚ) (now : Int) (hd : validate d = true)
    (hu : 0 ≤ units) :
    validate { d with currentStock := d.currentStock + units, lastUpdated := now } = true := by
  simp only [validate, Bool.and_eq_true, decide_eq_true_eq] at hd ⊢
  obtain ⟨⟨⟨h1, h2⟩, h3⟩, h4⟩ := hd
  exact ⟨⟨⟨h1, by linarith⟩, h3⟩, h4⟩

/-- C11: an `updateInventory` call with operation `add` and positive `units`, for an
identified blood bank, answers 200 and leaves the record of (bloodBank, bloodGroup) with
`currentStock` equal to the previous one plus `units` and with its expiry batches
unchanged, when a record existed (and passes the validators, as every saved record does);
when none existed and the blood group is one of the eight, the record has
`currentStock = 0 + units` and no expiry batch. -/
theorem updateInventory_add_increments (store : Store) (user : AuthUser) (body : UpdateBody)
    (newId : Nat) (now : Int) (bank : Nat) (hbank : targetBloodBank user body = some bank)
    (hop : body.operation = "add") (hunits : 0 < body.units) :
    (∀ d : BloodInventory, findOne store bank body.bloodGroup = some d → validate d = true →
      (updateInventory store user body newId now).1.status = 200 ∧
      ∃ r : BloodInventory,
        findOne (updateInventory store user body newId now).2 bank body.bloodGroup = some r ∧
        r.currentStock = d.currentStock + body.units ∧
        r.expiryDates = d.expiryDates) ∧
    (findOne store bank body.bloodGroup = none → body.bloodGroup ∈ bloodGroups →
      (updateInventory store user body newId now).1.status = 200 ∧
      ∃ r : BloodInventory,
        findOne (updateInventory store user body newId now).2 bank body.bloodGroup = some r ∧
        r.currentStock = 0 + body.units ∧
        r.expiryDates = []) := by
  constructor
  · intro d hd hvd
    have hinv : findOrNew store bank body.bloodGroup newId now = d := by
      simp [findOrNew, hd]
    have hv := validate_add d body.units now hvd (le_of_lt hunits)
    have key := updateInventory_add_saved store user body newId now bank hbank hop
      (by rw [hinv]; exact hv)
    rw [hinv] at key
    exact ⟨key.1, _, key.2, rfl, rfl⟩
  · intro hd hg
    have hinv : findOrNew store bank body.bloodGroup newId now =
        newBloodInventory newId bank body.bloodGroup now := by
      simp [findOrNew, hd]
    have hv : validate
        { newBloodInventory newId bank body.bloodGroup now with
          currentStock :=
            (newBloodInventory newId bank body.bloodGroup now).currentStock + body.units
          lastUpdated := now } = true := by
      simp only [validate, newBloodInventory, Bool.and_eq_true, decide_eq_true_eq]
      exact ⟨⟨⟨hg, by linarith⟩, le_refl 0⟩, by norm_num⟩
    have key := updateInventory_add_saved store user body newId now bank hbank hop
      (by rw [hinv]; exact hv)
    rw [hinv] at key
    exact ⟨key.1, _, key.2, rfl, rfl⟩

theorem updateInventory_add_increments_witness :
    targetBloodBank { userId := 42, role := "bloodbank" }
      { bloodGroup := "A+", units := 5, operation := "add", bloodBankId := none } = some 42 ∧
    findOne [sampleRecord] 42 "A+" = some sampleRecord ∧
    validate sampleRecord = true ∧
    (updateInventory [sampleRecord] { userId := 42, role := "bloodbank" }
      { bloodGroup := "A+", units := 5, operation := "add", bloodBankId := none }
      99 1000).1.status = 200 ∧
    ∃ r : BloodInventory,
      findOne (updateInventory [sampleRecord] { userId := 42, role := "bloodbank" }
        { bloodGroup := "A+", units := 5, operation := "add", bloodBankId := none }
        99 1000).2 42 "A+" = some r ∧
      r.currentStock = sampleRecord.currentStock + 5 ∧
      r.expiryDates = sampleRecord.expiryDates := by
  have h1 : targetBloodBank { userId := 42, role := "bloodbank" }
      { bloodGroup := "A+", units := 5, operation := "add", bloodBankId := none } =
      some 42 := by simp [targetBloodBank]
  have h2 : findOne [sampleRecord] 42 "A+" = some sampleRecord := by
    simp [findOne, sampleRecord]
  have h3 : validate sampleRecord = true := by
    norm_num [validate, sampleRecord, bloodGroups]
  exact ⟨h1, h2, h3,
    (updateInventory_add_increments [sampleRecord] { userId := 42, role := "bloodbank" }
      { bloodGroup := "A+", units := 5, operation := "add", bloodBankId := none }
      99 1000 42 h1 rfl (by norm_num)).1 sampleRecord h2 h3⟩

/-- C12: a successful (200) `updateInventory` call with operation `remove` passed the
availability test, and leaves the record of the key with `currentStock` decreased by
exactly `units` and with `alerts` unchanged, whatever the resulting utilization; when
that utilization, the double that `((currentStock - units) / capacity) * 100` evaluates
to, is at most `lowLevel` (capacity positive), `removeStock` on the same document with the
same `units` appends a `low_stock` alert. -/
theorem updateInventory_remove_no_alert (store : Store) (user : AuthUser) (body : UpdateBody)
    (newId : Nat) (now : Int) (bank requestId : Nat) (inv : BloodInventory)
    (hbank : targetBloodBank user body = some bank)
    (hop : body.operation = "remove")
    (hinv : findOrNew store bank body.bloodGroup newId now = inv)
    (hok : (updateInventory store user body newId now).1.status = 200) :
    body.units ≤ inv.availableStock ∧
    (∃ r : BloodInventory,
      findOne (updateInventory store user body newId now).2 bank body.bloodGroup = some r ∧
      r.currentStock = inv.currentStock - body.units ∧
      r.alerts = inv.alerts) ∧
    (0 < inv.capacity →
      percentOf (inv.currentStock - body.units) inv.capacity ≤ inv.lowLevel →
      ∃ a : Alert,
        (inv.removeStock body.units requestId now).2.alerts = inv.alerts ++ [a] ∧
        a.type = AlertType.low_stock) := by
  have hle : body.units ≤ inv.availableStock := by
    by_contra hc
    have hlt : inv.availableStock < body.units := not_le.mp hc
    unfold updateInventory at hok
    simp [hbank, hop, hinv, hlt] at hok
  refine ⟨hle, ?_, ?_⟩
  · cases hv : validate
        { inv with currentStock := inv.currentStock - body.units, lastUpdated := now } with
    | false =>
      rw [updateInventory_remove store user body newId now bank hbank hop (hinv ▸ hle),
        hinv, saveAndRespond_invalid store _ _ now hv] at hok
      simp at hok
    | true =>
      have key := updateInventory_remove_saved store user body newId now bank hbank hop
        (hinv ▸ hle) (by rw [hinv]; exact hv)
      rw [hinv] at key
      exact ⟨_, key.2, rfl, rfl⟩
  · intro hcap hlow
    rw [removeStock_of_available inv body.units requestId now (not_lt.mpr hle)
      (ne_of_gt hcap), if_pos hlow]
    exact ⟨_, rfl, rfl⟩

theorem updateInventory_remove_no_alert_witness :
    targetBloodBank { userId := 42, role := "bloodbank" }
      { bloodGroup := "A+", units := 15, operation := "remove", bloodBankId := none } =
      some 42 ∧
    findOrNew [sampleRecord] 42 "A+" 99 1000 = sampleRecord ∧
    (updateInventory [sampleRecord] { userId := 42, role := "bloodbank" }
      { bloodGroup := "A+", units := 15, operation := "remove", bloodBankId := none }
      99 1000).1.status = 200 ∧
    (∃ r : BloodInventory,
      findOne (updateInventory [sampleRecord] { userId := 42, role := "bloodbank" }
        { bloodGroup := "A+", units := 15, operation := "remove", bloodBankId := none }
        99 1000).2 42 "A+" = some r ∧
      r.currentStock = sampleRecord.currentStock - 15 ∧
      r.alerts = sampleRecord.alerts) ∧
    (∃ a : Alert,
      (sampleRecord.removeStock 15 7 1000).2.alerts = sampleRecord.alerts ++ [a] ∧
      a.type = AlertType.low_stock) := by
  have h1 : targetBloodBank { userId := 42, role := "bloodbank" }
      { bloodGroup := "A+", units := 15, operation := "remove", bloodBankId := none } =
      some 42 := by simp [targetBloodBank]
  have h2 : findOrNew [sampleRecord] 42 "A+" 99 1000 = sampleRecord := by
    simp [findOrNew, findOne, sampleRecord]
  have h3 : (updateInventory [sampleRecord] { userId := 42, role := "bloodbank" }
      { bloodGroup := "A+", units := 15, operation := "remove", bloodBankId := none }
      99 1000).1.status = 200 :=
    (updateInventory_remove_saved [sampleRecord] { userId := 42, role := "bloodbank" }
      { bloodGroup := "A+", units := 15, operation := "remove", bloodBankId := none }
      99 1000 42 h1 rfl
      (by rw [h2]; norm_num [sampleRecord, BloodInventory.availableStock])
      (by rw [h2]; norm_num [validate, sampleRecord, bloodGroups])).1
  have key := updateInventory_remove_no_alert [sampleRecord]
    { userId := 42, role := "bloodbank" }
    { bloodGroup := "A+", units := 15, operation := "remove", bloodBankId := none }
    99 1000 42 7 sampleRecord h1 rfl h2 h3
  exact ⟨h1, h2, h3, key.2.1,
    key.2.2 (by norm_num [sampleRecord])
      (by norm_num [sampleRecord, percentOf_5_100])⟩

/-- The store after `saveAndRespond`: the store before it, or the store with the document
written (inserted when new, replaced under its `_id` when stored). -/
theorem saveAndRespond_store (store : Store) (inventory : BloodInventory) (isNew : Bool)
    (now : Int) :
    (saveAndRespond store inventory isNew now).2 = store ∨
    (saveAndRespond store inventory isNew now).2 =
      if isNew then store ++ [{ inventory with lastUpdated := now }]
      else store.map (fun d =>
        if d.id = inventory.id then { inventory with lastUpdated := now } else d) := by
  cases hv : validate { inventory with lastUpdated := now } with
  | false => left; rw [saveAndRespond_invalid store inventory isNew now hv]
  | true => right; rw [saveAndRespond_valid store inventory isNew now hv]

/-- The store after `updateInventory` for an identified blood bank: unchanged, or with
the one document the call worked on written, its `currentStock` set and `lastUpdated`
stamped. -/
theorem updateInventory_store (store : Store) (user : AuthUser) (body : UpdateBody)
    (newId : Nat) (now : Int) (bank : Nat) (hbank : targetBloodBank user body = some bank) :
    (updateInventory store user body newId now).2 = store ∨
    ∃ cs : ℚ, (updateInventory store user body newId now).2 =
      if (findOne store bank body.bloodGroup).isNone then
        store ++ [{ findOrNew store bank body.bloodGroup newId now with
                    currentStock := cs, lastUpdated := now }]
      else store.map (fun d =>
        if d.id = (findOrNew store bank body.bloodGroup newId now).id then
          { findOrNew store bank body.bloodGroup newId now with
            currentStock := cs, lastUpdated := now }
        else d) := by
  by_cases hadd : body.operation = "add"
  · rw [updateInventory_add store user body newId now bank hbank hadd]
    rcases saveAndRespond_store store
      { findOrNew store bank body.bloodGroup newId now with
        currentStock :=
          (findOrNew store bank body.bloodGroup newId now).currentStock + body.units }
      (findOne store bank body.bloodGroup).isNone now with h | h
    · exact Or.inl h
    · exact Or.inr ⟨_, h⟩
  · by_cases hrem : body.operation = "remove"
    · by_cases hlt : (findOrNew store bank body.bloodGroup newId now).availableStock <
          body.units
      · left
        unfold updateInventory
        simp [hbank, hrem, hlt]
      · rw [updateInventory_remove store user body newId now bank hbank hrem (not_lt.mp hlt)]
        rcases saveAndRespond_store store
          { findOrNew store bank body.bloodGroup newId now with
            currentStock :=
              (findOrNew store bank body.bloodGroup newId now).currentStock - body.units }
          (findOne store bank body.bloodGroup).isNone now with h | h
        · exact Or.inl h
        · exact Or.inr ⟨_, h⟩
    · left
      unfold updateInventory
      simp [hbank, hadd, hrem]

/-- C13: when `updateInventory` is called for a key without a record, the only record it
can add to the store is the new one, which starts from `currentStock = 0`,
`capacity = 100`, `reservedStock = 0`, `criticalLevel = 10`, `lowLevel = 20` and empty
expiry-batch and alert lists, the operation being applied to that `currentStock` (an `add`
of `units >= 0` for one of the eight blood groups stores `0 + units`); when a record
exists, the store keeps its length and the call changes nothing or rewrites that record
under its `_id`, with a new `currentStock` and `lastUpdated` only. -/
theorem updateInventory_find_or_create (store : Store) (user : AuthUser) (body : UpdateBody)
    (newId : Nat) (now : Int) (bank : Nat) (hbank : targetBloodBank user body = some bank) :
    (findOne store bank body.bloodGroup = none →
      ((updateInventory store user body newId now).2 = store ∨
        ∃ cs : ℚ, (updateInventory store user body newId now).2 =
          store ++
            [{ id := newId, bloodBank := bank, bloodGroup := body.bloodGroup,
               currentStock := cs, reservedStock := 0, capacity := 100, criticalLevel := 10,
               lowLevel := 20, expiryDates := [], lastUpdated := now, alerts := [] }]) ∧
      (body.operation = "add" → body.bloodGroup ∈ bloodGroups → 0 ≤ body.units →
        (updateInventory store user body newId now).2 =
          store ++
            [{ id := newId, bloodBank := bank, bloodGroup := body.bloodGroup,
               currentStock := 0 + body.units, reservedStock := 0, capacity := 100,
               criticalLevel := 10, lowLevel := 20, expiryDates := [], lastUpdated := now,
               alerts := [] }])) ∧
    (∀ d : BloodInventory, findOne store bank body.bloodGroup = some d →
      (updateInventory store user body newId now).2.length = store.length ∧
      ((updateInventory store user body newId now).2 = store ∨
        ∃ cs : ℚ, (updateInventory store user body newId now).2 =
          store.map (fun x =>
            if x.id = d.id then { d with currentStock := cs, lastUpdated := now }
            else x))) := by
  constructor
  · intro hnone
    have hinv : findOrNew store bank body.bloodGroup newId now =
        newBloodInventory newId bank body.bloodGroup now := by
      simp [findOrNew, hnone]
    constructor
    · rcases updateInventory_store store user body newId now bank hbank with h | ⟨cs, h⟩
      · exact Or.inl h
      · right
        refine ⟨cs, ?_⟩
        rw [h, hinv, hnone]
        simp [newBloodInventory]
    · intro hop hg hu
      have hv : validate
          { newBloodInventory newId bank body.bloodGroup now with
            currentStock :=
              (newBloodInventory newId bank body.bloodGroup now).currentStock + body.units
            lastUpdated := now } = true := by
        simp only [validate, newBloodInventory, Bool.and_eq_true, decide_eq_true_eq]
        exact ⟨⟨⟨hg, by linarith⟩, le_refl 0⟩, by norm_num⟩
      rw [updateInventory_add store user body newId now bank hbank hop, hinv,
        saveAndRespond_valid store _ _ now hv, hnone]
      simp [newBloodInventory]
  · intro d hd
    have hinv : findOrNew store bank body.bloodGroup newId now = d := by
      simp [findOrNew, hd]
    rcases updateInventory_store store user body newId now bank hbank with h | ⟨cs, h⟩
    · exact ⟨by rw [h], Or.inl h⟩
    · rw [hinv, hd] at h
      simp only [Option.isNone_some, Bool.false_eq_true, if_false] at h
      exact ⟨by rw [h, List.length_map], Or.inr ⟨cs, h⟩⟩

theorem updateInventory_find_or_create_witness :
    targetBloodBank { userId := 42, role := "bloodbank" }
      { bloodGroup := "O-", units := 3, operation := "add", bloodBankId := none } = some 42 ∧
    findOne [sampleRecord] 42 "O-" = none ∧
    (updateInventory [sampleRecord] { userId := 42, role := "bloodbank" }
      { bloodGroup := "O-", units := 3, operation := "add", bloodBankId := none }
      99 1000).2 =
      [sampleRecord] ++
        [{ id := 99, bloodBank := 42, bloodGroup := "O-", currentStock := 0 + 3,
           reservedStock := 0, capacity := 100, criticalLevel := 10, lowLevel := 20,
           expiryDates := [], lastUpdated := 1000, alerts := [] }] ∧
    findOne [sampleRecord] 42 "A+" = some sampleRecord ∧
    (updateInventory [sampleRecord] { userId := 42, role := "bloodbank" }
      { bloodGroup := "A+", units := 3, operation := "add", bloodBankId := none }
      99 1000).2.length = [sampleRecord].length := by
  have h1 : targetBloodBank { userId := 42, role := "bloodbank" }
      { bloodGroup := "O-", units := 3, operation := "add", bloodBankId := none } =
      some 42 := by simp [targetBloodBank]
  have h2 : findOne [sampleRecord] 42 "O-" = none := by simp [findOne, sampleRecord]
  have h3 : findOne [sampleRecord] 42 "A+" = some sampleRecord := by
    simp [findOne, sampleRecord]
  exact ⟨h1, h2,
    ((updateInventory_find_or_create [sampleRecord] { userId := 42, role := "bloodbank" }
      { bloodGroup := "O-", units := 3, operation := "add", bloodBankId := none }
      99 1000 42 h1).1 h2).2 rfl (by simp [bloodGroups]) (by norm_num),
    h3,
    ((updateInventory_find_or_create [sampleRecord] { userId := 42, role := "bloodbank" }
      { bloodGroup := "A+", units := 3, operation := "add", bloodBankId := none }
      99 1000 42 (by simp [targetBloodBank])).2 sampleRecord h3).1⟩

/-! ## getExpiringSoon -/

/-- The threshold of `getExpiringSoon` in a zone whose offset never changes is `days` times
24 hours after `now`. -/
theorem setDateDaysLater_fixedOffset (offset now days : Int) :
    setDateDaysLater (TimeZone.fixedOffset offset) now days = now + days * 86400000 := by
  simp only [setDateDaysLater, TimeZone.utc, TimeZone.localTime, TimeZone.fixedOffset,
    msPerDay]
  ring

/-- C14, as the code has it: with the current time fixed at `now`, `getExpiringSoon(days)`
returns exactly the expiry batches with `now < expiryDate <= threshold`, in their original
order, where `threshold` is `now` moved `days` calendar days on at the same local time of
day; a batch with `expiryDate <= now` is never returned; without an argument `days` is 7;
the threshold is `now + days * 86400000` ms plus the offset from UTC at `now` and less the
offset from UTC at the local time of the threshold, which in a zone whose offset never
changes is `now + days * 86400000` ms. -/
theorem getExpiringSoon_spec (self : BloodInventory) (tz : TimeZone) (now days : Int) :
    self.getExpiringSoon tz now (some days) =
      self.expiryDates.filter (fun e =>
        decide (now < e.expiryDate ∧
          e.expiryDate ≤ tz.utc (tz.localTime now + days * 86400000))) ∧
    (∀ e : ExpiryEntry, e ∈ self.getExpiringSoon tz now (some days) ↔
      e ∈ self.expiryDates ∧ now < e.expiryDate ∧
        e.expiryDate ≤ tz.utc (tz.localTime now + days * 86400000)) ∧
    (self.getExpiringSoon tz now (some days)).Sublist self.expiryDates ∧
    (∀ e : ExpiryEntry,
      e ∈ self.getExpiringSoon tz now (some days) → ¬ e.expiryDate ≤ now) ∧
    self.getExpiringSoon tz now none = self.getExpiringSoon tz now (some 7) ∧
    tz.utc (tz.localTime now + days * 86400000) =
      now + days * 86400000 +
        (tz.offsetAtUtc now - tz.offsetAtLocal (tz.localTime now + days * 86400000)) ∧
    (∀ offset : Int,
      self.getExpiringSoon (TimeZone.fixedOffset offset) now (some days) =
        self.expiryDates.filter (fun e =>
          decide (now < e.expiryDate ∧ e.expiryDate ≤ now + days * 86400000))) := by
  have hfilter : ∀ tz1 : TimeZone, self.getExpiringSoon tz1 now (some days) =
      self.expiryDates.filter (fun e =>
        decide (now < e.expiryDate ∧
          e.expiryDate ≤ tz1.utc (tz1.localTime now + days * 86400000))) := by
    intro tz1
    unfold BloodInventory.getExpiringSoon
    apply List.filter_congr
    intro e _
    simp only [Option.getD_some, gt_iff_lt, Bool.decide_and, setDateDaysLater, msPerDay]
    exact Bool.and_comm _ _
  refine ⟨hfilter tz, ?_, ?_, ?_, rfl, ?_, ?_⟩
  · intro e
    rw [hfilter tz]
    simp only [List.mem_filter, decide_eq_true_eq]
  · exact List.filter_sublist _
  · intro e he
    rw [hfilter tz] at he
    simp only [List.mem_filter, decide_eq_true_eq] at he
    exact not_le.mpr he.2.1
  · simp only [TimeZone.utc, TimeZone.localTime]
    ring
  · intro offset
    rw [hfilter (TimeZone.fixedOffset offset)]
    have h := setDateDaysLater_fixedOffset offset now days
    simp only [setDateDaysLater, msPerDay] at h
    rw [h]

/-- C14 read with a day of 24 hours fails when the clocks change inside the window: at noon
of the day before the clocks go forward, `getExpiringSoon(1)` has its threshold 23 hours
later, so the batch that expires 23 hours and a half after `now` is left out although
`now < expiryDate <= now + 24 h`; in a zone without a change the same call returns it. -/
theorem getExpiringSoon_clock_change_counterexample :
    batchRecord.getExpiringSoon (TimeZone.springForward 86400000) noonBeforeChange (some 1) =
      [{ units := 1, expiryDate := 122400000, donation := none }] ∧
    setDateDaysLater (TimeZone.springForward 86400000) noonBeforeChange 1 =
      noonBeforeChange + 23 * 3600000 ∧
    batchRecord.expiryDates.filter (fun e =>
        decide (noonBeforeChange < e.expiryDate ∧
          e.expiryDate ≤ noonBeforeChange + 1 * 86400000)) =
      [{ units := 1, expiryDate := 122400000, donation := none },
       { units := 2, expiryDate := 127800000, donation := none }] ∧
    batchRecord.getExpiringSoon (TimeZone.fixedOffset 0) noonBeforeChange (some 1) =
      [{ units := 1, expiryDate := 122400000, donation := none },
       { units := 2, expiryDate := 127800000, donation := none }] := by
  refine ⟨?_, ?_, ?_, ?_⟩
  · decide
  · decide
  · decide
  · decide

/-! ## The aggregations -/

/-- A stage whose expression succeeds on every document returns the list of the values. -/
theorem mapExcept_ok {α β : Type} (f : α → Except AggError β) (g : α → β) (l : List α)
    (h : ∀ a ∈ l, f a = Except.ok (g a)) : mapExcept f l = Except.ok (l.map g) := by
  induction l with
  | nil => rfl
  | cons a rest ih =>
    have ha : f a = Except.ok (g a) := h a (List.mem_cons_self a rest)
    have hr : mapExcept f rest = Except.ok (rest.map g) :=
      ih (fun b hb => h b (List.mem_cons_of_mem a hb))
    simp [mapExcept, ha, hr]

/-- The utilization expression of the aggregations on a record whose capacity is not
zero. -/
theorem utilizationExpr_ok (d : BloodInventory) (h : d.capacity ≠ 0) :
    utilizationExpr d = Except.ok (percentOf d.currentStock d.capacity) := by
  simp [utilizationExpr, mongoDivide, percentOf, h]

/-- Flagging the documents, keeping the flagged ones and dropping the flag is a filter. -/
theorem filter_flagged {α : Type} (p : α → Bool) (l : List α) :
    ((l.map (fun a => (a, p a))).filter (fun q => q.2)).map (fun q => q.1) = l.filter p := by
  induction l with
  | nil => rfl
  | cons a rest ih =>
    cases hp : p a <;> simp [List.filter_cons, hp, ih]

/-- The `$match` stage on records whose capacities are not zero. -/
theorem matchLowStock_ok (docs : List BloodInventory) (h : ∀ d ∈ docs, d.capacity ≠ 0) :
    matchLowStock docs =
      Except.ok (docs.filter (fun d =>
        decide (percentOf d.currentStock d.capacity ≤ d.lowLevel))) := by
  unfold matchLowStock
  rw [mapExcept_ok _
    (fun d => (d, decide (percentOf d.currentStock d.capacity ≤ d.lowLevel))) docs
    (fun d hd => by simp [utilizationExpr_ok d (h d hd)])]
  simp only
  rw [filter_flagged]

/-- The `$lookup` and `$project` stages on a record whose capacity is not zero. -/
theorem projectAlert_ok (users : List UserInfo) (d : BloodInventory) (h : d.capacity ≠ 0) :
    projectAlert users d = Except.ok (alertEntry users d) := by
  simp [projectAlert, alertEntry, utilizationExpr_ok d h]

/-- The result of `getSystemWideAlerts` on records whose capacities are not zero. -/
theorem getSystemWideAlerts_ok (store : Store) (users : List UserInfo)
    (h : ∀ d ∈ store, d.capacity ≠ 0) :
    getSystemWideAlerts store users =
      Except.ok
        (((store.filter (fun d =>
            decide (percentOf d.currentStock d.capacity ≤ d.lowLevel))).map
          (alertEntry users)).insertionSort (fun a b => a.utilization ≤ b.utilization)) := by
  unfold getSystemWideAlerts
  rw [matchLowStock_ok store h]
  simp only
  rw [mapExcept_ok (projectAlert users) (alertEntry users) _
    (fun d hd => projectAlert_ok users d (h d (List.mem_of_mem_filter hd)))]

/-- C15: on a collection whose records all have `capacity > 0`, `getSystemWideAlerts`
succeeds; its result is a rearrangement of the entries of exactly the records whose
utilization `currentStock / capacity * 100` is at most their own `lowLevel` (one entry for
each of them, none for another record), and it is ordered by non-decreasing
utilization. -/
theorem getSystemWideAlerts_spec (store : Store) (users : List UserInfo)
    (h : ∀ d ∈ store, 0 < d.capacity) :
    ∃ out : List SystemAlert,
      getSystemWideAlerts store users = Except.ok out ∧
      out.Perm ((store.filter (fun d =>
        decide (percentOf d.currentStock d.capacity ≤ d.lowLevel))).map (alertEntry users)) ∧
      out.Sorted (fun a b => a.utilization ≤ b.utilization) ∧
      out.length = (store.filter (fun d =>
        decide (percentOf d.currentStock d.capacity ≤ d.lowLevel))).length := by
  haveI : IsTotal SystemAlert (fun a b => a.utilization ≤ b.utilization) :=
    ⟨fun a b => le_total a.utilization b.utilization⟩
  haveI : IsTrans SystemAlert (fun a b => a.utilization ≤ b.utilization) :=
    ⟨fun _ _ _ hab hbc => le_trans hab hbc⟩
  refine ⟨_, getSystemWideAlerts_ok store users (fun d hd => ne_of_gt (h d hd)),
    List.perm_insertionSort _ _, List.sorted_insertionSort _ _, ?_⟩
  rw [(List.perm_insertionSort _ _).length_eq, List.length_map]

theorem getSystemWideAlerts_spec_witness :
    (∀ d ∈ sampleStore, 0 < d.capacity) ∧
    ∃ out : List SystemAlert,
      getSystemWideAlerts sampleStore [] = Except.ok out ∧
      out.Perm ((sampleStore.filter (fun d =>
        decide (percentOf d.currentStock d.capacity ≤ d.lowLevel))).map (alertEntry [])) ∧
      out.Sorted (fun a b => a.utilization ≤ b.utilization) ∧
      out.length = (sampleStore.filter (fun d =>
        decide (percentOf d.currentStock d.capacity ≤ d.lowLevel))).length := by
  have h : ∀ d ∈ sampleStore, 0 < d.capacity := by
    intro d hd
    simp only [sampleStore, List.mem_cons, List.mem_singleton, List.not_mem_nil,
      or_false] at hd
    rcases hd with rfl | rfl | rfl <;> norm_num [sampleRecord, lowRecord, fullRecord]
  exact ⟨h, getSystemWideAlerts_spec sampleStore [] h⟩

/-- The sample store through `getSystemWideAlerts`: the record at 5 % comes first, the one
at 20 % second, and the one at 50 % is not returned. -/
theorem getSystemWideAlerts_scenario :
    (getSystemWideAlerts sampleStore []).map (fun out => out.map (fun a => a.id)) =
      Except.ok [3, 1] := by
  rw [getSystemWideAlerts_ok sampleStore [] (by
    intro d hd
    simp only [sampleStore, List.mem_cons, List.mem_singleton, List.not_mem_nil,
      or_false] at hd
    rcases hd with rfl | rfl | rfl <;> norm_num [sampleRecord, lowRecord, fullRecord])]
  norm_num [sampleStore, sampleRecord, lowRecord, fullRecord, alertEntry, List.filter,
    List.insertionSort, List.orderedInsert, Except.map, percentOf_20_100, percentOf_5_100,
    percentOf_50_100]

/-- The `$group` stage on records whose capacities are not zero: the accumulators grow
by the sums and by the count of the low records. -/
theorem groupFrom_ok (docs : List BloodInventory) (acc : InventorySummary)
    (h : ∀ d ∈ docs, d.capacity ≠ 0) :
    groupFrom acc docs =
      Except.ok
        { totalStock := acc.totalStock + (docs.map (fun d => d.currentStock)).sum
          totalCapacity := acc.totalCapacity + (docs.map (fun d => d.capacity)).sum
          lowStockCount := acc.lowStockCount +
            (docs.filter (fun d =>
              decide (percentOf d.currentStock d.capacity ≤ d.lowLevel))).length } := by
  induction docs generalizing acc with
  | nil => simp [groupFrom]
  | cons d rest ih =>
    have hd : d.capacity ≠ 0 := h d (List.mem_cons_self d rest)
    have hr : ∀ x ∈ rest, x.capacity ≠ 0 := fun x hx => h x (List.mem_cons_of_mem d hx)
    unfold groupFrom
    simp only [accumulate, utilizationExpr_ok d hd]
    rw [ih _ hr]
    by_cases hl : percentOf d.currentStock d.capacity ≤ d.lowLevel
    · simp [hl, List.filter_cons, add_assoc]
      omega
    · simp [hl, List.filter_cons, add_assoc]

/-- The `summary` aggregation on a non-empty list of records whose capacities are not
zero. -/
theorem summarize_ok (docs : List BloodInventory) (hne : docs ≠ [])
    (h : ∀ d ∈ docs, d.capacity ≠ 0) :
    summarize docs =
      Except.ok (some
        { totalStock := (docs.map (fun d => d.currentStock)).sum
          totalCapacity := (docs.map (fun d => d.capacity)).sum
          lowStockCount :=
            (docs.filter (fun d =>
              decide (percentOf d.currentStock d.capacity ≤ d.lowLevel))).length }) := by
  cases docs with
  | nil => exact absurd rfl hne
  | cons d rest =>
    unfold summarize
    simp only
    rw [groupFrom_ok (d :: rest) _ h]
    simp

/-- Without `bloodBankId` in the request the `$match` of the summary keeps the records that
`find` returns: when these are not empty and all have `capacity > 0`, `getInventory` answers
200 and the summary holds the sum of `currentStock`, the sum of `capacity`, and the number
of records whose utilization is at most their own `lowLevel`. -/
theorem getInventory_summary_without_id (store : Store) (user : AuthUser)
    (query : Option QueryValue) (hq : inventoryQuery user none = Except.ok query)
    (hne : find store (query.map QueryValue.toObjectId) ≠ [])
    (hcap : ∀ d ∈ find store (query.map QueryValue.toObjectId), 0 < d.capacity) :
    (getInventory store user none).status = 200 ∧
    (getInventory store user none).summary =
      some
        { totalStock :=
            ((find store (query.map QueryValue.toObjectId)).map (fun d => d.currentStock)).sum
          totalCapacity :=
            ((find store (query.map QueryValue.toObjectId)).map (fun d => d.capacity)).sum
          lowStockCount :=
            ((find store (query.map QueryValue.toObjectId)).filter (fun d =>
              decide (percentOf d.currentStock d.capacity ≤ d.lowLevel))).length } := by
  have hsame : aggregateMatch store query = find store (query.map QueryValue.toObjectId) := by
    unfold inventoryQuery at hq
    by_cases hadmin : user.role = "admin"
    · simp [hadmin] at hq
      subst hq
      rfl
    · by_cases hbank : user.role = "bloodbank"
      · simp [hadmin, hbank] at hq
        subst hq
        rfl
      · simp [hadmin, hbank] at hq
  unfold getInventory
  rw [hq]
  simp only
  rw [hsame, summarize_ok _ hne (fun d hd => ne_of_gt (hcap d hd))]
  exact ⟨rfl, rfl⟩

/-- The sample store read by an admin without `bloodBankId`: 75 units of 300, two low
records. -/
theorem getInventory_summary_scenario :
    (getInventory sampleStore { userId := 1, role := "admin" } none).status = 200 ∧
    (getInventory sampleStore { userId := 1, role := "admin" } none).summary =
      some { totalStock := 75, totalCapacity := 300, lowStockCount := 2 } := by
  have h1 : inventoryQuery { userId := 1, role := "admin" } none = Except.ok none := by
    simp [inventoryQuery]
  have h2 : find sampleStore (Option.map QueryValue.toObjectId none) ≠ [] := by
    simp [find, sampleStore]
  have h3 : ∀ d ∈ find sampleStore (Option.map QueryValue.toObjectId none),
      0 < d.capacity := by
    intro d hd
    simp only [Option.map_none', find, sampleStore, List.mem_cons, List.mem_singleton,
      List.not_mem_nil, or_false] at hd
    rcases hd with rfl | rfl | rfl <;> norm_num [sampleRecord, lowRecord, fullRecord]
  have key := getInventory_summary_without_id sampleStore { userId := 1, role := "admin" }
    none h1 h2 h3
  refine ⟨key.1, ?_⟩
  rw [key.2]
  norm_num [find, sampleStore, sampleRecord, lowRecord, fullRecord, List.filter,
    percentOf_20_100, percentOf_5_100, percentOf_50_100]

/-- C16 fails on the code when the request carries `bloodBankId`: the `$match` of the summary
aggregation compares the stored `ObjectId` with the string of the query string and keeps
nothing, so the summary sent is `{}` whatever `find` returned. For an admin asking for
blood bank 42 of the sample store the two records of that bank are listed (25 units of
200, both low) and the summary is `{}`. -/
theorem getInventory_summary_uncast :
    (∀ (store : Store) (user : AuthUser) (b : Nat),
      (getInventory store user (some b)).status = 200 ∧
      (getInventory store user (some b)).summary = none) ∧
    getInventory sampleStore { userId := 1, role := "admin" } (some 42) =
      { status := 200, success := true, inventory := [sampleRecord, lowRecord],
        summary := none } ∧
    sampleRecord.currentStock + lowRecord.currentStock = 25 ∧
    sampleRecord.capacity + lowRecord.capacity = 200 ∧
    0 < sampleRecord.capacity ∧ 0 < lowRecord.capacity := by
  have hq : ∀ (user : AuthUser) (b : Nat),
      inventoryQuery user (some b) = Except.ok (some (QueryValue.text b)) := by
    intro user b
    simp [inventoryQuery]
  refine ⟨?_, ?_, ?_, ?_, ?_, ?_⟩
  · intro store user b
    unfold getInventory
    rw [hq]
    exact ⟨rfl, rfl⟩
  · unfold getInventory
    rw [hq]
    simp [aggregateMatch, summarize, find, QueryValue.toObjectId, sampleStore, sampleRecord,
      lowRecord, fullRecord, List.insertionSort, List.orderedInsert]
    decide
  · norm_num [sampleRecord, lowRecord]
  · norm_num [sampleRecord, lowRecord]
  · norm_num [sampleRecord]
  · norm_num [sampleRecord, lowRecord]

/-! ## The donation lifecycle -/

/-- The hook does nothing on a donation whose status is not `completed`. -/
theorem postSave_of_not_completed (doc : Donation) (store : Store) (newId : Nat) (now : Int)
    (h : doc.status ≠ "completed") : doc.postSave store newId now = store := by
  simp [Donation.postSave, h]

/-- The hook does nothing on a donation that is not marked safe. -/
theorem postSave_of_not_safe (doc : Donation) (store : Store) (newId : Nat) (now : Int)
    (h : doc.testResults.isSafe = false) : doc.postSave store newId now = store := by
  simp [Donation.postSave, h]

/-- The inventory after a `save()` that does not throw is the inventory after the hook. -/
theorem save_inventory (donations : List Donation) (store : Store) (doc : Donation)
    (newId : Nat) (now : Int) (r : List Donation × Store)
    (h : Donation.save donations store doc newId now = Except.ok r) :
    r.2 = doc.postSave store newId now := by
  unfold Donation.save at h
  split at h
  · cases h
    rfl
  · cases h

/-- A `save()` of a donation that passes the validators does not throw. -/
theorem save_valid (donations : List Donation) (store : Store) (doc : Donation)
    (newId : Nat) (now : Int) (h : doc.validate = true) :
    Donation.save donations store doc newId now =
      Except.ok (donations.map (fun d => if d.id = doc.id then doc else d),
        doc.postSave store newId now) := by
  simp [Donation.save, h]

/-- The inventory after `processTestResults` is the inventory before it, for every input:
the donation it saves has status `processed` or `rejected`, never `completed`, so the
condition of the post-save hook is false. -/
theorem processTestResults_inventory (donations : List Donation) (store : Store)
    (donationId : Nat) (testResults : Option TestResultsBody) (labTechnician : Option String)
    (newId : Nat) (now : Int) :
    (processTestResults donations store donationId testResults labTechnician newId now).2.2 =
      store := by
  unfold processTestResults
  cases donations.find? (fun d => d.id == donationId) with
  | none => rfl
  | some donation =>
    simp only
    split
    · rfl
    · cases testResults with
      | none => rfl
      | some body =>
        simp only
        split
        · rfl
        · rename_i donations1 store1 hsave
          have h1 := save_inventory _ _ _ _ _ _ hsave
          simp only at h1
          rw [h1]
          apply postSave_of_not_completed
          simp only
          split <;> decide

/-- C17 fails on the code: the sample donation is in status `completed`; after
`processTestResults` with the five tests negative the answer is 200, the donation is
stored as safe with status `processed`, and the inventory record of its blood bank and
group still holds 20 units and no expiry batch: the units are not added. -/
theorem processTestResults_skips_inventory :
    sampleDonation.status = "completed" ∧
    processTestResults [sampleDonation] [sampleRecord] 11 (some allNegative) (some "lab")
        99 1000 =
      ({ status := 200, success := true, message := DonationMessage.testsPassed,
         donation := some testedDonation },
       [testedDonation], [sampleRecord]) ∧
    testedDonation.testResults.isSafe = true ∧
    testedDonation.status = "processed" ∧
    findOne [sampleRecord] sampleDonation.bloodBank sampleDonation.bloodGroup =
      some sampleRecord ∧
    sampleRecord.currentStock = 20 ∧ sampleRecord.expiryDates = [] := by
  refine ⟨rfl, ?_, rfl, rfl, ?_, rfl, rfl⟩
  · simp [processTestResults, Donation.save, Donation.validate, Donation.postSave,
      sampleDonation, testedDonation, allNegative, isNegative, bloodGroups, donationStatuses]
  · simp [findOne, sampleRecord, sampleDonation]

/-- After the update of the hook on a key that has a record, `findOne` returns that record
with the units added, one batch appended and `lastUpdated` stamped. -/
theorem findOne_updateFirst (store : Store) (bank : Nat) (g : String) (units : ℚ)
    (expiryDate now : Int) (d : BloodInventory) (h : findOne store bank g = some d) :
    findOne (updateFirst bank g units expiryDate now store) bank g =
      some
        { d with
          currentStock := d.currentStock + units
          expiryDates := d.expiryDates ++
            [{ units := units, expiryDate := expiryDate, donation := none }]
          lastUpdated := now } := by
  induction store with
  | nil => simp [findOne] at h
  | cons x rest ih =>
    unfold findOne at h ih ⊢
    rw [List.find?_cons] at h
    unfold updateFirst
    cases hm : (x.bloodBank == bank && x.bloodGroup == g) with
    | true =>
      rw [hm] at h
      have hx : x = d := Option.some.inj h
      subst hx
      simp only [if_true]
      rw [List.find?_cons]
      simp only [hm]
    | false =>
      rw [hm] at h
      simp only [Bool.false_eq_true, if_false]
      rw [List.find?_cons]
      simp only [hm]
      exact ih h

/-- One run of the hook on a completed and safe donation whose key has a record. -/
theorem postSave_applied (doc : Donation) (store : Store) (newId : Nat) (now : Int)
    (d : BloodInventory) (hs : doc.status = "completed") (hsafe : doc.testResults.isSafe = true)
    (hd : findOne store doc.bloodBank doc.bloodGroup = some d) :
    findOne (doc.postSave store newId now) doc.bloodBank doc.bloodGroup =
      some
        { d with
          currentStock := d.currentStock + doc.unitsDonated
          expiryDates := d.expiryDates ++
            [{ units := doc.unitsDonated, expiryDate := doc.expiryDate, donation := none }]
          lastUpdated := now } := by
  unfold Donation.postSave findOneAndUpdate
  rw [if_pos ⟨hs, hsafe⟩, hd]
  exact findOne_updateFirst store _ _ _ _ now d hd

/-- The hook run `n` times on a completed and safe donation whose key has a record adds
the units `n` times and appends `n` batches. -/
theorem postSave_iterate (doc : Donation) (store : Store) (newId : Nat) (now : Int)
    (d : BloodInventory) (hs : doc.status = "completed") (hsafe : doc.testResults.isSafe = true)
    (hd : findOne store doc.bloodBank doc.bloodGroup = some d) (n : Nat) :
    ∃ r : BloodInventory,
      findOne ((fun s => doc.postSave s newId now)^[n] store) doc.bloodBank doc.bloodGroup =
        some r ∧
      r.currentStock = d.currentStock + n * doc.unitsDonated ∧
      r.expiryDates = d.expiryDates ++ List.replicate n
        { units := doc.unitsDonated, expiryDate := doc.expiryDate, donation := none } := by
  induction n with
  | zero => exact ⟨d, by simpa using hd, by simp, by simp⟩
  | succ n ih =>
    obtain ⟨r, hr, hcs, hex⟩ := ih
    rw [Function.iterate_succ_apply']
    refine ⟨_, postSave_applied doc _ newId now r hs hsafe hr, ?_, ?_⟩
    · simp only [hcs]
      push_cast
      ring
    · simp only [hex, List.replicate_succ', List.append_assoc]

/-- C18, as the code has it: the hook changes nothing on a save of a donation that is not
both `completed` and marked safe, and it applies the increment on every save of one that
is, keeping no trace of an earlier application: after `n` such saves the record of the key
holds `n * unitsDonated` more units and `n` more batches. A `save()` of a valid donation
always runs the hook. -/
theorem postSave_every_save (doc : Donation) (store : Store) (newId : Nat) (now : Int) :
    (doc.status ≠ "completed" ∨ doc.testResults.isSafe = false →
      doc.postSave store newId now = store) ∧
    (doc.status = "completed" → doc.testResults.isSafe = true →
      ∀ d : BloodInventory, findOne store doc.bloodBank doc.bloodGroup = some d →
      ∀ n : Nat, ∃ r : BloodInventory,
        findOne ((fun s => doc.postSave s newId now)^[n] store) doc.bloodBank
          doc.bloodGroup = some r ∧
        r.currentStock = d.currentStock + n * doc.unitsDonated ∧
        r.expiryDates = d.expiryDates ++ List.replicate n
          { units := doc.unitsDonated, expiryDate := doc.expiryDate, donation := none }) ∧
    (doc.validate = true → ∀ donations : List Donation,
      Donation.save donations store doc newId now =
        Except.ok (donations.map (fun d => if d.id = doc.id then doc else d),
          doc.postSave store newId now)) := by
  refine ⟨?_, ?_, ?_⟩
  · rintro (h | h)
    · exact postSave_of_not_completed doc store newId now h
    · exact postSave_of_not_safe doc store newId now h
  · intro hs hsafe d hd n
    exact postSave_iterate doc store newId now d hs hsafe hd n
  · intro hv donations
    exact save_valid donations store doc newId now hv

theorem postSave_every_save_witness :
    safeDonation.status = "completed" ∧ safeDonation.testResults.isSafe = true ∧
    findOne [sampleRecord] safeDonation.bloodBank safeDonation.bloodGroup =
      some sampleRecord ∧
    ∃ r : BloodInventory,
      findOne ((fun s => safeDonation.postSave s 99 1000)^[2] [sampleRecord])
        safeDonation.bloodBank safeDonation.bloodGroup = some r ∧
      r.currentStock = sampleRecord.currentStock + (2 : ℕ) * safeDonation.unitsDonated ∧
      r.expiryDates = sampleRecord.expiryDates ++ List.replicate 2
        { units := safeDonation.unitsDonated, expiryDate := safeDonation.expiryDate,
          donation := none } := by
  have h : findOne [sampleRecord] safeDonation.bloodBank safeDonation.bloodGroup =
      some sampleRecord := by
    simp [findOne, sampleRecord, safeDonation, sampleDonation]
  exact ⟨rfl, rfl, h,
    (postSave_every_save safeDonation [sampleRecord] 99 1000).2.1 rfl rfl sampleRecord h 2⟩

/-- C18 as stated fails. Through the handlers alone: the sample donation is tested safe
(`processed`), `completeDonation` accepts it again (its status is not `completed`) and the
save adds the unit (21); a second test report and a second `completeDonation` add the unit
of the same donation again (22, two batches). Two plain saves of a completed and safe
donation do the same. -/
theorem donation_units_added_twice :
    (completeDonation [testedDonation] [sampleRecord] 11 99 1000).2 =
      ([{ testedDonation with status := "completed" }],
       [{ sampleRecord with
          currentStock := 21
          expiryDates := [{ units := 1, expiryDate := 4000, donation := none }]
          lastUpdated := 1000 }]) ∧
    (processTestResults [{ testedDonation with status := "completed" }]
      [{ sampleRecord with
         currentStock := 21
         expiryDates := [{ units := 1, expiryDate := 4000, donation := none }]
         lastUpdated := 1000 }] 11 (some allNegative) (some "lab") 99 1000).2 =
      ([testedDonation],
       [{ sampleRecord with
          currentStock := 21
          expiryDates := [{ units := 1, expiryDate := 4000, donation := none }]
          lastUpdated := 1000 }]) ∧
    (completeDonation [testedDonation]
      [{ sampleRecord with
         currentStock := 21
         expiryDates := [{ units := 1, expiryDate := 4000, donation := none }]
         lastUpdated := 1000 }] 11 99 2000).2 =
      ([{ testedDonation with status := "completed" }],
       [{ sampleRecord with
          currentStock := 22
          expiryDates := [{ units := 1, expiryDate := 4000, donation := none },
                          { units := 1, expiryDate := 4000, donation := none }]
          lastUpdated := 2000 }]) ∧
    (safeDonation.postSave (safeDonation.postSave [sampleRecord] 99 1000) 99 2000) =
      [{ sampleRecord with
         currentStock := 22
         expiryDates := [{ units := 1, expiryDate := 4000, donation := none },
                         { units := 1, expiryDate := 4000, donation := none }]
         lastUpdated := 2000 }] := by
  refine ⟨?_, ?_, ?_, ?_⟩
  · simp [completeDonation, Donation.save, Donation.validate, Donation.postSave,
      findOneAndUpdate, findOne, updateFirst, testedDonation, sampleDonation, sampleRecord,
      bloodGroups, donationStatuses]
    norm_num
  · simp [processTestResults, Donation.save, Donation.validate, Donation.postSave,
      testedDonation, sampleDonation, allNegative, isNegative, bloodGroups, donationStatuses]
  · simp [completeDonation, Donation.save, Donation.validate, Donation.postSave,
      findOneAndUpdate, findOne, updateFirst, testedDonation, sampleDonation, sampleRecord,
      bloodGroups, donationStatuses]
    norm_num
  · simp [Donation.postSave, findOneAndUpdate, findOne, updateFirst, safeDonation,
      sampleDonation, sampleRecord]
    norm_num

/-! ## Request fulfilment -/

/-- A stored request that passes the validators still passes them once fulfilled. -/
theorem validate_fulfill (request : BloodRequest) (fulfilledBy : Nat) (unitsProvided : ℚ)
    (notes : Option String) (now : Int) (h : request.validate = true) :
    (request.fulfill fulfilledBy unitsProvided notes now).validate = true := by
  simp only [BloodRequest.validate, BloodRequest.fulfill, Bool.and_eq_true,
    decide_eq_true_eq] at h ⊢
  exact ⟨⟨⟨h.1.1.1, h.1.1.2⟩, h.1.2⟩, by simp [requestStatuses]⟩

/-- C19, as the code has it: the fulfil route never reads or writes the inventory, so the
store after the call is the store before it, whatever `unitsProvided` and whatever the
available stock; a stored request that passes the validators is answered with 200 and
saved with status `fulfilled` and the fulfilment details, and no insufficient-stock
failure exists on this path. -/
theorem fulfillRoute_ignores_stock (requests : List BloodRequest) (store : Store)
    (user : AuthUser) (requestId : Nat) (unitsProvided : ℚ) (notes : Option String)
    (now : Int) :
    (fulfillRoute requests store user requestId unitsProvided notes now).2.2 = store ∧
    (∀ request : BloodRequest,
      requests.find? (fun r => r.id == requestId) = some request →
      request.validate = true →
      (fulfillRoute requests store user requestId unitsProvided notes now).1 =
        { status := 200, success := true, message := RequestMessage.requestFulfilled,
          request := some
            { request with
              status := "fulfilled"
              fulfillmentDetails := some
                { fulfilledBy := user.userId, fulfilledAt := now,
                  unitsProvided := unitsProvided, notes := notes.getD "" } } }) := by
  constructor
  · unfold fulfillRoute
    cases requests.find? (fun r => r.id == requestId) with
    | none => rfl
    | some request =>
      simp only
      split <;> rfl
  · intro request hr hv
    unfold fulfillRoute
    rw [hr]
    simp only [validate_fulfill request user.userId unitsProvided notes now hv, if_true]
    rfl

theorem fulfillRoute_ignores_stock_witness :
    [sampleRequest].find? (fun r => r.id == 21) = some sampleRequest ∧
    sampleRequest.validate = true ∧
    (fulfillRoute [sampleRequest] [sampleRecord] { userId := 42, role := "bloodbank" } 21 25
      none 1000).2.2 = [sampleRecord] ∧
    (fulfillRoute [sampleRequest] [sampleRecord] { userId := 42, role := "bloodbank" } 21 25
      none 1000).1.status = 200 := by
  have h1 : [sampleRequest].find? (fun r => r.id == 21) = some sampleRequest := by
    simp [sampleRequest]
  have h2 : sampleRequest.validate = true := by
    norm_num [BloodRequest.validate, sampleRequest, bloodGroups, requestStatuses]
  have key := fulfillRoute_ignores_stock [sampleRequest] [sampleRecord]
    { userId := 42, role := "bloodbank" } 21 25 none 1000
  refine ⟨h1, h2, key.1, ?_⟩
  rw [key.2 sampleRequest h1 h2]

/-- C19 as stated fails: with 20 units available, fulfilling the sample request with
`unitsProvided = 25` is answered with 200, the request is saved as `fulfilled`, and the
stock record is untouched: no unit is removed and no failure is returned. -/
theorem fulfill_without_stock_counterexample :
    sampleRecord.availableStock = 20 ∧
    fulfillRoute [sampleRequest] [sampleRecord] { userId := 42, role := "bloodbank" } 21 25
        none 1000 =
      ({ status := 200, success := true, message := RequestMessage.requestFulfilled,
         request := some
           { sampleRequest with
             status := "fulfilled"
             fulfillmentDetails := some
               { fulfilledBy := 42, fulfilledAt := 1000, unitsProvided := 25,
                 notes := "" } } },
       [{ sampleRequest with
          status := "fulfilled"
          fulfillmentDetails := some
            { fulfilledBy := 42, fulfilledAt := 1000, unitsProvided := 25, notes := "" } }],
       [sampleRecord]) := by
  constructor
  · norm_num [BloodInventory.availableStock, sampleRecord]
  · simp [fulfillRoute, BloodRequest.fulfill, BloodRequest.validate, sampleRequest,
      bloodGroups, requestStatuses]

/-! ## getInventory: who sees what -/

/-- C20 fails on the code: a donor (user 7) who passes `bloodBankId = 42` is answered with
200 and the records of blood bank 42 (next to the summary `{}`), and so is blood bank 43;
without `bloodBankId` the donor is denied with 403 and blood bank 43 gets its own records
only. -/
theorem getInventory_foreign_bank :
    getInventory sampleStore { userId := 7, role := "donor" } (some 42) =
      { status := 200, success := true, inventory := [sampleRecord, lowRecord],
        summary := none } ∧
    (getInventory sampleStore { userId := 43, role := "bloodbank" } (some 42)).inventory =
      [sampleRecord, lowRecord] ∧
    sampleRecord.bloodBank = 42 ∧ lowRecord.bloodBank = 42 ∧
    (getInventory sampleStore { userId := 7, role := "donor" } none).status = 403 ∧
    (getInventory sampleStore { userId := 43, role := "bloodbank" } none).inventory =
      [fullRecord] := by
  refine ⟨?_, ?_, rfl, rfl, ?_, ?_⟩
  · simp [getInventory, inventoryQuery, find, aggregateMatch, QueryValue.toObjectId,
      sampleStore, sampleRecord, lowRecord, fullRecord, summarize, List.insertionSort,
      List.orderedInsert]
    decide
  · simp [getInventory, inventoryQuery, find, aggregateMatch, QueryValue.toObjectId,
      sampleStore, sampleRecord, lowRecord, fullRecord, summarize, List.insertionSort,
      List.orderedInsert]
    decide
  · simp [getInventory, inventoryQuery]
  · have h : (getInventory sampleStore { userId := 43, role := "bloodbank" } none).summary =
        some
          { totalStock := ((find sampleStore (some 43)).map (fun d => d.currentStock)).sum
            totalCapacity := ((find sampleStore (some 43)).map (fun d => d.capacity)).sum
            lowStockCount :=
              ((find sampleStore (some 43)).filter (fun d =>
                decide (percentOf d.currentStock d.capacity ≤ d.lowLevel))).length } :=
      (getInventory_summary_without_id sampleStore { userId := 43, role := "bloodbank" }
        (some (QueryValue.objectId 43)) (by simp [inventoryQuery])
        (by simp [find, QueryValue.toObjectId, sampleStore, sampleRecord, lowRecord,
          fullRecord])
        (by
          intro d hd
          simp [find, QueryValue.toObjectId, sampleStore, sampleRecord, lowRecord,
            fullRecord] at hd
          subst hd
          norm_num)).2
    unfold getInventory at h ⊢
    simp only [inventoryQuery] at h ⊢
    simp [find, QueryValue.toObjectId, sampleStore, sampleRecord, lowRecord, fullRecord,
      List.insertionSort, List.orderedInsert] at h ⊢
    split
    · simp_all
    · rfl

/-! ## getLowStockAlerts: who sees what -/

/-- C21: in `getLowStockAlerts` (no capacity being zero, so that no `$divide` fails) an
admin is answered with 200, the low-stock records of the whole store sorted by blood group
and `systemAlerts` equal to the result of `getSystemWideAlerts`; a blood bank is answered
with 200, the low-stock records among its own records only and an empty `systemAlerts`;
every other role is answered with 403 and no record. -/
theorem getLowStockAlerts_roles (store : Store) (users : List UserInfo) (user : AuthUser) :
    (user.role = "admin" → (∀ d ∈ store, d.capacity ≠ 0) →
      (getLowStockAlerts store users user).status = 200 ∧
      (getLowStockAlerts store users user).lowStock =
        (store.filter (fun d =>
          decide (percentOf d.currentStock d.capacity ≤ d.lowLevel))).insertionSort
          (fun a b => a.bloodGroup ≤ b.bloodGroup) ∧
      getSystemWideAlerts store users =
        Except.ok (getLowStockAlerts store users user).systemAlerts) ∧
    (user.role = "bloodbank" → (∀ d ∈ store, d.capacity ≠ 0) →
      (getLowStockAlerts store users user).status = 200 ∧
      (getLowStockAlerts store users user).lowStock =
        ((store.filter (fun d => d.bloodBank == user.userId)).filter (fun d =>
          decide (percentOf d.currentStock d.capacity ≤ d.lowLevel))).insertionSort
          (fun a b => a.bloodGroup ≤ b.bloodGroup) ∧
      (∀ d ∈ (getLowStockAlerts store users user).lowStock, d.bloodBank = user.userId) ∧
      (getLowStockAlerts store users user).systemAlerts = []) ∧
    (user.role ≠ "admin" → user.role ≠ "bloodbank" →
      getLowStockAlerts store users user =
        { status := 403, success := false, lowStock := [], systemAlerts := [] }) := by
  refine ⟨?_, ?_, ?_⟩
  · intro hrole hcap
    have hq : alertsQuery user = Except.ok none := by simp [alertsQuery, hrole]
    unfold getLowStockAlerts
    rw [hq]
    simp only [find]
    rw [matchLowStock_ok store hcap]
    simp only [hrole, if_true]
    rw [getSystemWideAlerts_ok store users hcap]
    exact ⟨rfl, rfl, rfl⟩
  · intro hrole hcap
    have hne : user.role ≠ "admin" := by rw [hrole]; decide
    have hq : alertsQuery user = Except.ok (some user.userId) := by
      simp [alertsQuery, hrole]
    have hcap1 : ∀ d ∈ store.filter (fun d => d.bloodBank == user.userId), d.capacity ≠ 0 :=
      fun d hd => hcap d (List.mem_of_mem_filter hd)
    unfold getLowStockAlerts
    rw [hq]
    simp only [find]
    rw [matchLowStock_ok _ hcap1]
    simp only [hne, if_false]
    refine ⟨trivial, trivial, ?_, trivial⟩
    intro d hd
    have hd1 := (List.perm_insertionSort _ _).subset hd
    have hd2 := List.mem_of_mem_filter hd1
    simpa using (List.mem_filter.mp hd2).2
  · intro h1 h2
    simp [getLowStockAlerts, alertsQuery, h1, h2]

theorem getLowStockAlerts_roles_witness :
    (∀ d ∈ sampleStore, d.capacity ≠ 0) ∧
    (getLowStockAlerts sampleStore [] { userId := 1, role := "admin" }).status = 200 ∧
    getSystemWideAlerts sampleStore [] =
      Except.ok (getLowStockAlerts sampleStore [] { userId := 1, role := "admin" }).systemAlerts ∧
    (getLowStockAlerts sampleStore [] { userId := 42, role := "bloodbank" }).status = 200 ∧
    (∀ d ∈ (getLowStockAlerts sampleStore [] { userId := 42, role := "bloodbank" }).lowStock,
      d.bloodBank = 42) ∧
    (getLowStockAlerts sampleStore [] { userId := 42, role := "bloodbank" }).systemAlerts = [] ∧
    getLowStockAlerts sampleStore [] { userId := 7, role := "donor" } =
      { status := 403, success := false, lowStock := [], systemAlerts := [] } := by
  have h : ∀ d ∈ sampleStore, d.capacity ≠ 0 := by
    intro d hd
    simp only [sampleStore, List.mem_cons, List.mem_singleton, List.not_mem_nil,
      or_false] at hd
    rcases hd with rfl | rfl | rfl <;> norm_num [sampleRecord, lowRecord, fullRecord]
  have ha := (getLowStockAlerts_roles sampleStore [] { userId := 1, role := "admin" }).1 rfl h
  have hb := (getLowStockAlerts_roles sampleStore []
    { userId := 42, role := "bloodbank" }).2.1 rfl h
  have hc := (getLowStockAlerts_roles sampleStore [] { userId := 7, role := "donor" }).2.2
    (by decide) (by decide)
  exact ⟨h, ha.1, ha.2.2, hb.1, hb.2.2.1, hb.2.2.2, hc⟩

/-! ## processTestResults: the safety mark -/

/-- C22 fails on the code: the sample donation is first reported HIV-positive (stored flag
`hiv = true`, status `rejected`), `completeDonation` accepts it again (its status is not
`completed`), and a second report that omits the `hiv` key is judged on the submitted keys
only: the donation is stored with `isSafe = true` and status `processed` while its stored
`hiv` flag is still true. -/
theorem processTestResults_safe_with_positive_flag :
    (processTestResults [sampleDonation] [sampleRecord] 11 (some hivPositive) (some "lab")
      99 1000).2.1 = [rejectedDonation] ∧
    (completeDonation [rejectedDonation] [sampleRecord] 11 99 1000).2.1 =
      [{ rejectedDonation with status := "completed" }] ∧
    (processTestResults [{ rejectedDonation with status := "completed" }] [sampleRecord] 11
      (some noFlags) (some "lab") 99 2000).2.1 =
      [{ rejectedDonation with
         status := "processed"
         testResults :=
           { rejectedDonation.testResults with testedAt := some 2000, isSafe := true } }] ∧
    ({ rejectedDonation with
       status := "processed"
       testResults :=
         { rejectedDonation.testResults with testedAt := some 2000, isSafe := true } }
      : Donation).testResults.hiv = true ∧
    ({ rejectedDonation with
       status := "processed"
       testResults :=
         { rejectedDonation.testResults with testedAt := some 2000, isSafe := true } }
      : Donation).testResults.isSafe = true := by
  refine ⟨?_, ?_, ?_, rfl, rfl⟩
  · simp [processTestResults, Donation.save, Donation.validate, Donation.postSave,
      sampleDonation, rejectedDonation, hivPositive, allNegative, isNegative, bloodGroups,
      donationStatuses]
  · simp [completeDonation, Donation.save, Donation.validate, Donation.postSave,
      sampleDonation, rejectedDonation, bloodGroups, donationStatuses]
  · simp [processTestResults, Donation.save, Donation.validate, Donation.postSave,
      sampleDonation, rejectedDonation, noFlags, isNegative, bloodGroups, donationStatuses]

/-! ## What the ledger operations keep -/

/-- Whatever its outcome, `removeStock` leaves `reservedStock`, `capacity`, the two
thresholds and the expiry batches as they were. -/
theorem removeStock_frame (self : BloodInventory) (units : ℚ) (requestId : Nat) (now : Int) :
    (self.removeStock units requestId now).2.reservedStock = self.reservedStock ∧
    (self.removeStock units requestId now).2.capacity = self.capacity ∧
    (self.removeStock units requestId now).2.criticalLevel = self.criticalLevel ∧
    (self.removeStock units requestId now).2.lowLevel = self.lowLevel ∧
    (self.removeStock units requestId now).2.expiryDates = self.expiryDates := by
  unfold BloodInventory.removeStock
  split
  · exact ⟨rfl, rfl, rfl, rfl, rfl⟩
  · dsimp only
    split <;> exact ⟨rfl, rfl, rfl, rfl, rfl⟩

/-- A `removeStock` that does not throw passed the availability test. -/
theorem removeStock_ok_le (self : BloodInventory) (units : ℚ) (requestId : Nat) (now : Int)
    (hok : (self.removeStock units requestId now).1 = Except.ok ()) :
    units ≤ self.availableStock := by
  by_contra hc
  have hlt : self.availableStock < units := not_le.mp hc
  simp [BloodInventory.removeStock, hlt] at hok

/-- With `0 <= reservedStock <= currentStock`, units within the available stock leave at
least the reserved stock. -/
theorem reserved_le_after_remove (d : BloodInventory) (units : ℚ)
    (h : d.reservedStock ≤ d.currentStock) (hle : units ≤ d.availableStock) :
    d.reservedStock ≤ d.currentStock - units := by
  have h1 : d.availableStock = d.currentStock - d.reservedStock := by
    unfold BloodInventory.availableStock
    exact max_eq_right (by linarith)
  rw [h1] at hle
  linarith

/-- A 200 answer of `updateInventory` for an identified blood bank: the operation was
`add` or an admitted `remove`, and `findOne` on the key returns the saved document. -/
theorem updateInventory_ok_saved (store : Store) (user : AuthUser) (body : UpdateBody)
    (newId : Nat) (now : Int) (bank : Nat) (inv : BloodInventory)
    (hbank : targetBloodBank user body = some bank)
    (hinv : findOrNew store bank body.bloodGroup newId now = inv)
    (hok : (updateInventory store user body newId now).1.status = 200) :
    (body.operation = "add" ∧
      findOne (updateInventory store user body newId now).2 bank body.bloodGroup =
        some { inv with currentStock := inv.currentStock + body.units, lastUpdated := now }) ∨
    (body.operation = "remove" ∧ body.units ≤ inv.availableStock ∧
      findOne (updateInventory store user body newId now).2 bank body.bloodGroup =
        some { inv with currentStock := inv.currentStock - body.units, lastUpdated := now }) := by
  by_cases hadd : body.operation = "add"
  · left
    refine ⟨hadd, ?_⟩
    cases hv : validate
        { inv with currentStock := inv.currentStock + body.units, lastUpdated := now } with
    | false =>
      rw [updateInventory_add store user body newId now bank hbank hadd, hinv,
        saveAndRespond_invalid store _ _ now hv] at hok
      simp at hok
    | true =>
      have key := updateInventory_add_saved store user body newId now bank hbank hadd
        (by rw [hinv]; exact hv)
      rw [hinv] at key
      exact key.2
  · by_cases hrem : body.operation = "remove"
    · right
      have hle : body.units ≤ inv.availableStock := by
        by_contra hc
        have hlt : inv.availableStock < body.units := not_le.mp hc
        unfold updateInventory at hok
        simp [hbank, hrem, hinv, hlt] at hok
      refine ⟨hrem, hle, ?_⟩
      cases hv : validate
          { inv with currentStock := inv.currentStock - body.units, lastUpdated := now } with
      | false =>
        rw [updateInventory_remove store user body newId now bank hbank hrem (hinv ▸ hle),
          hinv, saveAndRespond_invalid store _ _ now hv] at hok
        simp at hok
      | true =>
        have key := updateInventory_remove_saved store user body newId now bank hbank hrem
          (hinv ▸ hle) (by rw [hinv]; exact hv)
        rw [hinv] at key
        exact key.2
    · unfold updateInventory at hok
      simp [hbank, hadd, hrem] at hok

/-- C23: on a record with `0 <= reservedStock <= currentStock` and for positive `units`,
the record still satisfies `0 <= reservedStock <= currentStock` after a `removeStock` that
does not throw, after `addStockFromDonation`, and after an `updateInventory` call answered
with 200 (an `add` or an admitted `remove`) that worked on this record. -/
theorem ledger_keeps_reserved_le_current (self : BloodInventory) (units : ℚ)
    (donationId requestId : Nat) (expiryDate now : Int)
    (h0 : 0 ≤ self.reservedStock) (h1 : self.reservedStock ≤ self.currentStock)
    (hu : 0 < units) :
    ((self.removeStock units requestId now).1 = Except.ok () →
      0 ≤ (self.removeStock units requestId now).2.reservedStock ∧
      (self.removeStock units requestId now).2.reservedStock ≤
        (self.removeStock units requestId now).2.currentStock) ∧
    (0 ≤ (self.addStockFromDonation donationId units expiryDate now).reservedStock ∧
      (self.addStockFromDonation donationId units expiryDate now).reservedStock ≤
        (self.addStockFromDonation donationId units expiryDate now).currentStock) ∧
    (∀ (store : Store) (user : AuthUser) (body : UpdateBody) (newId bank : Nat),
      targetBloodBank user body = some bank →
      findOrNew store bank body.bloodGroup newId now = self →
      body.units = units →
      (updateInventory store user body newId now).1.status = 200 →
      ∃ r : BloodInventory,
        findOne (updateInventory store user body newId now).2 bank body.bloodGroup = some r ∧
        0 ≤ r.reservedStock ∧ r.reservedStock ≤ r.currentStock) := by
  refine ⟨?_, ?_, ?_⟩
  · intro hok
    have hle := removeStock_ok_le self units requestId now hok
    rw [(removeStock_frame self units requestId now).1,
      (removeStock_of_le self units requestId now hle).2]
    exact ⟨h0, reserved_le_after_remove self units h1 hle⟩
  · refine ⟨h0, ?_⟩
    show self.reservedStock ≤ self.currentStock + units
    linarith
  · intro store user body newId bank hbank hinv hunits hok
    rcases updateInventory_ok_saved store user body newId now bank self hbank hinv hok with
      ⟨_, hf⟩ | ⟨_, hle, hf⟩
    · refine ⟨_, hf, h0, ?_⟩
      show self.reservedStock ≤ self.currentStock + body.units
      rw [hunits]
      linarith
    · exact ⟨_, hf, h0, reserved_le_after_remove self body.units h1 hle⟩

theorem ledger_keeps_reserved_le_current_witness :
    0 ≤ sampleRecord.reservedStock ∧ sampleRecord.reservedStock ≤ sampleRecord.currentStock ∧
    (0 : ℚ) < 15 ∧
    (sampleRecord.removeStock 15 7 1000).1 = Except.ok () ∧
    (0 ≤ (sampleRecord.removeStock 15 7 1000).2.reservedStock ∧
      (sampleRecord.removeStock 15 7 1000).2.reservedStock ≤
        (sampleRecord.removeStock 15 7 1000).2.currentStock) ∧
    (0 ≤ (sampleRecord.addStockFromDonation 9 15 4000 1000).reservedStock ∧
      (sampleRecord.addStockFromDonation 9 15 4000 1000).reservedStock ≤
        (sampleRecord.addStockFromDonation 9 15 4000 1000).currentStock) := by
  have h0 : 0 ≤ sampleRecord.reservedStock := by norm_num [sampleRecord]
  have h1 : sampleRecord.reservedStock ≤ sampleRecord.currentStock := by
    norm_num [sampleRecord]
  have hok : (sampleRecord.removeStock 15 7 1000).1 = Except.ok () :=
    (removeStock_of_le sampleRecord 15 7 1000
      (by norm_num [sampleRecord, BloodInventory.availableStock])).1
  have key := ledger_keeps_reserved_le_current sampleRecord 15 9 7 4000 1000 h0 h1
    (by norm_num)
  exact ⟨h0, h1, by norm_num, hok, key.1 hok, key.2.1⟩

/-! ## Find-or-create, one call after the other and overlapped -/

/-- For an identified blood bank, `updateInventory` is its part after the first `await`
run on what `findOne` returns from the same store. -/
theorem updateInventory_eq_from (store : Store) (user : AuthUser) (body : UpdateBody)
    (newId : Nat) (now : Int) (bank : Nat) (hbank : targetBloodBank user body = some bank) :
    updateInventory store user body newId now =
      updateInventoryFrom (findOne store bank body.bloodGroup) store bank body newId now := by
  unfold updateInventory updateInventoryFrom findOrNew
  rw [hbank]

/-- The part after the first `await`, for an `add` of units that are not negative and a
`findOne` that found nothing: the new document is inserted into the store as it is at the
time of the save. -/
theorem updateInventoryFrom_none_add (store : Store) (bank : Nat) (body : UpdateBody)
    (newId : Nat) (now : Int) (hop : body.operation = "add")
    (hg : body.bloodGroup ∈ bloodGroups) (hu : 0 ≤ body.units) :
    updateInventoryFrom none store bank body newId now =
      ({ status := 200, success := true, message := ResponseMessage.inventoryUpdated,
         data := some
           { newBloodInventory newId bank body.bloodGroup now with
             currentStock := 0 + body.units } },
       store ++
         [{ newBloodInventory newId bank body.bloodGroup now with
            currentStock := 0 + body.units }]) := by
  have hv : validate
      { newBloodInventory newId bank body.bloodGroup now with
        currentStock := (newBloodInventory newId bank body.bloodGroup now).currentStock +
          body.units
        lastUpdated := now } = true := by
    simp only [validate, newBloodInventory, Bool.and_eq_true, decide_eq_true_eq]
    exact ⟨⟨⟨hg, by linarith⟩, le_refl 0⟩, by norm_num⟩
  unfold updateInventoryFrom
  simp only [hop, if_true, Option.isNone_none]
  rw [saveAndRespond_valid store _ _ now hv]
  simp [newBloodInventory]

/-- The records of a key in a store extended by a document of that key. -/
theorem recordsOf_append_key (store : Store) (bank : Nat) (g : String) (doc : BloodInventory)
    (hb : doc.bloodBank = bank) (hg : doc.bloodGroup = g) :
    recordsOf (store ++ [doc]) bank g = recordsOf store bank g ++ [doc] := by
  simp [recordsOf, List.filter_append, List.filter_cons, hb, hg]

/-- A key without a record has no records. -/
theorem recordsOf_of_findOne_none (store : Store) (bank : Nat) (g : String)
    (h : findOne store bank g = none) : recordsOf store bank g = [] := by
  unfold findOne at h
  unfold recordsOf
  rw [List.filter_eq_nil_iff]
  intro d hd
  have := List.find?_eq_none.mp h d hd
  simpa using this

/-- The update of the hook passes over a store without a record of the key. -/
theorem updateFirst_append_of_none (store : Store) (bank : Nat) (g : String) (units : ℚ)
    (expiryDate now : Int) (rest : Store) (h : findOne store bank g = none) :
    updateFirst bank g units expiryDate now (store ++ rest) =
      store ++ updateFirst bank g units expiryDate now rest := by
  induction store with
  | nil => rfl
  | cons x xs ih =>
    unfold findOne at h ih
    rw [List.find?_cons] at h
    cases hm : (x.bloodBank == bank && x.bloodGroup == g) with
    | true => rw [hm] at h; cases h
    | false =>
      rw [hm] at h
      rw [List.cons_append, updateFirst]
      simp only [hm, Bool.false_eq_true, if_false]
      rw [ih h, List.cons_append]

/-- Rewriting under a fresh `_id` leaves the stored documents as they are. -/
theorem map_replace_fresh (store : Store) (newId : Nat) (doc : BloodInventory)
    (h : ∀ d ∈ store, d.id ≠ newId) :
    store.map (fun d => if d.id = newId then doc else d) = store := by
  induction store with
  | nil => rfl
  | cons x xs ih =>
    have hx : x.id ≠ newId := h x (List.mem_cons_self x xs)
    rw [List.map_cons, ih (fun d hd => h d (List.mem_cons_of_mem x hd))]
    simp [hx]

/-- Two `add` calls on a key without a record, one after the other: the first inserts the
new document, the second finds it and rewrites it. -/
theorem updateInventory_twice_sequential (store : Store) (user1 user2 : AuthUser)
    (body1 body2 : UpdateBody) (newId1 newId2 : Nat) (now : Int) (bank : Nat)
    (hbank1 : targetBloodBank user1 body1 = some bank)
    (hbank2 : targetBloodBank user2 body2 = some bank)
    (hg : body2.bloodGroup = body1.bloodGroup)
    (hnone : findOne store bank body1.bloodGroup = none)
    (hfresh : ∀ d ∈ store, d.id ≠ newId1)
    (hop1 : body1.operation = "add") (hop2 : body2.operation = "add")
    (hgroup : body1.bloodGroup ∈ bloodGroups)
    (hu1 : 0 ≤ body1.units) (hu2 : 0 ≤ body2.units) :
    (updateInventory (updateInventory store user1 body1 newId1 now).2 user2 body2 newId2
      now).2 =
      store ++
        [{ newBloodInventory newId1 bank body1.bloodGroup now with
           currentStock := 0 + body1.units + body2.units }] := by
  rw [updateInventory_eq_from store user1 body1 newId1 now bank hbank1, hnone,
    updateInventoryFrom_none_add store bank body1 newId1 now hop1 hgroup hu1]
  simp only
  have hfound : findOne
      (store ++
        [{ newBloodInventory newId1 bank body1.bloodGroup now with
           currentStock := 0 + body1.units }]) bank body2.bloodGroup =
      some { newBloodInventory newId1 bank body1.bloodGroup now with
             currentStock := 0 + body1.units } := by
    rw [hg]
    exact findOne_append_new store bank body1.bloodGroup _ hnone rfl rfl
  have hinv : findOrNew
      (store ++
        [{ newBloodInventory newId1 bank body1.bloodGroup now with
           currentStock := 0 + body1.units }]) bank body2.bloodGroup newId2 now =
      { newBloodInventory newId1 bank body1.bloodGroup now with
        currentStock := 0 + body1.units } := by
    unfold findOrNew
    rw [hfound]
  have hv : validate
      { newBloodInventory newId1 bank body1.bloodGroup now with
        currentStock := 0 + body1.units + body2.units
        lastUpdated := now } = true := by
    simp only [validate, newBloodInventory, Bool.and_eq_true, decide_eq_true_eq]
    exact ⟨⟨⟨hgroup, by linarith⟩, le_refl 0⟩, by norm_num⟩
  rw [updateInventory_add _ user2 body2 newId2 now bank hbank2 hop2, hinv, hfound,
    saveAndRespond_valid _ _ _ now hv]
  simp only [Option.isNone_some, Bool.false_eq_true, if_false, List.map_append,
    List.map_cons, List.map_nil]
  rw [show (newBloodInventory newId1 bank body1.bloodGroup now).id = newId1 from rfl,
    map_replace_fresh store newId1 _ hfresh]
  simp [newBloodInventory]

/-- Two upserts of the hook on a key without a record, one after the other: the first
inserts the record, the second updates it. -/
theorem findOneAndUpdate_twice (store : Store) (bank : Nat) (g : String) (units1 units2 : ℚ)
    (expiry1 expiry2 : Int) (newId1 newId2 : Nat) (now : Int)
    (hnone : findOne store bank g = none) :
    findOneAndUpdate (findOneAndUpdate store bank g units1 expiry1 newId1 now) bank g units2
        expiry2 newId2 now =
      store ++
        [{ id := newId1, bloodBank := bank, bloodGroup := g,
           currentStock := units1 + units2, reservedStock := 0, capacity := 100,
           criticalLevel := 10, lowLevel := 20,
           expiryDates := [{ units := units1, expiryDate := expiry1, donation := none },
                           { units := units2, expiryDate := expiry2, donation := none }],
           lastUpdated := now, alerts := [] }] := by
  have h1 : findOneAndUpdate store bank g units1 expiry1 newId1 now =
      store ++
        [{ id := newId1, bloodBank := bank, bloodGroup := g, currentStock := units1,
           reservedStock := 0, capacity := 100, criticalLevel := 10, lowLevel := 20,
           expiryDates := [{ units := units1, expiryDate := expiry1, donation := none }],
           lastUpdated := now, alerts := [] }] := by
    unfold findOneAndUpdate
    rw [hnone]
  rw [h1]
  unfold findOneAndUpdate
  rw [findOne_append_new store bank g _ hnone rfl rfl]
  simp only
  rw [updateFirst_append_of_none store bank g units2 expiry2 now _ hnone]
  simp [updateFirst]

/-- C24, as the code has it: take a key (an identified blood bank and one of the eight
blood groups) without a record, and two `updateInventory` calls for it with operation `add`
and `units >= 0`, the `_id` given to the first new document being fresh. Run one after the
other, the two calls leave one record for the key, holding both amounts (the second call
finds the record the first inserted), and two upserts of the post-save hook applied one
after the other leave one record as well; run overlapped, both `findOne` resolving before
either `save()`, the two calls both answer 200 and each inserts its own document: the store
ends with two records for the key. -/
theorem findOrCreate_sequential_and_overlapped (store : Store) (user1 user2 : AuthUser)
    (body1 body2 : UpdateBody) (newId1 newId2 : Nat) (now : Int) (bank : Nat)
    (hbank1 : targetBloodBank user1 body1 = some bank)
    (hbank2 : targetBloodBank user2 body2 = some bank)
    (hg : body2.bloodGroup = body1.bloodGroup)
    (hnone : findOne store bank body1.bloodGroup = none)
    (hfresh : ∀ d ∈ store, d.id ≠ newId1)
    (hop1 : body1.operation = "add") (hop2 : body2.operation = "add")
    (hgroup : body1.bloodGroup ∈ bloodGroups)
    (hu1 : 0 ≤ body1.units) (hu2 : 0 ≤ body2.units) :
    recordsOf
        (updateInventory (updateInventory store user1 body1 newId1 now).2 user2 body2 newId2
          now).2 bank body1.bloodGroup =
      [{ newBloodInventory newId1 bank body1.bloodGroup now with
         currentStock := 0 + body1.units + body2.units }] ∧
    (∀ (units1 units2 : ℚ) (expiry1 expiry2 : Int),
      (recordsOf
        (findOneAndUpdate
          (findOneAndUpdate store bank body1.bloodGroup units1 expiry1 newId1 now)
          bank body1.bloodGroup units2 expiry2 newId2 now) bank body1.bloodGroup).length = 1) ∧
    (updateInventoryOverlapped store bank body1 newId1 bank body2 newId2 now).1.status = 200 ∧
    (updateInventoryOverlapped store bank body1 newId1 bank body2 newId2 now).2.1.status =
      200 ∧
    recordsOf (updateInventoryOverlapped store bank body1 newId1 bank body2 newId2 now).2.2
        bank body1.bloodGroup =
      [{ newBloodInventory newId1 bank body1.bloodGroup now with
         currentStock := 0 + body1.units },
       { newBloodInventory newId2 bank body1.bloodGroup now with
         currentStock := 0 + body2.units }] := by
  have hempty := recordsOf_of_findOne_none store bank body1.bloodGroup hnone
  have hnone2 : findOne store bank body2.bloodGroup = none := by rw [hg]; exact hnone
  have hgroup2 : body2.bloodGroup ∈ bloodGroups := by rw [hg]; exact hgroup
  refine ⟨?_, ?_, ?_, ?_, ?_⟩
  · rw [updateInventory_twice_sequential store user1 user2 body1 body2 newId1 newId2 now bank
      hbank1 hbank2 hg hnone hfresh hop1 hop2 hgroup hu1 hu2,
      recordsOf_append_key store bank body1.bloodGroup _ rfl rfl, hempty]
    rfl
  · intro units1 units2 expiry1 expiry2
    rw [findOneAndUpdate_twice store bank body1.bloodGroup units1 units2 expiry1 expiry2
      newId1 newId2 now hnone,
      recordsOf_append_key store bank body1.bloodGroup _ rfl rfl, hempty]
    rfl
  · unfold updateInventoryOverlapped
    simp only [hnone]
    rw [updateInventoryFrom_none_add store bank body1 newId1 now hop1 hgroup hu1]
  · unfold updateInventoryOverlapped
    simp only [hnone, hnone2]
    rw [updateInventoryFrom_none_add _ bank body2 newId2 now hop2 hgroup2 hu2]
  · unfold updateInventoryOverlapped
    simp only [hnone, hnone2]
    rw [updateInventoryFrom_none_add store bank body1 newId1 now hop1 hgroup hu1]
    simp only
    rw [updateInventoryFrom_none_add _ bank body2 newId2 now hop2 hgroup2 hu2]
    simp only
    rw [recordsOf_append_key _ bank body1.bloodGroup _ rfl (by rw [← hg]; rfl),
      recordsOf_append_key store bank body1.bloodGroup _ rfl rfl, hempty, hg]
    rfl

theorem findOrCreate_sequential_and_overlapped_witness :
    targetBloodBank { userId := 42, role := "bloodbank" }
      { bloodGroup := "O-", units := 3, operation := "add", bloodBankId := none } = some 42 ∧
    targetBloodBank { userId := 42, role := "bloodbank" }
      { bloodGroup := "O-", units := 2, operation := "add", bloodBankId := none } = some 42 ∧
    findOne [sampleRecord] 42 "O-" = none ∧
    (∀ d ∈ [sampleRecord], d.id ≠ 98) ∧
    recordsOf
        (updateInventory
          (updateInventory [sampleRecord] { userId := 42, role := "bloodbank" }
            { bloodGroup := "O-", units := 3, operation := "add", bloodBankId := none }
            98 1000).2
          { userId := 42, role := "bloodbank" }
          { bloodGroup := "O-", units := 2, operation := "add", bloodBankId := none }
          99 1000).2 42 "O-" =
      [{ newBloodInventory 98 42 "O-" 1000 with currentStock := 0 + 3 + 2 }] ∧
    recordsOf
        (updateInventoryOverlapped [sampleRecord] 42
          { bloodGroup := "O-", units := 3, operation := "add", bloodBankId := none } 98 42
          { bloodGroup := "O-", units := 2, operation := "add", bloodBankId := none } 99
          1000).2.2 42 "O-" =
      [{ newBloodInventory 98 42 "O-" 1000 with currentStock := 0 + 3 },
       { newBloodInventory 99 42 "O-" 1000 with currentStock := 0 + 2 }] := by
  have h1 : targetBloodBank { userId := 42, role := "bloodbank" }
      { bloodGroup := "O-", units := 3, operation := "add", bloodBankId := none } =
      some 42 := by simp [targetBloodBank]
  have h2 : targetBloodBank { userId := 42, role := "bloodbank" }
      { bloodGroup := "O-", units := 2, operation := "add", bloodBankId := none } =
      some 42 := by simp [targetBloodBank]
  have h3 : findOne [sampleRecord] 42 "O-" = none := by simp [findOne, sampleRecord]
  have h4 : ∀ d ∈ [sampleRecord], d.id ≠ 98 := by
    intro d hd
    rw [List.mem_singleton.mp hd]
    simp [sampleRecord]
  have key := findOrCreate_sequential_and_overlapped [sampleRecord]
    { userId := 42, role := "bloodbank" } { userId := 42, role := "bloodbank" }
    { bloodGroup := "O-", units := 3, operation := "add", bloodBankId := none }
    { bloodGroup := "O-", units := 2, operation := "add", bloodBankId := none }
    98 99 1000 42 h1 h2 rfl h3 h4 rfl rfl (by simp [bloodGroups]) (by norm_num) (by norm_num)
  exact ⟨h1, h2, h3, h4, key.1, key.2.2.2.2⟩

/-- C24 as stated fails: bank 42 has no O- record; two `add` calls for (42, O-) overlap, so
both `findOne` return nothing before either `save()` runs; both are answered with 200 and
the store ends with two records for the key, of 3 and of 2 units. -/
theorem findOrCreate_overlap_counterexample :
    findOne [sampleRecord] 42 "O-" = none ∧
    updateInventoryOverlapped [sampleRecord] 42
        { bloodGroup := "O-", units := 3, operation := "add", bloodBankId := none } 98 42
        { bloodGroup := "O-", units := 2, operation := "add", bloodBankId := none } 99 1000 =
      ({ status := 200, success := true, message := ResponseMessage.inventoryUpdated,
         data := some { newBloodInventory 98 42 "O-" 1000 with currentStock := 3 } },
       { status := 200, success := true, message := ResponseMessage.inventoryUpdated,
         data := some { newBloodInventory 99 42 "O-" 1000 with currentStock := 2 } },
       [sampleRecord,
        { newBloodInventory 98 42 "O-" 1000 with currentStock := 3 },
        { newBloodInventory 99 42 "O-" 1000 with currentStock := 2 }]) ∧
    (recordsOf
      [sampleRecord,
       { newBloodInventory 98 42 "O-" 1000 with currentStock := 3 },
       { newBloodInventory 99 42 "O-" 1000 with currentStock := 2 }] 42 "O-").length = 2 := by
  have h3 : findOne [sampleRecord] 42 "O-" = none := by simp [findOne, sampleRecord]
  refine ⟨h3, ?_, ?_⟩
  · unfold updateInventoryOverlapped
    simp only [h3]
    rw [updateInventoryFrom_none_add [sampleRecord] 42 _ 98 1000 rfl (by simp [bloodGroups])
      (by norm_num)]
    simp only
    rw [updateInventoryFrom_none_add _ 42 _ 99 1000 rfl (by simp [bloodGroups])
      (by norm_num)]
    simp [newBloodInventory]
  · simp [recordsOf, newBloodInventory, sampleRecord]

/-! ## Donor eligibility -/

/-- What `isEligibleToDonate` computes: true exactly for a user whose role is `donor`, whose
`donorStatus.isEligible` is true, whose current calendar year minus the calendar year of
birth is between 18 and 65, and whose `nextEligibleDate`, when set, is not later than the
current date. -/
theorem isEligibleToDonate_spec (self : User) (today : JSDate) :
    self.isEligibleToDonate today = true ↔
      self.role = "donor" ∧ self.donorStatus.isEligible = true ∧
      18 ≤ today.fullYear - self.dateOfBirth.fullYear ∧
      today.fullYear - self.dateOfBirth.fullYear ≤ 65 ∧
      (∀ nextEligibleDate : JSDate,
        self.donorStatus.nextEligibleDate = some nextEligibleDate →
        ¬ today.time < nextEligibleDate.time) := by
  unfold User.isEligibleToDonate
  by_cases hr : self.role = "donor"
  · cases he : self.donorStatus.isEligible with
    | false => simp [hr]
    | true =>
      by_cases ha : today.fullYear - self.dateOfBirth.fullYear < 18 ∨
          today.fullYear - self.dateOfBirth.fullYear > 65
      · simp only [hr, ne_eq, not_true_eq_false, if_false, ha, if_true]
        constructor
        · intro h; cases h
        · rintro ⟨_, _, h18, h65, _⟩
          rcases ha with h | h <;> omega
      · have h18 : 18 ≤ today.fullYear - self.dateOfBirth.fullYear := by
          by_contra hc; exact ha (Or.inl (not_le.mp hc))
        have h65 : today.fullYear - self.dateOfBirth.fullYear ≤ 65 := by
          by_contra hc; exact ha (Or.inr (not_le.mp hc))
        simp only [hr, ne_eq, not_true_eq_false, if_false, ha]
        cases hn : self.donorStatus.nextEligibleDate with
        | none => simp [h18, h65]
        | some next =>
          by_cases ht : today.time < next.time
          · simp [ht]
          · simp [ht, h18, h65, not_lt.mp ht]
  · simp [hr]

/-- C25 fails on the code: a donor born on 31 December 2008 is 17 in completed years on
1 January 2026 (the age the registration form computes for the same rule), yet
`isEligibleToDonate` returns true, the difference of the calendar years being 18; a donor
of the same data born a year earlier, 18 in completed years, is returned eligible as
well. -/
theorem isEligibleToDonate_counterexample :
    completedYears newYear2026 youngDonor.dateOfBirth = 17 ∧
    newYear2026.fullYear - youngDonor.dateOfBirth.fullYear = 18 ∧
    youngDonor.role = "donor" ∧ youngDonor.donorStatus.isEligible = true ∧
    youngDonor.donorStatus.nextEligibleDate = none ∧
    youngDonor.isEligibleToDonate newYear2026 = true ∧
    completedYears newYear2026
      { youngDonor.dateOfBirth with fullYear := 2007 } = 18 ∧
    ({ youngDonor with dateOfBirth := { youngDonor.dateOfBirth with fullYear := 2007 } } :
      User).isEligibleToDonate newYear2026 = true := by
  refine ⟨?_, ?_, rfl, rfl, rfl, ?_, ?_, ?_⟩
  · simp [completedYears, newYear2026, youngDonor]
  · simp [newYear2026, youngDonor]
  · simp [User.isEligibleToDonate, newYear2026, youngDonor]
  · simp [completedYears, newYear2026, youngDonor]
  · simp [User.isEligibleToDonate, newYear2026, youngDonor]

/-- The value of `canDonate`: an eligible donor without a last donation, whatever
`availableForDonation`, or an eligible and available donor whose last donation is at least
56 whole days old. -/
theorem canDonate_iff (self : Donor) (now : Int) :
    self.canDonate now = true ↔
      self.eligibilityStatus = "eligible" ∧
      (self.lastDonation = none ∨
        ∃ t : Int, self.lastDonation = some t ∧ 56 ≤ (now - t) / msPerDay ∧
          self.availableForDonation = true) := by
  unfold Donor.canDonate Donor.daysSinceLastDonation
  cases h : self.lastDonation with
  | none => simp
  | some t =>
    simp only [Option.isNone_some, Bool.false_eq_true, if_false, ge_iff_le, Bool.and_eq_true,
      decide_eq_true_eq]
    constructor
    · rintro ⟨⟨h1, h2⟩, h3⟩
      exact ⟨h2, Or.inr ⟨t, rfl, h1, h3⟩⟩
    · rintro ⟨h2, h | ⟨t1, ht, h1, h3⟩⟩
      · cases h
      · cases ht
        exact ⟨⟨h1, h2⟩, h3⟩

/-- C26 fails on the code: a donor who never donated, is eligible and has
`availableForDonation = false` has `canDonate = true`: the branch for a donor without a
last donation returns `eligibilityStatus === 'eligible'` alone. -/
theorem canDonate_ignores_availability :
    unavailableDonor.lastDonation = none ∧
    unavailableDonor.availableForDonation = false ∧
    unavailableDonor.canDonate 1767225600000 = true := by
  refine ⟨rfl, rfl, ?_⟩
  simp [Donor.canDonate, unavailableDonor]

/-- C27: for each of the eight blood groups `r`, `getCompatibleDonors(r)` is the list of
the groups `d` whose ABO antigens are among those of `r` and that are Rh-negative or
Rh-positive like `r`; so `O-` is in every result, `AB+` receives the eight groups, and
every group is in its own result. -/
theorem getCompatibleDonors_spec :
    (∀ r ∈ bloodGroups,
      Donor.getCompatibleDonors r = bloodGroups.filter (compatibleByAntigens r)) ∧
    (∀ r ∈ bloodGroups, ∀ d : String,
      d ∈ Donor.getCompatibleDonors r ↔ d ∈ bloodGroups ∧ compatibleByAntigens r d = true) ∧
    (∀ r ∈ bloodGroups, "O-" ∈ Donor.getCompatibleDonors r) ∧
    Donor.getCompatibleDonors "AB+" = bloodGroups ∧
    (∀ r ∈ bloodGroups, r ∈ Donor.getCompatibleDonors r) := by
  have h1 : ∀ r ∈ bloodGroups,
      Donor.getCompatibleDonors r = bloodGroups.filter (compatibleByAntigens r) := by
    decide
  refine ⟨h1, ?_, by decide, by decide, by decide⟩
  intro r hr d
  rw [h1 r hr, List.mem_filter]

/-! ## removeStock and the expiry batches -/

/-- C28: a `removeStock` that does not throw leaves `reservedStock`, `capacity`,
`criticalLevel`, `lowLevel` and the list of expiry batches as they were: no batch is
consumed or shortened, and the total of the units recorded in the batches is the same. -/
theorem removeStock_keeps_batches (self : BloodInventory) (units : ℚ) (requestId : Nat)
    (now : Int) (hok : (self.removeStock units requestId now).1 = Except.ok ()) :
    (self.removeStock units requestId now).2.reservedStock = self.reservedStock ∧
    (self.removeStock units requestId now).2.capacity = self.capacity ∧
    (self.removeStock units requestId now).2.criticalLevel = self.criticalLevel ∧
    (self.removeStock units requestId now).2.lowLevel = self.lowLevel ∧
    (self.removeStock units requestId now).2.expiryDates = self.expiryDates ∧
    (((self.removeStock units requestId now).2.expiryDates.map (fun b => b.units)).sum =
      (self.expiryDates.map (fun b => b.units)).sum) ∧
    (self.removeStock units requestId now).2.currentStock = self.currentStock - units := by
  have hf := removeStock_frame self units requestId now
  have hle := removeStock_ok_le self units requestId now hok
  exact ⟨hf.1, hf.2.1, hf.2.2.1, hf.2.2.2.1, hf.2.2.2.2, by rw [hf.2.2.2.2],
    (removeStock_of_le self units requestId now hle).2⟩

theorem removeStock_keeps_batches_witness :
    (({ sampleRecord with
        expiryDates := [{ units := 20, expiryDate := 4000, donation := some 9 }] }
      : BloodInventory).removeStock 15 7 1000).1 = Except.ok () ∧
    (({ sampleRecord with
        expiryDates := [{ units := 20, expiryDate := 4000, donation := some 9 }] }
      : BloodInventory).removeStock 15 7 1000).2.expiryDates =
      [{ units := 20, expiryDate := 4000, donation := some 9 }] ∧
    (({ sampleRecord with
        expiryDates := [{ units := 20, expiryDate := 4000, donation := some 9 }] }
      : BloodInventory).removeStock 15 7 1000).2.currentStock = 20 - 15 := by
  have hok := (removeStock_of_le
    { sampleRecord with
      expiryDates := [{ units := 20, expiryDate := 4000, donation := some 9 }] } 15 7 1000
    (by norm_num [sampleRecord, BloodInventory.availableStock])).1
  have key := removeStock_keeps_batches
    { sampleRecord with
      expiryDates := [{ units := 20, expiryDate := 4000, donation := some 9 }] } 15 7 1000 hok
  exact ⟨hok, key.2.2.2.2.1, key.2.2.2.2.2.2⟩

/-! ## updateInventory: an unknown operation -/

/-- C29: an `updateInventory` call whose operation is neither `add` nor `remove` is
answered with 400 and the store after the call is the store before it: no record is
created and none is modified. For an identified blood bank the message is the
invalid-operation one. -/
theorem updateInventory_invalid_operation (store : Store) (user : AuthUser)
    (body : UpdateBody) (newId : Nat) (now : Int)
    (hadd : body.operation ≠ "add") (hrem : body.operation ≠ "remove") :
    (updateInventory store user body newId now).1.status = 400 ∧
    (updateInventory store user body newId now).1.success = false ∧
    (updateInventory store user body newId now).2 = store ∧
    (∀ bank : Nat, targetBloodBank user body = some bank →
      (updateInventory store user body newId now).1.message =
        ResponseMessage.invalidOperation) := by
  unfold updateInventory
  cases hb : targetBloodBank user body with
  | none => simp
  | some bank => simp [hadd, hrem]

theorem updateInventory_invalid_operation_witness :
    ("set" : String) ≠ "add" ∧ ("set" : String) ≠ "remove" ∧
    (updateInventory [sampleRecord] { userId := 42, role := "bloodbank" }
      { bloodGroup := "O-", units := 3, operation := "set", bloodBankId := none }
      99 1000).1.status = 400 ∧
    (updateInventory [sampleRecord] { userId := 42, role := "bloodbank" }
      { bloodGroup := "O-", units := 3, operation := "set", bloodBankId := none }
      99 1000).2 = [sampleRecord] := by
  have key := updateInventory_invalid_operation [sampleRecord]
    { userId := 42, role := "bloodbank" }
    { bloodGroup := "O-", units := 3, operation := "set", bloodBankId := none } 99 1000
    (by decide) (by decide)
  exact ⟨by decide, by decide, key.1, key.2.2.1⟩

/-! ## The status of the aggregation and the status of the record -/

/-- On a record whose capacity is positive and whose utilization is at most `lowLevel`,
the status the aggregation projects is the `status` virtual. -/
theorem alertEntry_status (users : List UserInfo) (d : BloodInventory) (hcap : 0 < d.capacity)
    (hlow : percentOf d.currentStock d.capacity ≤ d.lowLevel) :
    (alertEntry users d).status = d.status := by
  unfold BloodInventory.status
  rw [utilization_of_ne_zero d (ne_of_gt hcap)]
  simp only [alertEntry, JSNum.le, decide_eq_true_eq, hlow, if_true]

/-- C30: on a collection whose records all have `capacity > 0`, every entry that
`getSystemWideAlerts` returns is the projection of a record of the collection whose
utilization is at most its `lowLevel`, and the status of the entry (`critical` if the
utilization is at most `criticalLevel`, else `low`) is the `status` virtual of that record,
whatever the order of `criticalLevel` and `lowLevel`. -/
theorem getSystemWideAlerts_status (store : Store) (users : List UserInfo)
    (out : List SystemAlert) (hcap : ∀ d ∈ store, 0 < d.capacity)
    (hout : getSystemWideAlerts store users = Except.ok out) :
    ∀ a ∈ out, ∃ d ∈ store,
      percentOf d.currentStock d.capacity ≤ d.lowLevel ∧
      projectAlert users d = Except.ok a ∧
      a.status =
        (if percentOf d.currentStock d.capacity ≤ d.criticalLevel then StockStatus.critical
         else StockStatus.low) ∧
      a.status = d.status := by
  intro a ha
  rw [getSystemWideAlerts_ok store users (fun d hd => ne_of_gt (hcap d hd))] at hout
  have hout1 := Except.ok.inj hout
  rw [← hout1] at ha
  have ha1 := (List.perm_insertionSort _ _).subset ha
  obtain ⟨d, hd, rfl⟩ := List.mem_map.mp ha1
  have hd1 := List.mem_filter.mp hd
  have hlow : percentOf d.currentStock d.capacity ≤ d.lowLevel := by simpa using hd1.2
  exact ⟨d, hd1.1, hlow, projectAlert_ok users d (ne_of_gt (hcap d hd1.1)), rfl,
    alertEntry_status users d (hcap d hd1.1) hlow⟩

theorem getSystemWideAlerts_status_witness :
    (∀ d ∈ sampleStore, 0 < d.capacity) ∧
    getSystemWideAlerts sampleStore [] =
      Except.ok
        (((sampleStore.filter (fun d =>
            decide (percentOf d.currentStock d.capacity ≤ d.lowLevel))).map
          (alertEntry [])).insertionSort (fun a b => a.utilization ≤ b.utilization)) ∧
    ∀ a ∈ ((sampleStore.filter (fun d =>
          decide (percentOf d.currentStock d.capacity ≤ d.lowLevel))).map
        (alertEntry [])).insertionSort (fun a b => a.utilization ≤ b.utilization),
      ∃ d ∈ sampleStore,
        percentOf d.currentStock d.capacity ≤ d.lowLevel ∧
        projectAlert [] d = Except.ok a ∧
        a.status =
          (if percentOf d.currentStock d.capacity ≤ d.criticalLevel then StockStatus.critical
           else StockStatus.low) ∧
        a.status = d.status := by
  have h : ∀ d ∈ sampleStore, 0 < d.capacity := by
    intro d hd
    simp only [sampleStore, List.mem_cons, List.mem_singleton, List.not_mem_nil,
      or_false] at hd
    rcases hd with rfl | rfl | rfl <;> norm_num [sampleRecord, lowRecord, fullRecord]
  have hout := getSystemWideAlerts_ok sampleStore [] (fun d hd => ne_of_gt (h d hd))
  exact ⟨h, hout, getSystemWideAlerts_status sampleStore [] _ h hout⟩

end Raktkosh
